import Mathlib

/-!
# MotionBrain: operating-state machine and ramped motor controller

A shallow embedding of `src/system/system_init.cpp` (class `SystemStateManager`)
and `src/motor/motor_driver.cpp` (class `MotorControl`), followed by theorems
about them.

Conventions of the embedding

* `uint8_t`, `uint16_t`, `uint32_t` values are `Nat`, `int16_t` values are `Int`;
  the conversions that C++ performs when a value is stored into such a type are
  written out as `u8`, `u16`, `u32`, `i16`.  A parameter of a fixed-width type is
  wrapped on entry, which is the conversion performed at the call.
* The C arrays `enabled_`, `currentSpeed_`, `targetSpeed_`, `lastUpdateTime_`,
  `driverError_` are functions of the index; only the indices the code touches
  (`0 .. NUM_MOTORS-1`, `0 .. NUM_DRIVERS-1`) are ever read or written.
* The hardware is the level of every GPIO pin (`digitalWrite`) and the duty of
  every LEDC channel (`ledcWrite`).  `pinMode`, `ledcSetup`, `ledcAttachPin` only
  configure the peripheral and are not modelled; `DebugLog` calls only print.
* `millis()` is the low 32 bits of the time since boot; every public operation
  takes the time `clock` at which it runs and reads `millis()` from it.
* The globals `systemState` and `motorControl` together with the hardware form
  one `System` value that the operations transform.
-/

namespace MotionBrain

/-! ## Fixed-width integers -/

/-- Conversion to `uint8_t`. -/
def u8 (n : Nat) : Nat := n % 256

/-- Conversion to `uint16_t`. -/
def u16 (n : Nat) : Nat := n % 65536

/-- Conversion to `uint32_t`. -/
def u32 (n : Nat) : Nat := n % 4294967296

/-- Conversion to `int16_t` (two's complement). -/
def i16 (z : Int) : Int := (z + 32768) % 65536 - 32768

/-- Subtraction of two `uint32_t` values: `a - b` modulo `2^32`. -/
def sub32 (a b : Nat) : Nat := (u32 a + 4294967296 - u32 b) % 4294967296

/-- The C `abs` on an `int`. -/
def cabs (z : Int) : Int := if z < 0 then -z else z

/-- Arduino `millis()`: the 32-bit millisecond counter at time `clock` (ms since boot). -/
def millis (clock : Nat) : Nat := u32 clock

/-- Write of one element of a C array. -/
def setAt {α : Type} (a : Nat → α) (i : Nat) (v : α) : Nat → α :=
  fun j => if j = i then v else a j

/-! ## `system_init.h` / `system_init.cpp` -/

/-- The enum `SystemState`. -/
inductive SystemState where
  | BOOT
  | IDLE
  | ARMED
  | FAULT
  deriving DecidableEq, Repr

/-- The data members of class `SystemStateManager`. -/
structure SystemStateManager where
  currentState_ : SystemState
  lastCommandTime_ : Nat
  timeoutMs_ : Nat

namespace SystemStateManager

/-- The constructor `SystemStateManager::SystemStateManager()`. -/
def new : SystemStateManager :=
  { currentState_ := SystemState.BOOT, lastCommandTime_ := 0, timeoutMs_ := 5000 }

/-- Member `getState`. -/
def getState (s : SystemStateManager) : SystemState := s.currentState_

/-- Member `isValidTransition(from, to)`. -/
def isValidTransition (from_ to_ : SystemState) : Bool :=
  if to_ = SystemState.FAULT then true
  else if from_ = SystemState.FAULT then decide (to_ = SystemState.IDLE)
  else
    match from_ with
    | SystemState.BOOT => decide (to_ = SystemState.IDLE)
    | SystemState.IDLE => decide (to_ = SystemState.ARMED)
    | SystemState.ARMED => decide (to_ = SystemState.IDLE)
    | SystemState.FAULT => false

/-- Member `resetTimeout()`. -/
def resetTimeout (clock : Nat) (s : SystemStateManager) : SystemStateManager :=
  { s with lastCommandTime_ := millis clock }

/-- Member `setTimeout(uint32_t timeoutMs)`. -/
def setTimeout (timeoutMs : Nat) (s : SystemStateManager) : SystemStateManager :=
  { s with timeoutMs_ := u32 timeoutMs }

/-- Member `transitionTo(newState)`: the returned flag and the new object state. -/
def transitionTo (clock : Nat) (newState : SystemState) (s : SystemStateManager) :
    Bool × SystemStateManager :=
  if s.currentState_ = newState then (true, s)
  else if !isValidTransition s.currentState_ newState then (false, s)
  else (true, resetTimeout clock { s with currentState_ := newState })

/-- Member `arm()`. -/
def arm (clock : Nat) (s : SystemStateManager) : Bool × SystemStateManager :=
  if s.currentState_ ≠ SystemState.IDLE then (false, s)
  else transitionTo clock SystemState.ARMED s

/-- Member `disarm()`. -/
def disarm (clock : Nat) (s : SystemStateManager) : Bool × SystemStateManager :=
  if s.currentState_ ≠ SystemState.ARMED then (false, s)
  else transitionTo clock SystemState.IDLE s

/-- Member `enterSafe()`. -/
def enterSafe (clock : Nat) (s : SystemStateManager) : Bool × SystemStateManager :=
  if s.currentState_ = SystemState.IDLE then (true, s)
  else transitionTo clock SystemState.IDLE s

/-- Member `update()`. -/
def update (clock : Nat) (s : SystemStateManager) : SystemStateManager :=
  if s.currentState_ = SystemState.IDLE ∨ s.currentState_ = SystemState.FAULT then s
  else
    let currentTime := millis clock
    let elapsed := sub32 currentTime s.lastCommandTime_
    if elapsed ≥ s.timeoutMs_ then (enterSafe clock s).2 else s

end SystemStateManager

/-! ## `motor_driver.h` / `motor_driver.cpp` -/

/-- The data members of class `MotorControl`. -/
structure MotorControl where
  enabled_ : Nat → Bool
  currentSpeed_ : Nat → Int
  targetSpeed_ : Nat → Int
  lastUpdateTime_ : Nat → Nat
  defaultSpeed_ : Nat
  driverError_ : Nat → Bool

/-- The outputs of the board: GPIO levels (`true` is HIGH) and LEDC duties. -/
structure Hardware where
  pin : Nat → Bool
  duty : Nat → Nat

/-- The two global objects and the hardware they drive. -/
structure System where
  systemState : SystemStateManager
  motorControl : MotorControl
  hw : Hardware

/-- Arduino `digitalWrite(pin, level)`. -/
def digitalWrite (p : Nat) (level : Bool) (sys : System) : System :=
  { sys with hw := { sys.hw with pin := setAt sys.hw.pin p level } }

/-- Arduino-ESP32 `ledcWrite(channel, duty)`. -/
def ledcWrite (channel : Nat) (d : Nat) (sys : System) : System :=
  { sys with hw := { sys.hw with duty := setAt sys.hw.duty channel d } }

namespace MotorControl

def NUM_MOTORS : Nat := 5
def NUM_DRIVERS : Nat := 3

def PIN_STBY_1 : Nat := 4
def PIN_AIN1_1 : Nat := 16
def PIN_AIN2_1 : Nat := 17
def PIN_PWMA_1 : Nat := 18
def PIN_BIN1_1 : Nat := 19
def PIN_BIN2_1 : Nat := 21
def PIN_PWMB_1 : Nat := 22

def PIN_STBY_2 : Nat := 5
def PIN_AIN1_2 : Nat := 23
def PIN_AIN2_2 : Nat := 25
def PIN_PWMA_2 : Nat := 26
def PIN_BIN1_2 : Nat := 27
def PIN_BIN2_2 : Nat := 32
def PIN_PWMB_2 : Nat := 33

def PIN_STBY_3 : Nat := 2
def PIN_AIN1_3 : Nat := 12
def PIN_AIN2_3 : Nat := 13
def PIN_PWMA_3 : Nat := 14
def PIN_BIN1_3 : Nat := 15
def PIN_BIN2_3 : Nat := 0
def PIN_PWMB_3 : Nat := 35

def PWM_CHANNEL_M1 : Nat := 0
def PWM_CHANNEL_M2 : Nat := 1
def PWM_CHANNEL_M3 : Nat := 2
def PWM_CHANNEL_M4 : Nat := 3
def PWM_CHANNEL_M5 : Nat := 4

def RAMP_STEP_SIZE : Nat := 10
def RAMP_INTERVAL_MS : Nat := 50

/-- The array `STBY_PINS[NUM_DRIVERS]`. -/
def STBY_PINS (driverId : Nat) : Nat :=
  match driverId with
  | 0 => PIN_STBY_1
  | 1 => PIN_STBY_2
  | _ => PIN_STBY_3

/-- The constructor `MotorControl::MotorControl()`. -/
def new : MotorControl :=
  { enabled_ := fun _ => false
    currentSpeed_ := fun _ => 0
    targetSpeed_ := fun _ => 0
    lastUpdateTime_ := fun _ => 0
    defaultSpeed_ := 100
    driverError_ := fun _ => false }

/-- Member `getCurrentState()`: reads the global `systemState`. -/
def getCurrentState (sys : System) : SystemState := sys.systemState.getState

/-- Member `checkSafety(action)`. -/
def checkSafety (sys : System) : Bool :=
  if sys.systemState.getState = SystemState.ARMED then true else false

/-- Member `isValidMotorId(motorId)`. -/
def isValidMotorId (motorId : Nat) : Bool :=
  decide (motorId ≥ 1) && decide (motorId ≤ NUM_MOTORS)

/-- Member `motorIdToIndex(motorId)`: `motorId - 1` as a `uint8_t`. -/
def motorIdToIndex (motorId : Nat) : Nat := u8 (motorId + 255)

/-- Member `indexToMotorId(index)`: `index + 1` as a `uint8_t`. -/
def indexToMotorId (index : Nat) : Nat := u8 (index + 1)

/-- Member `getDriverId(motorId)`. -/
def getDriverId (motorId : Nat) : Nat := motorIdToIndex motorId / 2

/-- Member `getMotorIndexInDriver(motorId)`. -/
def getMotorIndexInDriver (motorId : Nat) : Nat := motorIdToIndex motorId % 2

/-- Member `percentToSpeed(percent)`. -/
def percentToSpeed (mc : MotorControl) (percent : Nat) : Nat :=
  let percent := if percent > 100 then 100 else percent
  let speed := u16 (mc.defaultSpeed_ * percent / 100)
  let speed := if speed > 255 then 255 else speed
  u8 speed

/-- Member `setSTBY(driverId, enable)`. -/
def setSTBY (driverId : Nat) (enable : Bool) (sys : System) : System :=
  if driverId ≥ NUM_DRIVERS then sys
  else digitalWrite (STBY_PINS driverId) enable sys

/-- Member `setSTBYAll(enable)`. -/
def setSTBYAll (enable : Bool) (sys : System) : System :=
  (List.range NUM_DRIVERS).foldl (fun st i => setSTBY i enable st) sys

/-- Store into `targetSpeed_[index]`. -/
def setTarget (index : Nat) (v : Int) (sys : System) : System :=
  { sys with motorControl :=
      { sys.motorControl with targetSpeed_ := setAt sys.motorControl.targetSpeed_ index v } }

/-- Store into `currentSpeed_[index]`. -/
def setCurrent (index : Nat) (v : Int) (sys : System) : System :=
  { sys with motorControl :=
      { sys.motorControl with currentSpeed_ := setAt sys.motorControl.currentSpeed_ index v } }

/-- Store into `enabled_[index]`. -/
def setEnabled (index : Nat) (v : Bool) (sys : System) : System :=
  { sys with motorControl :=
      { sys.motorControl with enabled_ := setAt sys.motorControl.enabled_ index v } }

/-- Store into `lastUpdateTime_[index]`. -/
def setLastUpdate (index : Nat) (v : Nat) (sys : System) : System :=
  { sys with motorControl :=
      { sys.motorControl with lastUpdateTime_ := setAt sys.motorControl.lastUpdateTime_ index v } }

/-- The call `systemState.resetTimeout()` on the global object. -/
def resetTimeoutGlobal (clock : Nat) (sys : System) : System :=
  { sys with systemState := sys.systemState.resetTimeout clock }

/-- Member `init()`. -/
def init (sys : System) : Bool × System :=
  let sys := setSTBYAll false sys
  let sys := ledcWrite PWM_CHANNEL_M1 0 sys
  let sys := ledcWrite PWM_CHANNEL_M2 0 sys
  let sys := ledcWrite PWM_CHANNEL_M3 0 sys
  let sys := ledcWrite PWM_CHANNEL_M4 0 sys
  let sys := ledcWrite PWM_CHANNEL_M5 0 sys
  let sys := digitalWrite PIN_AIN1_1 false sys
  let sys := digitalWrite PIN_AIN2_1 false sys
  let sys := digitalWrite PIN_BIN1_1 false sys
  let sys := digitalWrite PIN_BIN2_1 false sys
  let sys := digitalWrite PIN_AIN1_2 false sys
  let sys := digitalWrite PIN_AIN2_2 false sys
  let sys := digitalWrite PIN_BIN1_2 false sys
  let sys := digitalWrite PIN_BIN2_2 false sys
  let sys := digitalWrite PIN_AIN1_3 false sys
  let sys := digitalWrite PIN_AIN2_3 false sys
  let sys := digitalWrite PIN_BIN1_3 false sys
  let sys := digitalWrite PIN_BIN2_3 false sys
  (true, sys)

/-- Member `setDefaultSpeed(uint8_t speed)`. -/
def setDefaultSpeed (speed : Nat) (sys : System) : Bool × System :=
  let speed := u8 speed
  if speed = 0 then (false, sys)
  else if speed > 255 then (false, sys)
  else (true, { sys with motorControl := { sys.motorControl with defaultSpeed_ := speed } })

/-- Member `getDefaultSpeed()`. -/
def getDefaultSpeed (sys : System) : Nat := sys.motorControl.defaultSpeed_

/-- Member `forward(uint8_t motorId, uint8_t percent)`. -/
def forward (clock : Nat) (motorId percent : Nat) (sys : System) : Bool × System :=
  let motorId := u8 motorId
  let percent := u8 percent
  if !isValidMotorId motorId then (false, sys)
  else if !checkSafety sys then (false, sys)
  else
    let percent := if percent > 100 then 100 else percent
    let speed := percentToSpeed sys.motorControl percent
    let index := motorIdToIndex motorId
    let sys := setTarget index (speed : Int) sys
    let sys := setEnabled index true sys
    let sys := resetTimeoutGlobal clock sys
    (true, sys)

/-- Member `forward(uint8_t motorId)`: the overload without a percentage. -/
def forwardDefault (clock : Nat) (motorId : Nat) (sys : System) : Bool × System :=
  forward clock (u8 motorId) 100 sys

/-- Member `reverse(uint8_t motorId, uint8_t percent)`. -/
def reverse (clock : Nat) (motorId percent : Nat) (sys : System) : Bool × System :=
  let motorId := u8 motorId
  let percent := u8 percent
  if !isValidMotorId motorId then (false, sys)
  else if !checkSafety sys then (false, sys)
  else
    let percent := if percent > 100 then 100 else percent
    let speed := percentToSpeed sys.motorControl percent
    let reverseSpeed := i16 (-(i16 (speed : Int)))
    let index := motorIdToIndex motorId
    let sys := setTarget index reverseSpeed sys
    let sys := setEnabled index true sys
    let sys := resetTimeoutGlobal clock sys
    (true, sys)

/-- Member `reverse(uint8_t motorId)`: the overload without a percentage. -/
def reverseDefault (clock : Nat) (motorId : Nat) (sys : System) : Bool × System :=
  reverse clock (u8 motorId) 100 sys

/-- Member `setSpeed(uint8_t motorId, int16_t speed)`. -/
def setSpeed (clock : Nat) (motorId : Nat) (speed : Int) (sys : System) : Bool × System :=
  let motorId := u8 motorId
  let speed := i16 speed
  if !isValidMotorId motorId then (false, sys)
  else if !checkSafety sys then (false, sys)
  else
    let speed := if speed < -255 then -255 else speed
    let speed := if speed > 255 then 255 else speed
    let index := motorIdToIndex motorId
    let sys := setTarget index speed sys
    let sys := if speed ≠ 0 then setEnabled index true sys else sys
    let sys := resetTimeoutGlobal clock sys
    (true, sys)

/-- Member `setSpeedAll(int16_t speed)`. -/
def setSpeedAll (clock : Nat) (speed : Int) (sys : System) : Bool × System :=
  let speed := i16 speed
  if !checkSafety sys then (false, sys)
  else
    let speed := if speed < -255 then -255 else speed
    let speed := if speed > 255 then 255 else speed
    let sys := (List.range NUM_MOTORS).foldl
      (fun st i =>
        let st := setTarget i speed st
        if speed ≠ 0 then setEnabled i true st else st) sys
    let sys := resetTimeoutGlobal clock sys
    (true, sys)

/-- Member `stop(uint8_t motorId)`. -/
def stop (clock : Nat) (motorId : Nat) (sys : System) : Bool × System :=
  let motorId := u8 motorId
  if !isValidMotorId motorId then (false, sys)
  else if !checkSafety sys then (false, sys)
  else
    let index := motorIdToIndex motorId
    let sys := setTarget index 0 sys
    let sys := resetTimeoutGlobal clock sys
    (true, sys)

/-- Member `stopAll()`. -/
def stopAll (clock : Nat) (sys : System) : Bool × System :=
  if !checkSafety sys then (false, sys)
  else
    let sys := (List.range NUM_MOTORS).foldl (fun st i => setTarget i 0 st) sys
    let sys := resetTimeoutGlobal clock sys
    (true, sys)

/-- The body of the loop of `emergencyStop()` for one array index `i`. -/
def emergencyStopMotor (sys : System) (i : Nat) : System :=
  let motorId := indexToMotorId i
  let index := motorIdToIndex motorId
  let sys := setTarget index 0 sys
  let sys := setCurrent index 0 sys
  let sys := setEnabled index false sys
  let sys := setLastUpdate index 0 sys
  let pwmChannel := index
  let sys := ledcWrite pwmChannel 0 sys
  let driverId := getDriverId motorId
  let motorIndex := getMotorIndexInDriver motorId
  if driverId = 0 then
    if motorIndex = 0 then
      digitalWrite PIN_AIN2_1 false (digitalWrite PIN_AIN1_1 false sys)
    else
      digitalWrite PIN_BIN2_1 false (digitalWrite PIN_BIN1_1 false sys)
  else if driverId = 1 then
    if motorIndex = 0 then
      digitalWrite PIN_AIN2_2 false (digitalWrite PIN_AIN1_2 false sys)
    else
      digitalWrite PIN_BIN2_2 false (digitalWrite PIN_BIN1_2 false sys)
  else
    if motorIndex = 0 then
      digitalWrite PIN_AIN2_3 false (digitalWrite PIN_AIN1_3 false sys)
    else
      digitalWrite PIN_BIN2_3 false (digitalWrite PIN_BIN1_3 false sys)

/-- Member `emergencyStop()`. -/
def emergencyStop (sys : System) : System :=
  let sys := (List.range NUM_MOTORS).foldl emergencyStopMotor sys
  setSTBYAll false sys

/-- Member `isEnabled(uint8_t motorId)`. -/
def isEnabled (motorId : Nat) (sys : System) : Bool :=
  let motorId := u8 motorId
  if !isValidMotorId motorId then false
  else if getCurrentState sys ≠ SystemState.ARMED then false
  else
    let index := motorIdToIndex motorId
    sys.motorControl.enabled_ index && decide (sys.motorControl.currentSpeed_ index ≠ 0)

/-- Member `isEnabled()`: whether any motor is active. -/
def isEnabledAny (sys : System) : Bool :=
  if getCurrentState sys ≠ SystemState.ARMED then false
  else
    (List.range NUM_MOTORS).any
      (fun i => sys.motorControl.enabled_ i && decide (sys.motorControl.currentSpeed_ i ≠ 0))

/-- Member `getSpeed(uint8_t motorId)`. -/
def getSpeed (motorId : Nat) (sys : System) : Int :=
  let motorId := u8 motorId
  if !isValidMotorId motorId then 0
  else sys.motorControl.currentSpeed_ (motorIdToIndex motorId)

/-- The block of `setMotorSpeedInternal` that drives the pins of one motor, selected
by driver and by output (A is 0, B is 1): the two direction pins, then the PWM duty.
`none` is the `return false` taken for output B of driver 3, which has no motor. -/
def writeMotorPins (driverId motorIndex : Nat) (forward reverse : Bool) (pwmValue : Nat)
    (sys : System) : Option System :=
  if driverId = 0 then
    if motorIndex = 0 then
      some (ledcWrite PWM_CHANNEL_M1 pwmValue
        (digitalWrite PIN_AIN2_1 reverse (digitalWrite PIN_AIN1_1 forward sys)))
    else
      some (ledcWrite PWM_CHANNEL_M2 pwmValue
        (digitalWrite PIN_BIN2_1 reverse (digitalWrite PIN_BIN1_1 forward sys)))
  else if driverId = 1 then
    if motorIndex = 0 then
      some (ledcWrite PWM_CHANNEL_M3 pwmValue
        (digitalWrite PIN_AIN2_2 reverse (digitalWrite PIN_AIN1_2 forward sys)))
    else
      some (ledcWrite PWM_CHANNEL_M4 pwmValue
        (digitalWrite PIN_BIN2_2 reverse (digitalWrite PIN_BIN1_2 forward sys)))
  else
    if motorIndex = 0 then
      some (ledcWrite PWM_CHANNEL_M5 pwmValue
        (digitalWrite PIN_AIN2_3 reverse (digitalWrite PIN_AIN1_3 forward sys)))
    else
      none

/-- Member `setMotorSpeedInternal(uint8_t motorId, int16_t speed)`. -/
def setMotorSpeedInternal (motorId : Nat) (speed : Int) (sys : System) : Bool × System :=
  let motorId := u8 motorId
  let speed := i16 speed
  if !isValidMotorId motorId then (false, sys)
  else
    let speed := if speed < -255 then -255 else speed
    let speed := if speed > 255 then 255 else speed
    let index := motorIdToIndex motorId
    let driverId := getDriverId motorId
    let motorIndex := getMotorIndexInDriver motorId
    if sys.motorControl.driverError_ driverId then (false, sys)
    else
      let forward := decide (speed > 0)
      let reverse := decide (speed < 0)
      let pwmValue := u8 (if speed < 0 then -speed else speed).toNat
      match writeMotorPins driverId motorIndex forward reverse pwmValue sys with
      | none => (false, sys)
      | some sys =>
        let sys :=
          if getCurrentState sys = SystemState.ARMED then setSTBY driverId true sys
          else setSTBY driverId false sys
        let sys := setCurrent index speed sys
        let sys := setEnabled index (decide (speed ≠ 0)) sys
        (true, sys)

/-- The first loop of `update()`, run when the state is not ARMED: body for index `i`. -/
def clearTarget (sys : System) (i : Nat) : System :=
  if sys.motorControl.targetSpeed_ i ≠ 0 then setTarget i 0 sys else sys

/-- The body of the ramp loop of `update()` for one array index `i`. -/
def updateMotor (currentState : SystemState) (currentTime : Nat) (sys : System) (i : Nat) :
    System :=
  if sys.motorControl.currentSpeed_ i = sys.motorControl.targetSpeed_ i then sys
  else
    let elapsed := sub32 currentTime (sys.motorControl.lastUpdateTime_ i)
    if elapsed < RAMP_INTERVAL_MS then sys
    else if currentState ≠ SystemState.ARMED then
      let sys := setCurrent i 0 sys
      let sys := setEnabled i false sys
      let sys := setTarget i 0 sys
      let pwmChannel := i
      let sys := ledcWrite pwmChannel 0 sys
      let motorId := indexToMotorId i
      let driverId := getDriverId motorId
      setSTBY driverId false sys
    else
      let diff := i16 (sys.motorControl.targetSpeed_ i - sys.motorControl.currentSpeed_ i)
      let step : Int := if diff > 0 then (RAMP_STEP_SIZE : Int) else -(RAMP_STEP_SIZE : Int)
      let sys :=
        if cabs diff ≤ (RAMP_STEP_SIZE : Int) then setCurrent i (sys.motorControl.targetSpeed_ i) sys
        else setCurrent i (i16 (sys.motorControl.currentSpeed_ i + step)) sys
      let sys :=
        if sys.motorControl.targetSpeed_ i = 0 ∧
            cabs (sys.motorControl.currentSpeed_ i) < (RAMP_STEP_SIZE : Int) then
          setEnabled i false (setCurrent i 0 sys)
        else sys
      let motorId := indexToMotorId i
      let sys := (setMotorSpeedInternal motorId (sys.motorControl.currentSpeed_ i) sys).2
      setLastUpdate i currentTime sys

/-- Member `update()` of `MotorControl`. -/
def update (clock : Nat) (sys : System) : System :=
  let currentState := getCurrentState sys
  let sys :=
    if currentState ≠ SystemState.ARMED then (List.range NUM_MOTORS).foldl clearTarget sys
    else sys
  let currentTime := millis clock
  (List.range NUM_MOTORS).foldl (updateMotor currentState currentTime) sys

end MotorControl

/-! ## The system as a whole -/

namespace System

/-- The state right after the two global objects are constructed; the hardware is as found. -/
def constructed (hw : Hardware) : System :=
  { systemState := SystemStateManager.new, motorControl := MotorControl.new, hw := hw }

/-- The state after construction followed by `motorControl.init()`. -/
def started (hw : Hardware) : System := (MotorControl.init (constructed hw)).2

/-- Group `driverId` has its standby line asserted (its STBY pin is HIGH). -/
def standbyAsserted (sys : System) (driverId : Nat) : Bool :=
  sys.hw.pin (MotorControl.STBY_PINS driverId)

end System

/-- A hardware state with every pin LOW and every duty 0. -/
def Hardware.allLow : Hardware := { pin := fun _ => false, duty := fun _ => 0 }

/-- The public operations of the two classes that can change the state. -/
inductive Op where
  | transitionTo (newState : SystemState)
  | arm
  | disarm
  | enterSafe
  | stateUpdate
  | resetTimeout
  | setTimeout (timeoutMs : Nat)
  | init
  | setDefaultSpeed (speed : Nat)
  | forward (motorId percent : Nat)
  | forwardDefault (motorId : Nat)
  | reverse (motorId percent : Nat)
  | reverseDefault (motorId : Nat)
  | setSpeed (motorId : Nat) (speed : Int)
  | setSpeedAll (speed : Int)
  | stop (motorId : Nat)
  | stopAll
  | emergencyStop
  | motorUpdate

/-- A member of `SystemStateManager` called on the global `systemState`. -/
def onState (f : SystemStateManager → SystemStateManager) (sys : System) : System :=
  { sys with systemState := f sys.systemState }

/-- One public call made at time `clock`. -/
def step (clock : Nat) (op : Op) (sys : System) : System :=
  match op with
  | Op.transitionTo newState =>
      onState (fun s => (SystemStateManager.transitionTo clock newState s).2) sys
  | Op.arm => onState (fun s => (SystemStateManager.arm clock s).2) sys
  | Op.disarm => onState (fun s => (SystemStateManager.disarm clock s).2) sys
  | Op.enterSafe => onState (fun s => (SystemStateManager.enterSafe clock s).2) sys
  | Op.stateUpdate => onState (SystemStateManager.update clock) sys
  | Op.resetTimeout => onState (SystemStateManager.resetTimeout clock) sys
  | Op.setTimeout timeoutMs => onState (SystemStateManager.setTimeout timeoutMs) sys
  | Op.init => (MotorControl.init sys).2
  | Op.setDefaultSpeed speed => (MotorControl.setDefaultSpeed speed sys).2
  | Op.forward motorId percent => (MotorControl.forward clock motorId percent sys).2
  | Op.forwardDefault motorId => (MotorControl.forwardDefault clock motorId sys).2
  | Op.reverse motorId percent => (MotorControl.reverse clock motorId percent sys).2
  | Op.reverseDefault motorId => (MotorControl.reverseDefault clock motorId sys).2
  | Op.setSpeed motorId speed => (MotorControl.setSpeed clock motorId speed sys).2
  | Op.setSpeedAll speed => (MotorControl.setSpeedAll clock speed sys).2
  | Op.stop motorId => (MotorControl.stop clock motorId sys).2
  | Op.stopAll => (MotorControl.stopAll clock sys).2
  | Op.emergencyStop => MotorControl.emergencyStop sys
  | Op.motorUpdate => MotorControl.update clock sys

/-- A sequence of public calls, each with the time at which it is made. -/
def run (calls : List (Nat × Op)) (sys : System) : System :=
  calls.foldl (fun st c => step c.1 c.2 st) sys

/-- The transition table of the specification: the pairs `(from, to)` that
`transitionTo` is said to accept. -/
def transitionTable (from_ to_ : SystemState) : Bool :=
  decide (to_ = from_) || decide (to_ = SystemState.FAULT) ||
  decide ((from_, to_) = (SystemState.BOOT, SystemState.IDLE)) ||
  decide ((from_, to_) = (SystemState.IDLE, SystemState.ARMED)) ||
  decide ((from_, to_) = (SystemState.ARMED, SystemState.IDLE)) ||
  decide ((from_, to_) = (SystemState.FAULT, SystemState.IDLE))

/-- A sample history on a board whose pins start LOW: `init()`, BOOT→IDLE, `arm()`,
`setSpeed(1, 100)` and one ramp tick at 70 ms.  The mode is ARMED, channel 1 runs at
speed 10 and the standby line of driver group 0 is HIGH. -/
def sampleRunning : System :=
  run [(0, Op.transitionTo SystemState.IDLE), (10, Op.arm), (20, Op.setSpeed 1 100),
    (70, Op.motorUpdate)] (System.started Hardware.allLow)

/-- The sample history continued by a `disarm()` at 80 ms. -/
def sampleDisarmed : System := step 80 Op.disarm sampleRunning

/-- A history in which channel 1 is ramped up to speed 5 and back to 0 while ARMED,
and the system is then disarmed: `init()`, BOOT→IDLE, `arm()`, `setSpeed(1, 5)`,
`update()`, `stop(1)`, `update()`, `disarm()`. -/
def sampleStoppedThenDisarmed : System :=
  run [(0, Op.transitionTo SystemState.IDLE), (10, Op.arm), (20, Op.setSpeed 1 5),
    (70, Op.motorUpdate), (80, Op.stop 1), (130, Op.motorUpdate), (140, Op.disarm)]
    (System.started Hardware.allLow)

/-- Every channel's current and target speed lie in `[-255, 255]`. -/
def SpeedsInRange (sys : System) : Prop :=
  ∀ i, (-255 ≤ sys.motorControl.currentSpeed_ i ∧ sys.motorControl.currentSpeed_ i ≤ 255) ∧
    (-255 ≤ sys.motorControl.targetSpeed_ i ∧ sys.motorControl.targetSpeed_ i ≤ 255)

/-- The two direction pins of output B of driver 3, which backs no motor, are LOW. -/
def UnusedPinsLow (sys : System) : Prop :=
  sys.hw.pin MotorControl.PIN_BIN1_3 = false ∧ sys.hw.pin MotorControl.PIN_BIN2_3 = false

/-- A history that ends ARMED with default speed 199 and every channel at rest:
`init()`, BOOT→IDLE, `arm()`, `setDefaultSpeed(199)`. -/
def sampleArmed199 : System :=
  run [(0, Op.transitionTo SystemState.IDLE), (10, Op.arm), (15, Op.setDefaultSpeed 199)]
    (System.started Hardware.allLow)

/-- The magnitude as the specification words it: `d * p / 100` rounded to the nearest
integer (a half rounds up), then clamped to `[0, 255]`. -/
def specRoundedMagnitude (d p : Nat) : Nat :=
  if (2 * d * p + 100) / 200 > 255 then 255 else (2 * d * p + 100) / 200

/-- The speed clamp as the specification words it: `max(-255, min(255, s))`. -/
def specClamp (s : Int) : Int := max (-255) (min 255 s)

/-- What an accepted command does to the global state machine: `lastCommandTime_` is
the `millis()` of the call, `timeoutMs_` and the mode are as before. -/
def CommandStamped (clock : Nat) (before after : System) : Prop :=
  after.systemState.lastCommandTime_ = millis clock ∧
  after.systemState.timeoutMs_ = before.systemState.timeoutMs_ ∧
  after.systemState.currentState_ = before.systemState.currentState_

/-- A history that ends ARMED with channel 1 at speed 30: `init()`, BOOT→IDLE, `arm()`,
`setSpeed(1, 100)`, three ramp ticks (70, 120, 170 ms). -/
def sampleArmedAt30 : System :=
  run [(0, Op.transitionTo SystemState.IDLE), (10, Op.arm), (20, Op.setSpeed 1 100),
    (70, Op.motorUpdate), (120, Op.motorUpdate), (170, Op.motorUpdate)]
    (System.started Hardware.allLow)

/-- A history that ends in IDLE with channel 1 still at speed 30: `init()`, BOOT→IDLE,
`arm()`, `setSpeed(1, 100)`, three ramp ticks (70, 120, 170 ms), `disarm()` at 180 ms. -/
def sampleDisarmedAt30 : System :=
  run [(0, Op.transitionTo SystemState.IDLE), (10, Op.arm), (20, Op.setSpeed 1 100),
    (70, Op.motorUpdate), (120, Op.motorUpdate), (170, Op.motorUpdate), (180, Op.disarm)]
    (System.started Hardware.allLow)

/-- A history that ends ARMED with channel 1 at speed 15 and target 0: `init()`,
BOOT→IDLE, `arm()`, `setSpeed(1, 15)`, two ramp ticks (70, 120 ms), `stop(1)` at 130 ms. -/
def sampleStoppingAt15 : System :=
  run [(0, Op.transitionTo SystemState.IDLE), (10, Op.arm), (20, Op.setSpeed 1 15),
    (70, Op.motorUpdate), (120, Op.motorUpdate), (130, Op.stop 1)]
    (System.started Hardware.allLow)

/-- The value that one ramp tick gives to a channel with current speed `cur` and
target `tgt`, both in `[-255, 255]`, when the tick processes the channel in ARMED
mode: snap to the target within one step, else one step of 10 towards it, and 0 when
the target is 0 and the result is closer than one step to 0. -/
def rampStep (cur tgt : Int) : Int :=
  if tgt = 0 ∧ cabs (if cabs (tgt - cur) ≤ 10 then tgt
      else if tgt - cur > 0 then cur + 10 else cur - 10) < 10 then 0
  else if cabs (tgt - cur) ≤ 10 then tgt
  else if tgt - cur > 0 then cur + 10 else cur - 10

/-- Two states agree on the record of the channel with array index `i` (current and
target speed, enabled flag, time of the last ramp step) and on what the ramp loop
reads besides it: the state machine and the driver fault flags. -/
def ChannelAgrees (i : Nat) (a b : System) : Prop :=
  a.motorControl.currentSpeed_ i = b.motorControl.currentSpeed_ i ∧
  a.motorControl.targetSpeed_ i = b.motorControl.targetSpeed_ i ∧
  a.motorControl.enabled_ i = b.motorControl.enabled_ i ∧
  a.motorControl.lastUpdateTime_ i = b.motorControl.lastUpdateTime_ i ∧
  a.systemState = b.systemState ∧
  a.motorControl.driverError_ = b.motorControl.driverError_

/-- The two direction pins (IN1, IN2) that `setMotorSpeedInternal` and `emergencyStop`
drive for the channel with array index `i`: output A or B of its driver. -/
def directionPins (i : Nat) : Nat × Nat :=
  match i with
  | 0 => (MotorControl.PIN_AIN1_1, MotorControl.PIN_AIN2_1)
  | 1 => (MotorControl.PIN_BIN1_1, MotorControl.PIN_BIN2_1)
  | 2 => (MotorControl.PIN_AIN1_2, MotorControl.PIN_AIN2_2)
  | 3 => (MotorControl.PIN_BIN1_2, MotorControl.PIN_BIN2_2)
  | _ => (MotorControl.PIN_AIN1_3, MotorControl.PIN_AIN2_3)

/-- Two states agree on the physical outputs of the channel with array index `i`: its
PWM duty and its two direction pins. -/
def OutputAgrees (i : Nat) (a b : System) : Prop :=
  a.hw.duty i = b.hw.duty i ∧
  a.hw.pin (directionPins i).1 = b.hw.pin (directionPins i).1 ∧
  a.hw.pin (directionPins i).2 = b.hw.pin (directionPins i).2

/-- Each `update()` of the list, made at the listed times one after the other, finds
the ramp interval of channel `i` elapsed. -/
def intervalsElapsed (i : Nat) : List Nat → System → Bool
  | [], _ => true
  | c :: cs, sys =>
    decide (sub32 (millis c) (sys.motorControl.lastUpdateTime_ i)
      ≥ MotorControl.RAMP_INTERVAL_MS) &&
    intervalsElapsed i cs (MotorControl.update c sys)

/-- A sequence of `update()` calls of the motor controller at the listed times. -/
def updates (clocks : List Nat) (sys : System) : System :=
  clocks.foldl (fun s c => MotorControl.update c s) sys

/-- No channel has both of its direction pins HIGH. -/
def DirectionsExclusive (sys : System) : Prop :=
  ∀ i, i < MotorControl.NUM_MOTORS →
    ¬ (sys.hw.pin (directionPins i).1 = true ∧ sys.hw.pin (directionPins i).2 = true)

/-! ## Theorems: the operating-state machine -/

section StateMachine

open SystemStateManager

/-- C2: for every pair of modes, `transitionTo(to)` called in mode `from` returns
true with the mode equal to `to` exactly on the pairs of the transition table
(`to = from`, `to = FAULT`, BOOT→IDLE, IDLE→ARMED, ARMED→IDLE, FAULT→IDLE); on
every other pair it returns false and the mode stays `from`. -/
theorem C2_transitionTo_table (clock : Nat) (s : SystemStateManager) (to_ : SystemState) :
    (((transitionTo clock to_ s).1 = true ∧ (transitionTo clock to_ s).2.currentState_ = to_)
        ↔ transitionTable s.currentState_ to_ = true) ∧
    (transitionTable s.currentState_ to_ = false →
        (transitionTo clock to_ s).1 = false ∧
        (transitionTo clock to_ s).2.currentState_ = s.currentState_) := by
  rcases s with ⟨cur, last, tmo⟩
  cases cur <;> cases to_ <;>
    simp [transitionTo, isValidTransition, transitionTable, resetTimeout]

/-- C2 (instance): BOOT→ARMED is off the table, so the call fails and the mode stays BOOT. -/
theorem C2_transitionTo_table_witness :
    transitionTable SystemState.BOOT SystemState.ARMED = false ∧
    (transitionTo 7 SystemState.ARMED SystemStateManager.new).1 = false ∧
    (transitionTo 7 SystemState.ARMED SystemStateManager.new).2.currentState_
      = SystemState.BOOT :=
  ⟨by decide, (C2_transitionTo_table 7 SystemStateManager.new SystemState.ARMED).2 (by decide)⟩

/-- C6: `arm()` returns true if and only if the mode is IDLE; when it returns true
the mode is ARMED afterwards, and when it returns false the object (mode,
lastCommandTime_, timeoutMs_) is unchanged. -/
theorem C6_arm (clock : Nat) (s : SystemStateManager) :
    ((arm clock s).1 = true ↔ s.currentState_ = SystemState.IDLE) ∧
    ((arm clock s).1 = true → (arm clock s).2.currentState_ = SystemState.ARMED) ∧
    ((arm clock s).1 = false → (arm clock s).2 = s) := by
  rcases s with ⟨cur, last, tmo⟩
  cases cur <;> simp [arm, transitionTo, isValidTransition, resetTimeout]

/-- C6 (instance): from IDLE `arm()` succeeds and the mode is ARMED. -/
theorem C6_arm_witness :
    (arm 3 { currentState_ := SystemState.IDLE, lastCommandTime_ := 0, timeoutMs_ := 5000 }
      ).2.currentState_ = SystemState.ARMED :=
  (C6_arm 3 { currentState_ := SystemState.IDLE, lastCommandTime_ := 0, timeoutMs_ := 5000 }
    ).2.1 (by decide)

/-- C7: `disarm()` returns true if and only if the mode is ARMED; when it returns
true the mode is IDLE afterwards, and when it returns false the object (mode,
lastCommandTime_, timeoutMs_) is unchanged. -/
theorem C7_disarm (clock : Nat) (s : SystemStateManager) :
    ((disarm clock s).1 = true ↔ s.currentState_ = SystemState.ARMED) ∧
    ((disarm clock s).1 = true → (disarm clock s).2.currentState_ = SystemState.IDLE) ∧
    ((disarm clock s).1 = false → (disarm clock s).2 = s) := by
  rcases s with ⟨cur, last, tmo⟩
  cases cur <;> simp [disarm, transitionTo, isValidTransition, resetTimeout]

/-- C7 (instance): from ARMED `disarm()` succeeds and the mode is IDLE. -/
theorem C7_disarm_witness :
    (disarm 3 { currentState_ := SystemState.ARMED, lastCommandTime_ := 0, timeoutMs_ := 5000 }
      ).2.currentState_ = SystemState.IDLE :=
  (C7_disarm 3 { currentState_ := SystemState.ARMED, lastCommandTime_ := 0, timeoutMs_ := 5000 }
    ).2.1 (by decide)

/-- C8: `enterSafe()` called in any mode returns true and leaves the mode IDLE;
called in IDLE it changes nothing; called in FAULT it leads to IDLE. -/
theorem C8_enterSafe (clock : Nat) (s : SystemStateManager) :
    (enterSafe clock s).1 = true ∧
    (enterSafe clock s).2.currentState_ = SystemState.IDLE ∧
    (s.currentState_ = SystemState.IDLE → (enterSafe clock s).2 = s) := by
  rcases s with ⟨cur, last, tmo⟩
  cases cur <;> simp [enterSafe, transitionTo, isValidTransition, resetTimeout]

/-- C8 (instance): in IDLE `enterSafe()` leaves the object as it is. -/
theorem C8_enterSafe_witness :
    (enterSafe 9 { currentState_ := SystemState.IDLE, lastCommandTime_ := 4, timeoutMs_ := 5000 }
      ).2 = { currentState_ := SystemState.IDLE, lastCommandTime_ := 4, timeoutMs_ := 5000 } :=
  (C8_enterSafe 9 { currentState_ := SystemState.IDLE, lastCommandTime_ := 4, timeoutMs_ := 5000 }
    ).2.2 rfl

/-- C9: the state machine's `update()` at time `clock`.  In IDLE or FAULT the object
is unchanged.  In BOOT or ARMED, with `elapsed` the 32-bit difference between
`millis()` and `lastCommandTime_`: if `elapsed ≥ timeoutMs_` the mode becomes IDLE,
otherwise the object is unchanged.  When the counter has not wrapped since the last
command (`lastCommandTime_ ≤ clock < 2^32`), `elapsed` is `clock - lastCommandTime_`. -/
theorem C9_update (clock : Nat) (s : SystemStateManager) :
    ((s.currentState_ = SystemState.IDLE ∨ s.currentState_ = SystemState.FAULT) →
        update clock s = s) ∧
    ((s.currentState_ = SystemState.BOOT ∨ s.currentState_ = SystemState.ARMED) →
        sub32 (millis clock) s.lastCommandTime_ ≥ s.timeoutMs_ →
        (update clock s).currentState_ = SystemState.IDLE) ∧
    ((s.currentState_ = SystemState.BOOT ∨ s.currentState_ = SystemState.ARMED) →
        sub32 (millis clock) s.lastCommandTime_ < s.timeoutMs_ →
        update clock s = s) ∧
    (s.lastCommandTime_ ≤ clock → clock < 4294967296 →
        sub32 (millis clock) s.lastCommandTime_ = clock - s.lastCommandTime_) := by
  rcases s with ⟨cur, last, tmo⟩
  refine ⟨?_, ?_, ?_, ?_⟩
  · intro h
    simp only [update]
    rw [if_pos h]
  · intro h hT
    cases cur <;> simp at h <;>
      simp [update, enterSafe, transitionTo, isValidTransition, resetTimeout, hT]
  · intro h hT
    have hT' : ¬ (tmo ≤ sub32 (millis clock) last) := Nat.not_le.mpr hT
    cases cur <;> simp at h <;> simp [update, hT']
  · intro h1 h2
    simp only [sub32, millis, u32] at *
    omega

/-- C9 (instance): ARMED, last command at 1000, timeout 5000, `update()` at 6000:
the elapsed time is 5000 and the mode becomes IDLE. -/
theorem C9_update_witness :
    (update 6000
      { currentState_ := SystemState.ARMED, lastCommandTime_ := 1000, timeoutMs_ := 5000 }
      ).currentState_ = SystemState.IDLE :=
  (C9_update 6000
    { currentState_ := SystemState.ARMED, lastCommandTime_ := 1000, timeoutMs_ := 5000 }
    ).2.1 (Or.inr rfl) (by decide)

/-- C10: the auto-safe timeout is idempotent.  If the mode is ARMED and the elapsed
time since `lastCommandTime_` is at least `timeoutMs_`, one `update()` makes the mode
IDLE, and any number of further `update()` calls, at whatever times, leave the
object (mode, lastCommandTime_, timeoutMs_) as that first call left it. -/
theorem C10_timeout_idempotent (clock : Nat) (s : SystemStateManager) (later : List Nat)
    (hArmed : s.currentState_ = SystemState.ARMED)
    (hElapsed : sub32 (millis clock) s.lastCommandTime_ ≥ s.timeoutMs_) :
    (update clock s).currentState_ = SystemState.IDLE ∧
    later.foldl (fun st c => update c st) (update clock s) = update clock s := by
  have hIdle : (update clock s).currentState_ = SystemState.IDLE := by
    rcases s with ⟨cur, last, tmo⟩
    simp only at hArmed
    subst hArmed
    simp [update, enterSafe, transitionTo, isValidTransition, resetTimeout, hElapsed]
  refine ⟨hIdle, ?_⟩
  generalize update clock s = t at hIdle
  induction later with
  | nil => rfl
  | cons c cs ih =>
    have hstep : update c t = t := by
      simp only [update]
      rw [if_pos (Or.inl hIdle)]
    simp only [List.foldl_cons, hstep]
    exact ih

/-- C10 (instance): ARMED with the timeout reached at 6000, then updates at 6010,
9000 and 20000. -/
theorem C10_timeout_idempotent_witness :
    (update 6000
      { currentState_ := SystemState.ARMED, lastCommandTime_ := 1000, timeoutMs_ := 5000 }
      ).currentState_ = SystemState.IDLE ∧
    [6010, 9000, 20000].foldl (fun st c => update c st)
      (update 6000
        { currentState_ := SystemState.ARMED, lastCommandTime_ := 1000, timeoutMs_ := 5000 })
      = update 6000
        { currentState_ := SystemState.ARMED, lastCommandTime_ := 1000, timeoutMs_ := 5000 } :=
  C10_timeout_idempotent 6000
    { currentState_ := SystemState.ARMED, lastCommandTime_ := 1000, timeoutMs_ := 5000 }
    [6010, 9000, 20000] rfl (by decide)

end StateMachine

/-! ## Theorems: the motor controller -/

section Motor

open MotorControl

theorem range_motors : List.range 5 = [0, 1, 2, 3, 4] := by decide

theorem range_drivers : List.range 3 = [0, 1, 2] := by decide

theorem checkSafety_of_not_armed (sys : System)
    (h : sys.systemState.currentState_ ≠ SystemState.ARMED) : checkSafety sys = false := by
  simp [checkSafety, SystemStateManager.getState, h]

/-! ### The speeds stay in range -/

/-- A property kept by the body of a loop is kept by the whole loop. -/
theorem foldl_preserves {P : System → Prop} (f : System → Nat → System)
    (hf : ∀ s i, P s → P (f s i)) (l : List Nat) (sys : System) (h : P sys) :
    P (l.foldl f sys) := by
  induction l generalizing sys with
  | nil => exact h
  | cons a t ih => exact ih _ (hf _ _ h)

theorem setTarget_range (i : Nat) (v : Int) (sys : System) (h : SpeedsInRange sys)
    (h1 : -255 ≤ v) (h2 : v ≤ 255) : SpeedsInRange (setTarget i v sys) := by
  intro j
  have hj := h j
  simp only [setTarget, setAt]
  split_ifs <;> omega

theorem setCurrent_range (i : Nat) (v : Int) (sys : System) (h : SpeedsInRange sys)
    (h1 : -255 ≤ v) (h2 : v ≤ 255) : SpeedsInRange (setCurrent i v sys) := by
  intro j
  have hj := h j
  simp only [setCurrent, setAt]
  split_ifs <;> omega

theorem setEnabled_range (i : Nat) (v : Bool) (sys : System) (h : SpeedsInRange sys) :
    SpeedsInRange (setEnabled i v sys) := h

theorem setLastUpdate_range (i : Nat) (v : Nat) (sys : System) (h : SpeedsInRange sys) :
    SpeedsInRange (setLastUpdate i v sys) := h

theorem digitalWrite_range (p : Nat) (v : Bool) (sys : System) (h : SpeedsInRange sys) :
    SpeedsInRange (digitalWrite p v sys) := h

theorem ledcWrite_range (c d : Nat) (sys : System) (h : SpeedsInRange sys) :
    SpeedsInRange (ledcWrite c d sys) := h

theorem resetTimeoutGlobal_range (clock : Nat) (sys : System) (h : SpeedsInRange sys) :
    SpeedsInRange (resetTimeoutGlobal clock sys) := h

theorem onState_range (f : SystemStateManager → SystemStateManager) (sys : System)
    (h : SpeedsInRange sys) : SpeedsInRange (onState f sys) := h

theorem setSTBY_range (d : Nat) (e : Bool) (sys : System) (h : SpeedsInRange sys) :
    SpeedsInRange (setSTBY d e sys) := by
  unfold setSTBY
  split_ifs
  · exact h
  · exact h

theorem setSTBYAll_range (e : Bool) (sys : System) (h : SpeedsInRange sys) :
    SpeedsInRange (setSTBYAll e sys) :=
  foldl_preserves _ (fun s i hs => setSTBY_range i e s hs) _ sys h

theorem percentToSpeed_le (mc : MotorControl) (percent : Nat) :
    percentToSpeed mc percent ≤ 255 := by
  simp only [percentToSpeed, u8, u16]
  split_ifs <;> omega

theorem writeMotorPins_motorControl (d m : Nat) (f r : Bool) (v : Nat) (sys sys1 : System)
    (h : writeMotorPins d m f r v sys = some sys1) :
    sys1.motorControl = sys.motorControl ∧ sys1.systemState = sys.systemState := by
  unfold writeMotorPins at h
  split_ifs at h <;> simp only [Option.some.injEq] at h <;> subst h <;> exact ⟨rfl, rfl⟩

theorem clamp_range (z : Int) :
    -255 ≤ (if (if z < -255 then -255 else z) > 255 then 255
      else (if z < -255 then -255 else z)) ∧
    (if (if z < -255 then -255 else z) > 255 then 255
      else (if z < -255 then -255 else z)) ≤ 255 := by
  split_ifs <;> omega

theorem setMotorSpeedInternal_range (motorId : Nat) (speed : Int) (sys : System)
    (h : SpeedsInRange sys) : SpeedsInRange (setMotorSpeedInternal motorId speed sys).2 := by
  have hc := clamp_range (i16 speed)
  unfold setMotorSpeedInternal
  simp only
  generalize (if (if i16 speed < -255 then -255 else i16 speed) > 255 then 255
    else (if i16 speed < -255 then -255 else i16 speed)) = sp at hc ⊢
  split_ifs
  · exact h
  · exact h
  all_goals
    split
    · exact h
    · rename_i sys1 heq
      have h1 : SpeedsInRange sys1 := by
        have hm := (writeMotorPins_motorControl _ _ _ _ _ _ _ heq).1
        intro j
        rw [hm]
        exact h j
      apply setEnabled_range
      apply setCurrent_range _ _ _ _ hc.1 hc.2
      split_ifs
      · exact setSTBY_range _ _ _ h1
      · exact setSTBY_range _ _ _ h1

theorem ramp_step_range (c t : Int) (hc : -255 ≤ c ∧ c ≤ 255) (ht : -255 ≤ t ∧ t ≤ 255)
    (h : ¬ cabs (i16 (t - c)) ≤ (RAMP_STEP_SIZE : Int)) :
    (i16 (t - c) > 0 → -255 ≤ i16 (c + (RAMP_STEP_SIZE : Int)) ∧
        i16 (c + (RAMP_STEP_SIZE : Int)) ≤ 255) ∧
    (¬ i16 (t - c) > 0 → -255 ≤ i16 (c + -(RAMP_STEP_SIZE : Int)) ∧
        i16 (c + -(RAMP_STEP_SIZE : Int)) ≤ 255) := by
  simp only [i16, cabs, RAMP_STEP_SIZE, Nat.cast_ofNat] at *
  split_ifs at h <;> constructor <;> intro h' <;> omega

theorem updateMotor_range (cs : SystemState) (t : Nat) (sys : System) (i : Nat)
    (h : SpeedsInRange sys) : SpeedsInRange (updateMotor cs t sys i) := by
  have hi := h i
  unfold updateMotor
  simp only
  split_ifs with h1 h2 h3 h4 h5 h6
  · exact h
  · exact h
  · apply setSTBY_range
    apply ledcWrite_range
    apply setTarget_range _ _ _ _ (by omega) (by omega)
    apply setEnabled_range
    exact setCurrent_range _ _ _ h (by omega) (by omega)
  · apply setLastUpdate_range
    apply setMotorSpeedInternal_range
    apply setEnabled_range
    apply setCurrent_range _ _ _ _ (by omega) (by omega)
    exact setCurrent_range _ _ _ h (by omega) (by omega)
  · apply setLastUpdate_range
    apply setMotorSpeedInternal_range
    exact setCurrent_range _ _ _ h (by omega) (by omega)
  · have hr := (ramp_step_range _ _ hi.1 hi.2 h4).1 h6
    apply setLastUpdate_range
    apply setMotorSpeedInternal_range
    apply setEnabled_range
    apply setCurrent_range _ _ _ _ (by omega) (by omega)
    exact setCurrent_range _ _ _ h hr.1 hr.2
  · have hr := (ramp_step_range _ _ hi.1 hi.2 h4).1 h6
    apply setLastUpdate_range
    apply setMotorSpeedInternal_range
    exact setCurrent_range _ _ _ h hr.1 hr.2
  · have hr := (ramp_step_range _ _ hi.1 hi.2 h4).2 h6
    apply setLastUpdate_range
    apply setMotorSpeedInternal_range
    apply setEnabled_range
    apply setCurrent_range _ _ _ _ (by omega) (by omega)
    exact setCurrent_range _ _ _ h hr.1 hr.2
  · have hr := (ramp_step_range _ _ hi.1 hi.2 h4).2 h6
    apply setLastUpdate_range
    apply setMotorSpeedInternal_range
    exact setCurrent_range _ _ _ h hr.1 hr.2

theorem clearTarget_range (sys : System) (i : Nat) (h : SpeedsInRange sys) :
    SpeedsInRange (clearTarget sys i) := by
  unfold clearTarget
  split_ifs
  · exact setTarget_range _ _ _ h (by omega) (by omega)
  · exact h

theorem update_range (clock : Nat) (sys : System) (h : SpeedsInRange sys) :
    SpeedsInRange (MotorControl.update clock sys) := by
  unfold MotorControl.update
  simp only
  apply foldl_preserves _ (fun s i hs => updateMotor_range _ _ s i hs)
  split_ifs
  · exact foldl_preserves _ (fun s i hs => clearTarget_range s i hs) _ _ h
  · exact h

theorem emergencyStopMotor_range (sys : System) (i : Nat) (h : SpeedsInRange sys) :
    SpeedsInRange (emergencyStopMotor sys i) := by
  have h1 : SpeedsInRange (ledcWrite (motorIdToIndex (indexToMotorId i)) 0
      (setLastUpdate (motorIdToIndex (indexToMotorId i)) 0
        (setEnabled (motorIdToIndex (indexToMotorId i)) false
          (setCurrent (motorIdToIndex (indexToMotorId i)) 0
            (setTarget (motorIdToIndex (indexToMotorId i)) 0 sys))))) := by
    apply ledcWrite_range
    apply setLastUpdate_range
    apply setEnabled_range
    apply setCurrent_range _ _ _ _ (by omega) (by omega)
    exact setTarget_range _ _ _ h (by omega) (by omega)
  unfold emergencyStopMotor
  simp only
  split_ifs <;> exact h1

theorem emergencyStop_range (sys : System) (h : SpeedsInRange sys) :
    SpeedsInRange (emergencyStop sys) := by
  unfold emergencyStop
  apply setSTBYAll_range
  exact foldl_preserves _ (fun s i hs => emergencyStopMotor_range s i hs) _ _ h

theorem init_range (sys : System) (h : SpeedsInRange sys) : SpeedsInRange (init sys).2 := by
  unfold init
  simp only
  iterate 12 apply digitalWrite_range
  iterate 5 apply ledcWrite_range
  exact setSTBYAll_range _ _ h

theorem setDefaultSpeed_range (speed : Nat) (sys : System) (h : SpeedsInRange sys) :
    SpeedsInRange (setDefaultSpeed speed sys).2 := by
  unfold setDefaultSpeed
  simp only
  split_ifs <;> exact h

theorem forward_range (clock motorId percent : Nat) (sys : System) (h : SpeedsInRange sys) :
    SpeedsInRange (forward clock motorId percent sys).2 := by
  unfold forward
  simp only
  split_ifs
  · exact h
  · exact h
  all_goals
    apply resetTimeoutGlobal_range
    apply setEnabled_range
    have hp := percentToSpeed_le sys.motorControl
    exact setTarget_range _ _ _ h (by omega) (by have := hp 100; have := hp (u8 percent); omega)

theorem reverse_range (clock motorId percent : Nat) (sys : System) (h : SpeedsInRange sys) :
    SpeedsInRange (reverse clock motorId percent sys).2 := by
  unfold reverse
  simp only
  split_ifs
  · exact h
  · exact h
  all_goals
    apply resetTimeoutGlobal_range
    apply setEnabled_range
    have hp := percentToSpeed_le sys.motorControl
    have h100 := hp 100
    have hper := hp (u8 percent)
    refine setTarget_range _ _ _ h ?_ ?_ <;> simp only [i16] <;> omega

theorem setSpeed_range (clock motorId : Nat) (speed : Int) (sys : System)
    (h : SpeedsInRange sys) : SpeedsInRange (setSpeed clock motorId speed sys).2 := by
  have hc := clamp_range (i16 speed)
  unfold setSpeed
  simp only
  generalize (if (if i16 speed < -255 then -255 else i16 speed) > 255 then 255
    else (if i16 speed < -255 then -255 else i16 speed)) = sp at hc ⊢
  split_ifs
  · exact h
  · exact h
  · apply resetTimeoutGlobal_range
    apply setEnabled_range
    exact setTarget_range _ _ _ h hc.1 hc.2
  · apply resetTimeoutGlobal_range
    exact setTarget_range _ _ _ h hc.1 hc.2

theorem setSpeedAll_range (clock : Nat) (speed : Int) (sys : System)
    (h : SpeedsInRange sys) : SpeedsInRange (setSpeedAll clock speed sys).2 := by
  have hc := clamp_range (i16 speed)
  unfold setSpeedAll
  simp only
  generalize (if (if i16 speed < -255 then -255 else i16 speed) > 255 then 255
    else (if i16 speed < -255 then -255 else i16 speed)) = sp at hc ⊢
  split_ifs
  · exact h
  · apply resetTimeoutGlobal_range
    refine foldl_preserves _ ?_ _ _ h
    intro s i hs
    apply setEnabled_range
    exact setTarget_range _ _ _ hs hc.1 hc.2
  · apply resetTimeoutGlobal_range
    refine foldl_preserves _ ?_ _ _ h
    intro s i hs
    exact setTarget_range _ _ _ hs hc.1 hc.2

theorem stop_range (clock motorId : Nat) (sys : System) (h : SpeedsInRange sys) :
    SpeedsInRange (stop clock motorId sys).2 := by
  unfold stop
  simp only
  split_ifs
  · exact h
  · exact h
  · apply resetTimeoutGlobal_range
    exact setTarget_range _ _ _ h (by omega) (by omega)

theorem stopAll_range (clock : Nat) (sys : System) (h : SpeedsInRange sys) :
    SpeedsInRange (stopAll clock sys).2 := by
  unfold stopAll
  simp only
  split_ifs
  · exact h
  · apply resetTimeoutGlobal_range
    exact foldl_preserves _ (fun s i hs => setTarget_range i 0 s hs (by omega) (by omega)) _ _ h

theorem step_range (clock : Nat) (op : Op) (sys : System) (h : SpeedsInRange sys) :
    SpeedsInRange (step clock op sys) := by
  cases op with
  | transitionTo newState => exact h
  | arm => exact h
  | disarm => exact h
  | enterSafe => exact h
  | stateUpdate => exact h
  | resetTimeout => exact h
  | setTimeout timeoutMs => exact h
  | init => exact init_range sys h
  | setDefaultSpeed speed => exact setDefaultSpeed_range speed sys h
  | forward motorId percent => exact forward_range clock motorId percent sys h
  | forwardDefault motorId => exact forward_range clock _ _ sys h
  | reverse motorId percent => exact reverse_range clock motorId percent sys h
  | reverseDefault motorId => exact reverse_range clock _ _ sys h
  | setSpeed motorId speed => exact setSpeed_range clock motorId speed sys h
  | setSpeedAll speed => exact setSpeedAll_range clock speed sys h
  | stop motorId => exact stop_range clock motorId sys h
  | stopAll => exact stopAll_range clock sys h
  | emergencyStop => exact emergencyStop_range sys h
  | motorUpdate => exact update_range clock sys h

theorem run_range (calls : List (Nat × Op)) (sys : System) (h : SpeedsInRange sys) :
    SpeedsInRange (run calls sys) := by
  induction calls generalizing sys with
  | nil => exact h
  | cons c cs ih => exact ih _ (step_range c.1 c.2 sys h)

/-! ### The pins of the unused output B of driver 3 -/

theorem digitalWrite_unused (p : Nat) (v : Bool) (sys : System) (h : UnusedPinsLow sys)
    (hp : (p ≠ PIN_BIN1_3 ∧ p ≠ PIN_BIN2_3) ∨ v = false) :
    UnusedPinsLow (digitalWrite p v sys) := by
  obtain ⟨h1, h2⟩ := h
  simp only [UnusedPinsLow, digitalWrite, setAt] at *
  rcases hp with ⟨hp1, hp2⟩ | hv
  · rw [if_neg (Ne.symm hp1), if_neg (Ne.symm hp2)]
    exact ⟨h1, h2⟩
  · subst hv
    constructor <;> split_ifs <;> simp [h1, h2]

theorem ledcWrite_unused (c d : Nat) (sys : System) (h : UnusedPinsLow sys) :
    UnusedPinsLow (ledcWrite c d sys) := h

theorem setSTBY_unused (d : Nat) (e : Bool) (sys : System) (h : UnusedPinsLow sys) :
    UnusedPinsLow (setSTBY d e sys) := by
  unfold setSTBY
  split_ifs
  · exact h
  · apply digitalWrite_unused _ _ _ h
    left
    unfold STBY_PINS
    split <;> decide

theorem setSTBYAll_unused (e : Bool) (sys : System) (h : UnusedPinsLow sys) :
    UnusedPinsLow (setSTBYAll e sys) :=
  foldl_preserves _ (fun s i hs => setSTBY_unused i e s hs) _ sys h

theorem writeMotorPins_unused (d m : Nat) (f r : Bool) (v : Nat) (sys sys1 : System)
    (h : writeMotorPins d m f r v sys = some sys1) (hu : UnusedPinsLow sys) :
    UnusedPinsLow sys1 := by
  unfold writeMotorPins at h
  split_ifs at h <;> simp only [Option.some.injEq] at h <;> subst h <;>
    apply ledcWrite_unused <;>
    refine digitalWrite_unused _ _ _ (digitalWrite_unused _ _ _ hu (Or.inl ?_)) (Or.inl ?_) <;>
    decide

theorem setMotorSpeedInternal_unused (motorId : Nat) (speed : Int) (sys : System)
    (h : UnusedPinsLow sys) : UnusedPinsLow (setMotorSpeedInternal motorId speed sys).2 := by
  unfold setMotorSpeedInternal
  simp only
  split_ifs
  · exact h
  · exact h
  all_goals
    split
    · exact h
    · rename_i sys1 heq
      have h1 : UnusedPinsLow sys1 := writeMotorPins_unused _ _ _ _ _ _ _ heq h
      show UnusedPinsLow (if getCurrentState sys1 = SystemState.ARMED
        then setSTBY _ true sys1 else setSTBY _ false sys1)
      split_ifs
      · exact setSTBY_unused _ _ _ h1
      · exact setSTBY_unused _ _ _ h1

theorem updateMotor_unused (cs : SystemState) (t : Nat) (sys : System) (i : Nat)
    (h : UnusedPinsLow sys) : UnusedPinsLow (updateMotor cs t sys i) := by
  unfold updateMotor
  simp only
  split_ifs
  · exact h
  · exact h
  · exact setSTBY_unused _ _ _ h
  all_goals exact setMotorSpeedInternal_unused _ _ _ h

theorem update_unused (clock : Nat) (sys : System) (h : UnusedPinsLow sys) :
    UnusedPinsLow (MotorControl.update clock sys) := by
  unfold MotorControl.update
  simp only
  apply foldl_preserves _ (fun s i hs => updateMotor_unused _ _ s i hs)
  split_ifs
  · refine foldl_preserves _ ?_ _ _ h
    intro s i hs
    unfold clearTarget
    split_ifs
    · exact hs
    · exact hs
  · exact h

theorem emergencyStopMotor_unused (sys : System) (i : Nat) (h : UnusedPinsLow sys) :
    UnusedPinsLow (emergencyStopMotor sys i) := by
  unfold emergencyStopMotor
  simp only
  split_ifs <;>
    exact digitalWrite_unused _ _ _ (digitalWrite_unused _ _ _ h (Or.inr rfl)) (Or.inr rfl)

theorem emergencyStop_unused (sys : System) (h : UnusedPinsLow sys) :
    UnusedPinsLow (emergencyStop sys) := by
  unfold emergencyStop
  apply setSTBYAll_unused
  exact foldl_preserves _ (fun s i hs => emergencyStopMotor_unused s i hs) _ _ h

theorem init_unused (sys : System) : UnusedPinsLow (init sys).2 := by
  simp [UnusedPinsLow, init, digitalWrite, setAt, PIN_BIN1_3, PIN_BIN2_3]

theorem command_unused (sys : System) (h : UnusedPinsLow sys) :
    (∀ speed, UnusedPinsLow (setDefaultSpeed speed sys).2) ∧
    (∀ clock motorId percent, UnusedPinsLow (forward clock motorId percent sys).2) ∧
    (∀ clock motorId percent, UnusedPinsLow (reverse clock motorId percent sys).2) ∧
    (∀ clock motorId speed, UnusedPinsLow (setSpeed clock motorId speed sys).2) ∧
    (∀ clock speed, UnusedPinsLow (setSpeedAll clock speed sys).2) ∧
    (∀ clock motorId, UnusedPinsLow (stop clock motorId sys).2) ∧
    (∀ clock, UnusedPinsLow (stopAll clock sys).2) := by
  have hfold : ∀ (f : System → Nat → System) (l : List Nat) (s : System),
      (∀ s i, (f s i).hw = s.hw) → (l.foldl f s).hw = s.hw := by
    intro f l
    induction l with
    | nil => intro s _; rfl
    | cons a t ih => intro s hf; rw [List.foldl_cons, ih _ hf, hf]
  refine ⟨?_, ?_, ?_, ?_, ?_, ?_, ?_⟩
  · intro speed
    unfold setDefaultSpeed
    simp only
    split_ifs <;> exact h
  · intro clock motorId percent
    unfold forward
    simp only
    split_ifs <;> exact h
  · intro clock motorId percent
    unfold reverse
    simp only
    split_ifs <;> exact h
  · intro clock motorId speed
    unfold setSpeed
    simp only
    split_ifs <;> exact h
  · intro clock speed
    unfold setSpeedAll
    simp only
    split_ifs
    · exact h
    all_goals
      show UnusedPinsLow (List.foldl _ sys _)
      unfold UnusedPinsLow
      rw [hfold]
      · exact h
      · intro s i
        rfl
  · intro clock motorId
    unfold stop
    simp only
    split_ifs <;> exact h
  · intro clock
    unfold stopAll
    simp only
    split_ifs
    · exact h
    · show UnusedPinsLow (List.foldl _ sys _)
      unfold UnusedPinsLow
      rw [hfold]
      · exact h
      · intro s i
        rfl

theorem step_unused (clock : Nat) (op : Op) (sys : System) (h : UnusedPinsLow sys) :
    UnusedPinsLow (step clock op sys) := by
  have hc := command_unused sys h
  cases op with
  | transitionTo newState => exact h
  | arm => exact h
  | disarm => exact h
  | enterSafe => exact h
  | stateUpdate => exact h
  | resetTimeout => exact h
  | setTimeout timeoutMs => exact h
  | init => exact init_unused sys
  | setDefaultSpeed speed => exact hc.1 speed
  | forward motorId percent => exact hc.2.1 clock motorId percent
  | forwardDefault motorId => exact hc.2.1 clock _ _
  | reverse motorId percent => exact hc.2.2.1 clock motorId percent
  | reverseDefault motorId => exact hc.2.2.1 clock _ _
  | setSpeed motorId speed => exact hc.2.2.2.1 clock motorId speed
  | setSpeedAll speed => exact hc.2.2.2.2.1 clock speed
  | stop motorId => exact hc.2.2.2.2.2.1 clock motorId
  | stopAll => exact hc.2.2.2.2.2.2 clock
  | emergencyStop => exact emergencyStop_unused sys h
  | motorUpdate => exact update_unused clock sys h

theorem run_unused (calls : List (Nat × Op)) (sys : System) (h : UnusedPinsLow sys) :
    UnusedPinsLow (run calls sys) := by
  induction calls generalizing sys with
  | nil => exact h
  | cons c cs ih => exact ih _ (step_unused c.1 c.2 sys h)

/-! ### Claims -/

/-- C1: the safety gate.  In every state whose mode is not ARMED (BOOT, IDLE or FAULT),
for every channel id and every argument, `forward`, `reverse`, `setSpeed`,
`setSpeedAll`, `stop` and `stopAll` return false and leave the whole state as it
was: every channel's target speed, current speed and enabled flag, the default
speed, and the state machine's `lastCommandTime_`. -/
theorem C1_safety_gate (clock motorId percent : Nat) (speed : Int) (sys : System)
    (h : sys.systemState.currentState_ ≠ SystemState.ARMED) :
    forward clock motorId percent sys = (false, sys) ∧
    forwardDefault clock motorId sys = (false, sys) ∧
    reverse clock motorId percent sys = (false, sys) ∧
    reverseDefault clock motorId sys = (false, sys) ∧
    setSpeed clock motorId speed sys = (false, sys) ∧
    setSpeedAll clock speed sys = (false, sys) ∧
    stop clock motorId sys = (false, sys) ∧
    stopAll clock sys = (false, sys) := by
  have hc := checkSafety_of_not_armed sys h
  simp [forward, forwardDefault, reverse, reverseDefault, setSpeed, setSpeedAll, stop,
    stopAll, hc]

/-- C1 (instance): after a disarm with channel 1 still running, every motion command
on channel 1 is refused and changes nothing. -/
theorem C1_safety_gate_witness :
    forward 90 1 50 sampleDisarmed = (false, sampleDisarmed) ∧
    forwardDefault 90 1 sampleDisarmed = (false, sampleDisarmed) ∧
    reverse 90 1 50 sampleDisarmed = (false, sampleDisarmed) ∧
    reverseDefault 90 1 sampleDisarmed = (false, sampleDisarmed) ∧
    setSpeed 90 1 200 sampleDisarmed = (false, sampleDisarmed) ∧
    setSpeedAll 90 200 sampleDisarmed = (false, sampleDisarmed) ∧
    stop 90 1 sampleDisarmed = (false, sampleDisarmed) ∧
    stopAll 90 sampleDisarmed = (false, sampleDisarmed) :=
  C1_safety_gate 90 1 50 200 sampleDisarmed (by decide)

/-- C3: `emergencyStop()` has no precondition.  Called in any state (any mode, any
channel records, any pin levels), right after the call every channel has current
speed 0, target speed 0 and enabled false, the PWM duty of every channel is 0, both
direction pins of every channel are LOW, the standby pin of every driver group is
LOW, and the state machine is untouched.  The two direction pins of output B of
driver 3, which backs no channel, are not written by the call; they are LOW in
every state reached from construction and `init()`, so there all twelve direction
pins are LOW after the call. -/
theorem C3_emergencyStop (sys : System) (hw : Hardware) (calls : List (Nat × Op)) :
    ((∀ i, i < NUM_MOTORS →
        (emergencyStop sys).motorControl.currentSpeed_ i = 0 ∧
        (emergencyStop sys).motorControl.targetSpeed_ i = 0 ∧
        (emergencyStop sys).motorControl.enabled_ i = false ∧
        (emergencyStop sys).hw.duty i = 0) ∧
      (∀ p, p ∈ [PIN_AIN1_1, PIN_AIN2_1, PIN_BIN1_1, PIN_BIN2_1, PIN_AIN1_2, PIN_AIN2_2,
          PIN_BIN1_2, PIN_BIN2_2, PIN_AIN1_3, PIN_AIN2_3] →
        (emergencyStop sys).hw.pin p = false) ∧
      (∀ d, d < NUM_DRIVERS → (emergencyStop sys).standbyAsserted d = false) ∧
      (emergencyStop sys).systemState = sys.systemState ∧
      (emergencyStop sys).hw.pin PIN_BIN1_3 = sys.hw.pin PIN_BIN1_3 ∧
      (emergencyStop sys).hw.pin PIN_BIN2_3 = sys.hw.pin PIN_BIN2_3) ∧
    ((emergencyStop (run calls (System.started hw))).hw.pin PIN_BIN1_3 = false ∧
      (emergencyStop (run calls (System.started hw))).hw.pin PIN_BIN2_3 = false) := by
  refine ⟨⟨?_, ?_, ?_, ?_, ?_, ?_⟩, ?_⟩
  · intro i hi
    simp only [NUM_MOTORS] at hi
    interval_cases i <;>
      simp [emergencyStop, NUM_MOTORS, range_motors, range_drivers, setSTBYAll, setSTBY,
        emergencyStopMotor, indexToMotorId, motorIdToIndex, getDriverId,
        getMotorIndexInDriver, u8, digitalWrite, ledcWrite, setTarget, setCurrent,
        setEnabled, setLastUpdate, setAt, NUM_DRIVERS]
  · intro p hp
    simp only [List.mem_cons, List.mem_singleton, List.not_mem_nil, or_false] at hp
    rcases hp with h | h | h | h | h | h | h | h | h | h <;> subst h <;>
      simp [emergencyStop, NUM_MOTORS, range_motors, range_drivers, setSTBYAll, setSTBY,
        emergencyStopMotor, indexToMotorId, motorIdToIndex, getDriverId,
        getMotorIndexInDriver, u8, digitalWrite, ledcWrite, setTarget, setCurrent,
        setEnabled, setLastUpdate, setAt, NUM_DRIVERS, STBY_PINS, PIN_AIN1_1, PIN_AIN2_1,
        PIN_BIN1_1, PIN_BIN2_1, PIN_AIN1_2, PIN_AIN2_2, PIN_BIN1_2, PIN_BIN2_2, PIN_AIN1_3,
        PIN_AIN2_3, PIN_STBY_1, PIN_STBY_2, PIN_STBY_3]
  · intro d hd
    simp only [NUM_DRIVERS] at hd
    interval_cases d <;>
      simp [emergencyStop, NUM_MOTORS, range_motors, range_drivers, setSTBYAll, setSTBY,
        emergencyStopMotor, indexToMotorId, motorIdToIndex, getDriverId,
        getMotorIndexInDriver, u8, digitalWrite, ledcWrite, setTarget, setCurrent,
        setEnabled, setLastUpdate, setAt, NUM_DRIVERS, STBY_PINS, System.standbyAsserted,
        PIN_STBY_1, PIN_STBY_2, PIN_STBY_3]
  · simp [emergencyStop, NUM_MOTORS, range_motors, range_drivers, setSTBYAll, setSTBY,
      emergencyStopMotor, indexToMotorId, motorIdToIndex, getDriverId,
      getMotorIndexInDriver, u8, digitalWrite, ledcWrite, setTarget, setCurrent,
      setEnabled, setLastUpdate, setAt, NUM_DRIVERS]
  · simp [emergencyStop, NUM_MOTORS, range_motors, range_drivers, setSTBYAll, setSTBY,
      emergencyStopMotor, indexToMotorId, motorIdToIndex, getDriverId,
      getMotorIndexInDriver, u8, digitalWrite, ledcWrite, setTarget, setCurrent,
      setEnabled, setLastUpdate, setAt, NUM_DRIVERS, STBY_PINS, PIN_AIN1_1, PIN_AIN2_1,
      PIN_BIN1_1, PIN_BIN2_1, PIN_AIN1_2, PIN_AIN2_2, PIN_BIN1_2, PIN_BIN2_2, PIN_AIN1_3,
      PIN_AIN2_3, PIN_STBY_1, PIN_STBY_2, PIN_STBY_3, PIN_BIN1_3]
  · simp [emergencyStop, NUM_MOTORS, range_motors, range_drivers, setSTBYAll, setSTBY,
      emergencyStopMotor, indexToMotorId, motorIdToIndex, getDriverId,
      getMotorIndexInDriver, u8, digitalWrite, ledcWrite, setTarget, setCurrent,
      setEnabled, setLastUpdate, setAt, NUM_DRIVERS, STBY_PINS, PIN_AIN1_1, PIN_AIN2_1,
      PIN_BIN1_1, PIN_BIN2_1, PIN_AIN1_2, PIN_AIN2_2, PIN_BIN1_2, PIN_BIN2_2, PIN_AIN1_3,
      PIN_AIN2_3, PIN_STBY_1, PIN_STBY_2, PIN_STBY_3, PIN_BIN2_3]
  · exact emergencyStop_unused _ (run_unused calls _ (init_unused _))

/-- C3 (instance): in the running sample state (ARMED, channel 1 at speed 10, standby
of group 0 HIGH) the emergency stop zeroes channel 1 and drops the standby line. -/
theorem C3_emergencyStop_witness :
    ((emergencyStop sampleRunning).motorControl.currentSpeed_ 0 = 0 ∧
      (emergencyStop sampleRunning).motorControl.targetSpeed_ 0 = 0 ∧
      (emergencyStop sampleRunning).motorControl.enabled_ 0 = false ∧
      (emergencyStop sampleRunning).hw.duty 0 = 0) ∧
    (emergencyStop sampleRunning).standbyAsserted 0 = false :=
  ⟨(C3_emergencyStop sampleRunning Hardware.allLow []).1.1 0 (by decide),
    (C3_emergencyStop sampleRunning Hardware.allLow []).1.2.2.1 0 (by decide)⟩

/-- C4: the code at a history that breaks the standby invariant.  After `init()`,
BOOT→IDLE, `arm()`, `setSpeed(1, 5)`, `update()`, `stop(1)`, `update()` the standby
line of driver group 0 is HIGH; `disarm()` then makes the mode IDLE and leaves that
line HIGH, and a later `update()` of the motor controller leaves it HIGH as well,
because channel 1 already has current speed = target speed = 0. -/
theorem C4_standby_outlives_armed :
    sampleStoppedThenDisarmed.systemState.currentState_ = SystemState.IDLE ∧
    sampleStoppedThenDisarmed.standbyAsserted 0 = true ∧
    (step 200 Op.motorUpdate sampleStoppedThenDisarmed).systemState.currentState_
      = SystemState.IDLE ∧
    (step 200 Op.motorUpdate sampleStoppedThenDisarmed).standbyAsserted 0 = true := by
  decide

/-- C5: the range invariant.  Starting from the constructed state, after any sequence
of public calls (the motor commands, `emergencyStop`, `setDefaultSpeed`, `init`,
`update`, and every state-machine operation, so that every mode is reached), with
arbitrary arguments and times, the current and the target speed of every channel
lie in `[-255, 255]`. -/
theorem C5_range_invariant (hw : Hardware) (calls : List (Nat × Op)) (i : Nat) :
    (-255 ≤ (run calls (System.constructed hw)).motorControl.currentSpeed_ i ∧
      (run calls (System.constructed hw)).motorControl.currentSpeed_ i ≤ 255) ∧
    (-255 ≤ (run calls (System.constructed hw)).motorControl.targetSpeed_ i ∧
      (run calls (System.constructed hw)).motorControl.targetSpeed_ i ≤ 255) := by
  have h0 : SpeedsInRange (System.constructed hw) := by
    intro j
    simp [System.constructed, MotorControl.new]
  exact run_range calls _ h0 i

end Motor

/-! ## Theorems: rejected and accepted calls -/

section Commands

open MotorControl

/-- A loop whose body leaves the state machine alone leaves it alone. -/
theorem foldl_systemState (f : System → Nat → System)
    (hf : ∀ s i, (f s i).systemState = s.systemState) (l : List Nat) (sys : System) :
    (l.foldl f sys).systemState = sys.systemState := by
  induction l generalizing sys with
  | nil => rfl
  | cons a t ih => rw [List.foldl_cons, ih, hf]

theorem checkSafety_of_armed (sys : System)
    (h : sys.systemState.currentState_ = SystemState.ARMED) : checkSafety sys = true := by
  simp [checkSafety, SystemStateManager.getState, h]

theorem isValidMotorId_of_range (motorId : Nat) (h1 : 1 ≤ motorId) (h5 : motorId ≤ 5) :
    isValidMotorId (u8 motorId) = true ∧ motorIdToIndex (u8 motorId) = motorId - 1 := by
  have hu : u8 motorId = motorId := by
    unfold u8
    omega
  rw [hu]
  constructor
  · simp [isValidMotorId, NUM_MOTORS, h1, h5]
  · unfold motorIdToIndex u8
    omega

theorem isValidMotorId_of_invalid (motorId : Nat)
    (h : motorId = 0 ∨ (5 < motorId ∧ motorId < 256)) : isValidMotorId (u8 motorId) = false := by
  have hu : u8 motorId = motorId := by
    unfold u8
    omega
  rw [hu]
  simp only [isValidMotorId, NUM_MOTORS, Bool.and_eq_false_imp, decide_eq_true_eq,
    decide_eq_false_iff_not]
  omega

theorem stamped_of_systemState (clock : Nat) (sys sys1 : System)
    (h : sys1.systemState = sys.systemState.resetTimeout clock) :
    CommandStamped clock sys sys1 := by
  unfold CommandStamped
  rw [h]
  exact ⟨rfl, rfl, rfl⟩

theorem setSpeedAll_systemState (clock : Nat) (speed : Int) (sys : System)
    (h : (setSpeedAll clock speed sys).1 = true) :
    (setSpeedAll clock speed sys).2.systemState = sys.systemState.resetTimeout clock := by
  unfold setSpeedAll at h ⊢
  simp only at h ⊢
  generalize (if (if i16 speed < -255 then -255 else i16 speed) > 255 then 255
    else (if i16 speed < -255 then -255 else i16 speed)) = sp at h ⊢
  split_ifs at h ⊢
  · show SystemStateManager.resetTimeout clock
      (List.foldl (fun st i => setEnabled i true (setTarget i sp st)) sys _).systemState = _
    rw [foldl_systemState (fun st i => setEnabled i true (setTarget i sp st)) (fun _ _ => rfl)]
  · show SystemStateManager.resetTimeout clock
      (List.foldl (fun st i => setTarget i sp st) sys _).systemState = _
    rw [foldl_systemState (fun st i => setTarget i sp st) (fun _ _ => rfl)]

theorem stopAll_systemState (clock : Nat) (sys : System)
    (h : (stopAll clock sys).1 = true) :
    (stopAll clock sys).2.systemState = sys.systemState.resetTimeout clock := by
  unfold stopAll at h ⊢
  simp only at h ⊢
  split_ifs at h ⊢
  show SystemStateManager.resetTimeout clock
    (List.foldl (fun st i => setTarget i 0 st) sys _).systemState = _
  rw [foldl_systemState (fun st i => setTarget i 0 st) (fun _ _ => rfl)]

/-- C11: a transition that `transitionTo` rejects (it returns false) leaves the
state-machine object as it was: mode, `lastCommandTime_` and `timeoutMs_`. -/
theorem C11_rejected_transition_unchanged (clock : Nat) (s : SystemStateManager)
    (to_ : SystemState) (h : (SystemStateManager.transitionTo clock to_ s).1 = false) :
    (SystemStateManager.transitionTo clock to_ s).2 = s := by
  unfold SystemStateManager.transitionTo at h ⊢
  split_ifs at h ⊢
  all_goals rfl

/-- C11 (instance): BOOT→ARMED is rejected and the freshly constructed object is kept. -/
theorem C11_rejected_transition_unchanged_witness :
    (SystemStateManager.transitionTo 7 SystemState.ARMED SystemStateManager.new).2
      = SystemStateManager.new :=
  C11_rejected_transition_unchanged 7 SystemStateManager.new SystemState.ARMED (by decide)

/-- C12: the command timestamp.  A `transitionTo` that succeeds and changes the mode
sets `lastCommandTime_` to the `millis()` of the call and keeps `timeoutMs_`.  Every
motion command that is accepted (`forward`, `reverse`, `setSpeed`, `setSpeedAll`,
`stop`, `stopAll` returning true) sets `lastCommandTime_` to the `millis()` of the
call and keeps `timeoutMs_` and the mode. -/
theorem C12_timestamp_reset (clock motorId percent : Nat) (speed : Int)
    (newState : SystemState) (sys : System) :
    ((SystemStateManager.transitionTo clock newState sys.systemState).1 = true →
        sys.systemState.currentState_ ≠ newState →
        (SystemStateManager.transitionTo clock newState sys.systemState).2.lastCommandTime_
          = millis clock ∧
        (SystemStateManager.transitionTo clock newState sys.systemState).2.timeoutMs_
          = sys.systemState.timeoutMs_) ∧
    ((forward clock motorId percent sys).1 = true →
        CommandStamped clock sys (forward clock motorId percent sys).2) ∧
    ((forwardDefault clock motorId sys).1 = true →
        CommandStamped clock sys (forwardDefault clock motorId sys).2) ∧
    ((reverse clock motorId percent sys).1 = true →
        CommandStamped clock sys (reverse clock motorId percent sys).2) ∧
    ((reverseDefault clock motorId sys).1 = true →
        CommandStamped clock sys (reverseDefault clock motorId sys).2) ∧
    ((setSpeed clock motorId speed sys).1 = true →
        CommandStamped clock sys (setSpeed clock motorId speed sys).2) ∧
    ((setSpeedAll clock speed sys).1 = true →
        CommandStamped clock sys (setSpeedAll clock speed sys).2) ∧
    ((stop clock motorId sys).1 = true →
        CommandStamped clock sys (stop clock motorId sys).2) ∧
    ((stopAll clock sys).1 = true →
        CommandStamped clock sys (stopAll clock sys).2) := by
  have hfwd : ∀ m p, (forward clock m p sys).1 = true →
      CommandStamped clock sys (forward clock m p sys).2 := by
    intro m p h
    unfold forward at h ⊢
    simp only at h ⊢
    split_ifs at h ⊢
    all_goals exact ⟨rfl, rfl, rfl⟩
  have hrev : ∀ m p, (reverse clock m p sys).1 = true →
      CommandStamped clock sys (reverse clock m p sys).2 := by
    intro m p h
    unfold reverse at h ⊢
    simp only at h ⊢
    split_ifs at h ⊢
    all_goals exact ⟨rfl, rfl, rfl⟩
  refine ⟨?_, hfwd _ _, hfwd _ _, hrev _ _, hrev _ _, ?_, ?_, ?_, ?_⟩
  · intro h hne
    unfold SystemStateManager.transitionTo at h ⊢
    rw [if_neg hne] at h ⊢
    split_ifs at h ⊢
    all_goals exact ⟨rfl, rfl⟩
  · intro h
    unfold setSpeed at h ⊢
    simp only at h ⊢
    split_ifs at h ⊢
    all_goals exact ⟨rfl, rfl, rfl⟩
  · intro h
    exact stamped_of_systemState _ _ _ (setSpeedAll_systemState clock speed sys h)
  · intro h
    unfold stop at h ⊢
    simp only at h ⊢
    split_ifs at h ⊢
    all_goals exact ⟨rfl, rfl, rfl⟩
  · intro h
    exact stamped_of_systemState _ _ _ (stopAll_systemState clock sys h)

/-- C12 (instance): in the running sample state `stop(1)` at 90 ms is accepted, and the
state machine then holds `lastCommandTime_ = 90`, the same timeout and the same mode. -/
theorem C12_timestamp_reset_witness :
    CommandStamped 90 sampleRunning (stop 90 1 sampleRunning).2 :=
  (C12_timestamp_reset 90 1 0 0 SystemState.IDLE sampleRunning).2.2.2.2.2.2.2.1 (by decide)

/-- C13: an invalid channel id.  For id 0 and for every id above 5 (up to 255, the
range of the `uint8_t` parameter), in every mode, ARMED included, `forward`,
`reverse`, `setSpeed` and `stop` return false and leave the whole state unchanged
(all channel state, `lastCommandTime_`); `getSpeed(id)` is 0 and `isEnabled(id)` is
false. -/
theorem C13_invalid_id (clock motorId percent : Nat) (speed : Int) (sys : System)
    (hid : motorId = 0 ∨ (5 < motorId ∧ motorId < 256)) :
    forward clock motorId percent sys = (false, sys) ∧
    forwardDefault clock motorId sys = (false, sys) ∧
    reverse clock motorId percent sys = (false, sys) ∧
    reverseDefault clock motorId sys = (false, sys) ∧
    setSpeed clock motorId speed sys = (false, sys) ∧
    stop clock motorId sys = (false, sys) ∧
    getSpeed motorId sys = 0 ∧
    isEnabled motorId sys = false := by
  have hv := isValidMotorId_of_invalid motorId hid
  have hu : u8 (u8 motorId) = u8 motorId := by
    unfold u8
    omega
  simp [forward, forwardDefault, reverse, reverseDefault, setSpeed, stop, getSpeed,
    isEnabled, hv, hu]

/-- C13 (instance): in the running sample state (ARMED) the ids 0 and 6 are refused. -/
theorem C13_invalid_id_witness :
    (forward 90 6 50 sampleRunning = (false, sampleRunning) ∧
      forwardDefault 90 6 sampleRunning = (false, sampleRunning) ∧
      reverse 90 6 50 sampleRunning = (false, sampleRunning) ∧
      reverseDefault 90 6 sampleRunning = (false, sampleRunning) ∧
      setSpeed 90 6 200 sampleRunning = (false, sampleRunning) ∧
      stop 90 6 sampleRunning = (false, sampleRunning) ∧
      getSpeed 6 sampleRunning = 0 ∧
      isEnabled 6 sampleRunning = false) ∧
    sampleRunning.systemState.currentState_ = SystemState.ARMED :=
  ⟨C13_invalid_id 90 6 50 200 sampleRunning (Or.inr ⟨by decide, by decide⟩), by decide⟩

/-- C14: whenever the mode is not ARMED, `isEnabled(id)` is false for every id and
`isEnabled()` is false, whatever the enabled flags and the speeds are. -/
theorem C14_isEnabled_gated (motorId : Nat) (sys : System)
    (h : sys.systemState.currentState_ ≠ SystemState.ARMED) :
    isEnabled motorId sys = false ∧ isEnabledAny sys = false := by
  simp [isEnabled, isEnabledAny, getCurrentState, SystemStateManager.getState, h]

/-- C14 (instance): after the disarm channel 1 still has its enabled flag set and
current speed 10, and both queries answer false. -/
theorem C14_isEnabled_gated_witness :
    (isEnabled 1 sampleDisarmed = false ∧ isEnabledAny sampleDisarmed = false) ∧
    sampleDisarmed.motorControl.enabled_ 0 = true ∧
    sampleDisarmed.motorControl.currentSpeed_ 0 = 10 :=
  ⟨C14_isEnabled_gated 1 sampleDisarmed (by decide), by decide, by decide⟩

/-- C15, as stated, fails: after the disarm the mode is IDLE and `getSpeed(1)` is 10,
the current speed of channel 1, not 0. -/
theorem C15_getSpeed_not_gated :
    sampleDisarmed.systemState.currentState_ = SystemState.IDLE ∧
    getSpeed 1 sampleDisarmed = 10 := by
  decide

/-- C15, amended: `getSpeed(id)` does not look at the mode.  For a valid id it is the
channel's current speed in every mode, for an invalid id it is 0; replacing the
state machine by any other leaves the answer the same. -/
theorem C15_getSpeed_amended (motorId : Nat) (sys : System) :
    ((1 ≤ motorId ∧ motorId ≤ 5) →
        getSpeed motorId sys = sys.motorControl.currentSpeed_ (motorId - 1)) ∧
    ((motorId = 0 ∨ (5 < motorId ∧ motorId < 256)) → getSpeed motorId sys = 0) ∧
    (∀ sm : SystemStateManager,
        getSpeed motorId { sys with systemState := sm } = getSpeed motorId sys) := by
  refine ⟨?_, ?_, ?_⟩
  · intro h
    have hv := isValidMotorId_of_range motorId h.1 h.2
    simp [getSpeed, hv.1, hv.2]
  · intro h
    simp [getSpeed, isValidMotorId_of_invalid motorId h]
  · intro sm
    rfl

/-- C15 amended (instance): channel 1 of the disarmed sample state. -/
theorem C15_getSpeed_amended_witness :
    getSpeed 1 sampleDisarmed = sampleDisarmed.motorControl.currentSpeed_ (1 - 1) :=
  (C15_getSpeed_amended 1 sampleDisarmed).1 ⟨by decide, by decide⟩

/-! ### Accepted commands -/

theorem percentToSpeed_eq (mc : MotorControl) (p : Nat) (hp : p ≤ 100)
    (hd : mc.defaultSpeed_ ≤ 255) : percentToSpeed mc p = mc.defaultSpeed_ * p / 100 := by
  have h1 : mc.defaultSpeed_ * p ≤ 255 * 100 := Nat.mul_le_mul hd hp
  simp only [percentToSpeed, u8, u16]
  split_ifs <;> omega

/-- The result of `forward` on a valid id in ARMED mode. -/
theorem forward_accepted (clock motorId percent : Nat) (sys : System)
    (hA : sys.systemState.currentState_ = SystemState.ARMED)
    (h1 : 1 ≤ motorId) (h5 : motorId ≤ 5) :
    forward clock motorId percent sys =
      (true, resetTimeoutGlobal clock (setEnabled (motorId - 1) true
        (setTarget (motorId - 1)
          ((percentToSpeed sys.motorControl (if u8 percent > 100 then 100 else u8 percent)
            : Nat) : Int) sys))) := by
  have hv := isValidMotorId_of_range motorId h1 h5
  have hc := checkSafety_of_armed sys hA
  simp [forward, hv.1, hv.2, hc]

/-- The result of `reverse` on a valid id in ARMED mode. -/
theorem reverse_accepted (clock motorId percent : Nat) (sys : System)
    (hA : sys.systemState.currentState_ = SystemState.ARMED)
    (h1 : 1 ≤ motorId) (h5 : motorId ≤ 5) :
    reverse clock motorId percent sys =
      (true, resetTimeoutGlobal clock (setEnabled (motorId - 1) true
        (setTarget (motorId - 1)
          (-((percentToSpeed sys.motorControl (if u8 percent > 100 then 100 else u8 percent)
            : Nat) : Int)) sys))) := by
  have hv := isValidMotorId_of_range motorId h1 h5
  have hc := checkSafety_of_armed sys hA
  have hle := percentToSpeed_le sys.motorControl (if u8 percent > 100 then 100 else u8 percent)
  have hneg : i16 (-(i16 ((percentToSpeed sys.motorControl
      (if u8 percent > 100 then 100 else u8 percent) : Nat) : Int)))
      = -((percentToSpeed sys.motorControl (if u8 percent > 100 then 100 else u8 percent)
        : Nat) : Int) := by
    simp only [i16]
    omega
  simp only [reverse, hv.1, hv.2, hc, Bool.not_true, Bool.false_eq_true, if_false, hneg]

/-- The result of `setSpeed` on a valid id in ARMED mode, for a speed in the `int16_t`
range. -/
theorem setSpeed_accepted (clock motorId : Nat) (speed : Int) (sys : System)
    (hA : sys.systemState.currentState_ = SystemState.ARMED)
    (h1 : 1 ≤ motorId) (h5 : motorId ≤ 5) (hs1 : -32768 ≤ speed) (hs2 : speed ≤ 32767) :
    setSpeed clock motorId speed sys =
      (true, resetTimeoutGlobal clock
        (if max (-255) (min 255 speed) ≠ 0 then
          setEnabled (motorId - 1) true (setTarget (motorId - 1) (max (-255) (min 255 speed)) sys)
        else setTarget (motorId - 1) (max (-255) (min 255 speed)) sys)) := by
  have hv := isValidMotorId_of_range motorId h1 h5
  have hc := checkSafety_of_armed sys hA
  have hi : i16 speed = speed := by
    unfold i16
    omega
  have hcl : (if (if speed < -255 then -255 else speed) > 255 then 255
      else (if speed < -255 then -255 else speed)) = max (-255) (min 255 speed) := by
    split_ifs <;> omega
  simp only [setSpeed, hv.1, hv.2, hc, Bool.not_true, Bool.false_eq_true, if_false, hi, hcl]

/-- C16, as stated, fails: with default speed 199 in ARMED mode, `forward(1, 1)` and
`reverse(1, 1)` are accepted and set the target to 1 and -1, while 199 * 1 / 100 = 1.99
rounded to the nearest integer is 2. -/
theorem C16_magnitude_not_rounded :
    sampleArmed199.systemState.currentState_ = SystemState.ARMED ∧
    sampleArmed199.motorControl.defaultSpeed_ = 199 ∧
    (forward 20 1 1 sampleArmed199).1 = true ∧
    (forward 20 1 1 sampleArmed199).2.motorControl.targetSpeed_ 0 = 1 ∧
    (reverse 20 1 1 sampleArmed199).1 = true ∧
    (reverse 20 1 1 sampleArmed199).2.motorControl.targetSpeed_ 0 = -1 ∧
    specRoundedMagnitude 199 1 = 2 := by
  decide

/-- C16, amended: in ARMED mode, for every valid id, every default speed `d ≤ 255` and
every percent `p ≤ 100`, `forward(id, p)` sets the channel's target to `+m` and
`reverse(id, p)` sets it to `-m`, where `m` is `d * p / 100` rounded down (integer
division; it is at most 255); both mark the channel enabled and return true. -/
theorem C16_magnitude_amended (clock motorId percent : Nat) (sys : System)
    (hA : sys.systemState.currentState_ = SystemState.ARMED)
    (h1 : 1 ≤ motorId) (h5 : motorId ≤ 5)
    (hd : sys.motorControl.defaultSpeed_ ≤ 255) (hp : percent ≤ 100) :
    ((forward clock motorId percent sys).1 = true ∧
      (forward clock motorId percent sys).2.motorControl.targetSpeed_ (motorId - 1)
        = ((sys.motorControl.defaultSpeed_ * percent / 100 : Nat) : Int) ∧
      (forward clock motorId percent sys).2.motorControl.enabled_ (motorId - 1) = true) ∧
    ((reverse clock motorId percent sys).1 = true ∧
      (reverse clock motorId percent sys).2.motorControl.targetSpeed_ (motorId - 1)
        = -((sys.motorControl.defaultSpeed_ * percent / 100 : Nat) : Int) ∧
      (reverse clock motorId percent sys).2.motorControl.enabled_ (motorId - 1) = true) ∧
    sys.motorControl.defaultSpeed_ * percent / 100 ≤ 255 := by
  have hu : u8 percent = percent := by
    unfold u8
    omega
  have hsel : (if u8 percent > 100 then 100 else u8 percent) = percent := by
    rw [hu]
    split_ifs <;> omega
  have hpe := percentToSpeed_eq sys.motorControl percent hp hd
  have hle := percentToSpeed_le sys.motorControl percent
  rw [forward_accepted clock motorId percent sys hA h1 h5,
    reverse_accepted clock motorId percent sys hA h1 h5, hsel, hpe]
  rw [hpe] at hle
  simp [resetTimeoutGlobal, setEnabled, setTarget, setAt, hle]

/-- C16 amended (instance): default speed 199, `forward(1, 1)` and `reverse(1, 1)`:
the targets are 199 * 1 / 100 = 1 and -1. -/
theorem C16_magnitude_amended_witness :
    ((forward 20 1 1 sampleArmed199).1 = true ∧
      (forward 20 1 1 sampleArmed199).2.motorControl.targetSpeed_ (1 - 1)
        = ((sampleArmed199.motorControl.defaultSpeed_ * 1 / 100 : Nat) : Int) ∧
      (forward 20 1 1 sampleArmed199).2.motorControl.enabled_ (1 - 1) = true) ∧
    ((reverse 20 1 1 sampleArmed199).1 = true ∧
      (reverse 20 1 1 sampleArmed199).2.motorControl.targetSpeed_ (1 - 1)
        = -((sampleArmed199.motorControl.defaultSpeed_ * 1 / 100 : Nat) : Int) ∧
      (reverse 20 1 1 sampleArmed199).2.motorControl.enabled_ (1 - 1) = true) ∧
    sampleArmed199.motorControl.defaultSpeed_ * 1 / 100 ≤ 255 :=
  C16_magnitude_amended 20 1 1 sampleArmed199 (by decide) (by decide) (by decide)
    (by decide) (by decide)

/-- C17: forward and reverse are complementary.  In ARMED mode, for every valid id
and every percent `p`, `forward(id, p)` followed by `reverse(id, p)` (the default
speed is the same at both calls) are both accepted, the target after the reverse is
the exact negative of the target after the forward, and the forward target is
non-negative. -/
theorem C17_forward_reverse_complementary (clock1 clock2 motorId percent : Nat)
    (sys : System) (hA : sys.systemState.currentState_ = SystemState.ARMED)
    (h1 : 1 ≤ motorId) (h5 : motorId ≤ 5) :
    (forward clock1 motorId percent sys).1 = true ∧
    (reverse clock2 motorId percent (forward clock1 motorId percent sys).2).1 = true ∧
    (forward clock1 motorId percent sys).2.motorControl.defaultSpeed_
      = sys.motorControl.defaultSpeed_ ∧
    (reverse clock2 motorId percent
        (forward clock1 motorId percent sys).2).2.motorControl.targetSpeed_ (motorId - 1)
      = -((forward clock1 motorId percent sys).2.motorControl.targetSpeed_ (motorId - 1)) ∧
    0 ≤ (forward clock1 motorId percent sys).2.motorControl.targetSpeed_ (motorId - 1) := by
  have hf := forward_accepted clock1 motorId percent sys hA h1 h5
  have hA1 : (forward clock1 motorId percent sys).2.systemState.currentState_
      = SystemState.ARMED := by
    rw [hf]
    exact hA
  have hr := reverse_accepted clock2 motorId percent _ hA1 h1 h5
  rw [hr]
  rw [hf]
  simp [resetTimeoutGlobal, setEnabled, setTarget, setAt, percentToSpeed]

/-- C17 (instance): in the running sample state, `forward(2, 30)` then `reverse(2, 30)`
give targets 30 and -30. -/
theorem C17_forward_reverse_complementary_witness :
    ((forward 90 2 30 sampleRunning).1 = true ∧
      (reverse 95 2 30 (forward 90 2 30 sampleRunning).2).1 = true ∧
      (forward 90 2 30 sampleRunning).2.motorControl.defaultSpeed_
        = sampleRunning.motorControl.defaultSpeed_ ∧
      (reverse 95 2 30 (forward 90 2 30 sampleRunning).2).2.motorControl.targetSpeed_ (2 - 1)
        = -((forward 90 2 30 sampleRunning).2.motorControl.targetSpeed_ (2 - 1)) ∧
      0 ≤ (forward 90 2 30 sampleRunning).2.motorControl.targetSpeed_ (2 - 1)) ∧
    (forward 90 2 30 sampleRunning).2.motorControl.targetSpeed_ 1 = 30 :=
  ⟨C17_forward_reverse_complementary 90 95 2 30 sampleRunning (by decide) (by decide)
    (by decide), by decide⟩

/-- C18: the percentage is clamped, not rejected.  In ARMED mode, for every valid id
and every percent `p` above 100 (up to 255, the range of the `uint8_t` parameter),
`forward(id, p)` returns true and yields exactly the state that `forward(id, 100)`
yields, with target `+defaultSpeed_`; likewise `reverse(id, p)` and `reverse(id, 100)`,
with target `-defaultSpeed_` (the default speed is a `uint8_t`, at most 255). -/
theorem C18_percent_clamped (clock motorId percent : Nat) (sys : System)
    (hA : sys.systemState.currentState_ = SystemState.ARMED)
    (h1 : 1 ≤ motorId) (h5 : motorId ≤ 5)
    (hp : 100 < percent) (hp8 : percent < 256)
    (hd : sys.motorControl.defaultSpeed_ ≤ 255) :
    ((forward clock motorId percent sys).1 = true ∧
      forward clock motorId percent sys = forward clock motorId 100 sys ∧
      (forward clock motorId percent sys).2.motorControl.targetSpeed_ (motorId - 1)
        = (sys.motorControl.defaultSpeed_ : Int)) ∧
    ((reverse clock motorId percent sys).1 = true ∧
      reverse clock motorId percent sys = reverse clock motorId 100 sys ∧
      (reverse clock motorId percent sys).2.motorControl.targetSpeed_ (motorId - 1)
        = -(sys.motorControl.defaultSpeed_ : Int)) := by
  have hu : u8 percent = percent := by
    unfold u8
    omega
  have hsel : (if u8 percent > 100 then 100 else u8 percent) = 100 := by
    rw [hu, if_pos hp]
  have hsel100 : (if u8 100 > 100 then 100 else u8 100) = 100 := by decide
  have hpe : percentToSpeed sys.motorControl 100 = sys.motorControl.defaultSpeed_ := by
    rw [percentToSpeed_eq sys.motorControl 100 (Nat.le_refl _) hd]
    omega
  rw [forward_accepted clock motorId percent sys hA h1 h5,
    forward_accepted clock motorId 100 sys hA h1 h5,
    reverse_accepted clock motorId percent sys hA h1 h5,
    reverse_accepted clock motorId 100 sys hA h1 h5, hsel, hsel100, hpe]
  simp [resetTimeoutGlobal, setEnabled, setTarget, setAt]

/-- C18 (instance): in the running sample state (default speed 100), `forward(2, 250)`
is `forward(2, 100)` and sets the target of channel 2 to 100. -/
theorem C18_percent_clamped_witness :
    (((forward 90 2 250 sampleRunning).1 = true ∧
        forward 90 2 250 sampleRunning = forward 90 2 100 sampleRunning ∧
        (forward 90 2 250 sampleRunning).2.motorControl.targetSpeed_ (2 - 1)
          = (sampleRunning.motorControl.defaultSpeed_ : Int)) ∧
      ((reverse 90 2 250 sampleRunning).1 = true ∧
        reverse 90 2 250 sampleRunning = reverse 90 2 100 sampleRunning ∧
        (reverse 90 2 250 sampleRunning).2.motorControl.targetSpeed_ (2 - 1)
          = -(sampleRunning.motorControl.defaultSpeed_ : Int))) ∧
    sampleRunning.motorControl.defaultSpeed_ = 100 :=
  ⟨C18_percent_clamped 90 2 250 sampleRunning (by decide) (by decide) (by decide)
    (by decide) (by decide) (by decide), by decide⟩

/-- C19: in ARMED mode, for every valid id and every 16-bit signed speed `s`,
`setSpeed(id, s)` returns true, sets that channel's target to `max(-255, min(255, s))`,
leaves every channel's current speed unchanged, and leaves the target and the
enabled flag of every other channel unchanged. -/
theorem C19_setSpeed (clock motorId : Nat) (speed : Int) (sys : System)
    (hA : sys.systemState.currentState_ = SystemState.ARMED)
    (h1 : 1 ≤ motorId) (h5 : motorId ≤ 5) (hs1 : -32768 ≤ speed) (hs2 : speed ≤ 32767) :
    (setSpeed clock motorId speed sys).1 = true ∧
    (setSpeed clock motorId speed sys).2.motorControl.targetSpeed_ (motorId - 1)
      = max (-255) (min 255 speed) ∧
    (∀ j, (setSpeed clock motorId speed sys).2.motorControl.currentSpeed_ j
      = sys.motorControl.currentSpeed_ j) ∧
    (∀ j, j ≠ motorId - 1 →
      (setSpeed clock motorId speed sys).2.motorControl.targetSpeed_ j
        = sys.motorControl.targetSpeed_ j ∧
      (setSpeed clock motorId speed sys).2.motorControl.enabled_ j
        = sys.motorControl.enabled_ j) := by
  rw [setSpeed_accepted clock motorId speed sys hA h1 h5 hs1 hs2]
  refine ⟨rfl, ?_, ?_, ?_⟩
  · split_ifs <;> simp [resetTimeoutGlobal, setEnabled, setTarget, setAt]
  · intro j
    split_ifs <;> rfl
  · intro j hj
    split_ifs <;> simp [resetTimeoutGlobal, setEnabled, setTarget, setAt, hj]

/-- C19 (instance): in the running sample state, `setSpeed(2, -300)` sets the target of
channel 2 to -255 and leaves channel 1 (current 10, target 100) alone. -/
theorem C19_setSpeed_witness :
    ((setSpeed 90 2 (-300) sampleRunning).1 = true ∧
      (setSpeed 90 2 (-300) sampleRunning).2.motorControl.targetSpeed_ (2 - 1)
        = max (-255) (min 255 (-300)) ∧
      (∀ j, (setSpeed 90 2 (-300) sampleRunning).2.motorControl.currentSpeed_ j
        = sampleRunning.motorControl.currentSpeed_ j) ∧
      (∀ j, j ≠ 2 - 1 →
        (setSpeed 90 2 (-300) sampleRunning).2.motorControl.targetSpeed_ j
          = sampleRunning.motorControl.targetSpeed_ j ∧
        (setSpeed 90 2 (-300) sampleRunning).2.motorControl.enabled_ j
          = sampleRunning.motorControl.enabled_ j)) ∧
    (setSpeed 90 2 (-300) sampleRunning).2.motorControl.targetSpeed_ 1 = -255 ∧
    (setSpeed 90 2 (-300) sampleRunning).2.motorControl.targetSpeed_ 0 = 100 :=
  ⟨C19_setSpeed 90 2 (-300) sampleRunning (by decide) (by decide) (by decide) (by decide)
    (by decide), by decide, by decide⟩

/-- C20: for every 16-bit signed speed `s`: in ARMED mode `setSpeedAll(s)` returns true
and afterwards each of the five channels has target `max(-255, min(255, s))`; in any
other mode it returns false and the state, every target included, is unchanged. -/
theorem C20_setSpeedAll (clock : Nat) (speed : Int) (sys : System)
    (hs1 : -32768 ≤ speed) (hs2 : speed ≤ 32767) :
    (sys.systemState.currentState_ = SystemState.ARMED →
      (setSpeedAll clock speed sys).1 = true ∧
      ∀ i, i < NUM_MOTORS →
        (setSpeedAll clock speed sys).2.motorControl.targetSpeed_ i
          = max (-255) (min 255 speed)) ∧
    (sys.systemState.currentState_ ≠ SystemState.ARMED →
      setSpeedAll clock speed sys = (false, sys)) := by
  have hi : i16 speed = speed := by
    unfold i16
    omega
  have hcl : (if (if speed < -255 then -255 else speed) > 255 then 255
      else (if speed < -255 then -255 else speed)) = max (-255) (min 255 speed) := by
    split_ifs <;> omega
  constructor
  · intro hA
    have hc := checkSafety_of_armed sys hA
    simp only [setSpeedAll, hc, Bool.not_true, Bool.false_eq_true, if_false, hi, hcl,
      NUM_MOTORS, range_motors]
    refine ⟨trivial, ?_⟩
    intro i hi5
    interval_cases i <;>
      split_ifs <;> simp [resetTimeoutGlobal, setEnabled, setTarget, setAt]
  · intro hA
    have hc := checkSafety_of_not_armed sys hA
    simp [setSpeedAll, hc]

/-- C20 (instance): in the running sample state, `setSpeedAll(300)` is accepted and
every channel gets target 255. -/
theorem C20_setSpeedAll_witness :
    (setSpeedAll 90 300 sampleRunning).1 = true ∧
    ∀ i, i < NUM_MOTORS →
      (setSpeedAll 90 300 sampleRunning).2.motorControl.targetSpeed_ i
        = max (-255) (min 255 300) :=
  (C20_setSpeedAll 90 300 sampleRunning (by decide) (by decide)).1 (by decide)

end Commands

/-! ## Theorems: stop, default speed, scenarios -/

section Stops

open MotorControl

/-- The result of `stop` on a valid id in ARMED mode. -/
theorem stop_accepted (clock motorId : Nat) (sys : System)
    (hA : sys.systemState.currentState_ = SystemState.ARMED)
    (h1 : 1 ≤ motorId) (h5 : motorId ≤ 5) :
    stop clock motorId sys =
      (true, resetTimeoutGlobal clock (setTarget (motorId - 1) 0 sys)) := by
  have hv := isValidMotorId_of_range motorId h1 h5
  have hc := checkSafety_of_armed sys hA
  simp [stop, hv.1, hv.2, hc]

/-- In IDLE `arm()` returns true and the mode becomes ARMED. -/
theorem arm_from_idle (clock : Nat) (s : SystemStateManager)
    (h : s.currentState_ = SystemState.IDLE) :
    (SystemStateManager.arm clock s).1 = true ∧
    (SystemStateManager.arm clock s).2.currentState_ = SystemState.ARMED := by
  rcases s with ⟨cur, last, tmo⟩
  simp only at h
  subst h
  simp [SystemStateManager.arm, SystemStateManager.transitionTo,
    SystemStateManager.isValidTransition, SystemStateManager.resetTimeout]

/-- C21: the ramped stop.  In ARMED mode `stop(id)` for a valid id returns true, sets
that channel's target to 0 and leaves every other target as it was; `stopAll()`
returns true and sets the target of each of the five channels to 0; both leave every
channel's current speed unchanged. -/
theorem C21_ramped_stop (clock motorId : Nat) (sys : System)
    (hA : sys.systemState.currentState_ = SystemState.ARMED)
    (h1 : 1 ≤ motorId) (h5 : motorId ≤ 5) :
    ((stop clock motorId sys).1 = true ∧
      (stop clock motorId sys).2.motorControl.targetSpeed_ (motorId - 1) = 0 ∧
      (∀ j, j ≠ motorId - 1 →
        (stop clock motorId sys).2.motorControl.targetSpeed_ j
          = sys.motorControl.targetSpeed_ j) ∧
      (∀ j, (stop clock motorId sys).2.motorControl.currentSpeed_ j
        = sys.motorControl.currentSpeed_ j)) ∧
    ((stopAll clock sys).1 = true ∧
      (∀ i, i < NUM_MOTORS → (stopAll clock sys).2.motorControl.targetSpeed_ i = 0) ∧
      (∀ j, (stopAll clock sys).2.motorControl.currentSpeed_ j
        = sys.motorControl.currentSpeed_ j)) := by
  have hc := checkSafety_of_armed sys hA
  constructor
  · rw [stop_accepted clock motorId sys hA h1 h5]
    refine ⟨rfl, ?_, ?_, ?_⟩
    · simp [resetTimeoutGlobal, setTarget, setAt]
    · intro j hj
      simp [resetTimeoutGlobal, setTarget, setAt, hj]
    · intro j
      rfl
  · simp only [stopAll, hc, Bool.not_true, Bool.false_eq_true, if_false, NUM_MOTORS,
      range_motors]
    refine ⟨trivial, ?_, ?_⟩
    · intro i hi
      interval_cases i <;> simp [resetTimeoutGlobal, setTarget, setAt]
    · intro j
      rfl

/-- C21 (instance): in the running sample state (channel 1 at speed 10, target 100)
`stop(1)` and `stopAll()` zero the target and keep the current speed 10. -/
theorem C21_ramped_stop_witness :
    (((stop 90 1 sampleRunning).1 = true ∧
        (stop 90 1 sampleRunning).2.motorControl.targetSpeed_ (1 - 1) = 0 ∧
        (∀ j, j ≠ 1 - 1 →
          (stop 90 1 sampleRunning).2.motorControl.targetSpeed_ j
            = sampleRunning.motorControl.targetSpeed_ j) ∧
        (∀ j, (stop 90 1 sampleRunning).2.motorControl.currentSpeed_ j
          = sampleRunning.motorControl.currentSpeed_ j)) ∧
      ((stopAll 90 sampleRunning).1 = true ∧
        (∀ i, i < NUM_MOTORS → (stopAll 90 sampleRunning).2.motorControl.targetSpeed_ i = 0) ∧
        (∀ j, (stopAll 90 sampleRunning).2.motorControl.currentSpeed_ j
          = sampleRunning.motorControl.currentSpeed_ j))) ∧
    sampleRunning.motorControl.currentSpeed_ 0 = 10 ∧
    sampleRunning.motorControl.targetSpeed_ 0 = 100 :=
  ⟨C21_ramped_stop 90 1 sampleRunning (by decide) (by decide) (by decide), by decide,
    by decide⟩

/-- C22: for every `s` in 1..255, in every state (so in every mode),
`setDefaultSpeed(s)` returns true and `getDefaultSpeed()` then returns `s`;
`setDefaultSpeed(0)` returns false and leaves the state, the default speed included,
unchanged. -/
theorem C22_setDefaultSpeed (s : Nat) (sys : System) (h1 : 1 ≤ s) (h255 : s ≤ 255) :
    (setDefaultSpeed s sys).1 = true ∧
    getDefaultSpeed (setDefaultSpeed s sys).2 = s ∧
    setDefaultSpeed 0 sys = (false, sys) := by
  have hu : u8 s = s := by
    unfold u8
    omega
  have h0 : ¬ s = 0 := by omega
  have hgt : ¬ s > 255 := by omega
  refine ⟨?_, ?_, ?_⟩
  · simp [setDefaultSpeed, hu, h0, hgt]
  · simp [setDefaultSpeed, getDefaultSpeed, hu, h0, hgt]
  · simp [setDefaultSpeed, u8]

/-- C22 (instance): `setDefaultSpeed(150)` succeeds and `getDefaultSpeed()` is 150. -/
theorem C22_setDefaultSpeed_witness :
    (setDefaultSpeed 150 sampleDisarmed).1 = true ∧
    getDefaultSpeed (setDefaultSpeed 150 sampleDisarmed).2 = 150 ∧
    setDefaultSpeed 0 sampleDisarmed = (false, sampleDisarmed) :=
  C22_setDefaultSpeed 150 sampleDisarmed (by decide) (by decide)

/-- C29: the arm-and-drive scenario.  From any state in IDLE with default speed 100,
`arm()` returns true and the mode is ARMED; then `forward(1, 50)` returns true, the
target of channel 1 is exactly 50 and every other channel's target is unchanged. -/
theorem C29_arm_and_drive (clock1 clock2 : Nat) (sys : System)
    (hI : sys.systemState.currentState_ = SystemState.IDLE)
    (hd : sys.motorControl.defaultSpeed_ = 100) :
    (SystemStateManager.arm clock1 sys.systemState).1 = true ∧
    (step clock1 Op.arm sys).systemState.currentState_ = SystemState.ARMED ∧
    (forward clock2 1 50 (step clock1 Op.arm sys)).1 = true ∧
    (forward clock2 1 50 (step clock1 Op.arm sys)).2.motorControl.targetSpeed_ 0 = 50 ∧
    (∀ j, j ≠ 0 →
      (forward clock2 1 50 (step clock1 Op.arm sys)).2.motorControl.targetSpeed_ j
        = sys.motorControl.targetSpeed_ j) := by
  have harm := arm_from_idle clock1 sys.systemState hI
  have hA : (step clock1 Op.arm sys).systemState.currentState_ = SystemState.ARMED :=
    harm.2
  have hmc : (step clock1 Op.arm sys).motorControl = sys.motorControl := rfl
  have hp : percentToSpeed sys.motorControl 50 = 50 := by
    rw [percentToSpeed_eq sys.motorControl 50 (by omega) (by omega), hd]
  refine ⟨harm.1, hA, ?_⟩
  rw [forward_accepted clock2 1 50 _ hA (by omega) (by omega), hmc]
  have hsel : (if u8 50 > 100 then 100 else u8 50) = 50 := by decide
  rw [hsel, hp]
  refine ⟨rfl, ?_, ?_⟩
  · simp [resetTimeoutGlobal, setEnabled, setTarget, setAt, hmc]
  · intro j hj
    simp [resetTimeoutGlobal, setEnabled, setTarget, setAt, hmc, hj]

/-- C29 (instance): after `init()` and BOOT→IDLE (default speed 100), `arm()` then
`forward(1, 50)` give channel 1 the target 50. -/
theorem C29_arm_and_drive_witness :
    (SystemStateManager.arm 10
      (step 0 (Op.transitionTo SystemState.IDLE) (System.started Hardware.allLow)).systemState
      ).1 = true ∧
    (step 10 Op.arm (step 0 (Op.transitionTo SystemState.IDLE)
      (System.started Hardware.allLow))).systemState.currentState_ = SystemState.ARMED ∧
    (forward 20 1 50 (step 10 Op.arm (step 0 (Op.transitionTo SystemState.IDLE)
      (System.started Hardware.allLow)))).1 = true ∧
    (forward 20 1 50 (step 10 Op.arm (step 0 (Op.transitionTo SystemState.IDLE)
      (System.started Hardware.allLow)))).2.motorControl.targetSpeed_ 0 = 50 ∧
    (∀ j, j ≠ 0 →
      (forward 20 1 50 (step 10 Op.arm (step 0 (Op.transitionTo SystemState.IDLE)
        (System.started Hardware.allLow)))).2.motorControl.targetSpeed_ j
        = (step 0 (Op.transitionTo SystemState.IDLE)
          (System.started Hardware.allLow)).motorControl.targetSpeed_ j) :=
  C29_arm_and_drive 10 20
    (step 0 (Op.transitionTo SystemState.IDLE) (System.started Hardware.allLow))
    (by decide) (by decide)

end Stops

/-! ## Theorems: the ramp loop -/

section Ramp

open MotorControl

theorem setSTBY_fields (d : Nat) (e : Bool) (sys : System) :
    (setSTBY d e sys).motorControl = sys.motorControl ∧
    (setSTBY d e sys).systemState = sys.systemState ∧
    (setSTBY d e sys).hw.duty = sys.hw.duty := by
  unfold setSTBY
  split_ifs
  · exact ⟨rfl, rfl, rfl⟩
  · exact ⟨rfl, rfl, rfl⟩

theorem index_roundtrip (i : Nat) (hi : i < 5) :
    u8 (indexToMotorId i) = i + 1 ∧ isValidMotorId (i + 1) = true ∧
    motorIdToIndex (i + 1) = i ∧ getDriverId (i + 1) = i / 2 ∧
    getMotorIndexInDriver (i + 1) = i % 2 := by
  interval_cases i <;> decide

/-- What `setMotorSpeedInternal` does to the controller's records: it touches only the
current speed and the enabled flag of its own channel, and the current speed it
leaves there is the old one or the clamped argument. -/
theorem setMotorSpeedInternal_fields (i : Nat) (hi : i < 5) (speed : Int) (sys : System) :
    (setMotorSpeedInternal (indexToMotorId i) speed sys).2.systemState = sys.systemState ∧
    (setMotorSpeedInternal (indexToMotorId i) speed sys).2.motorControl.targetSpeed_
      = sys.motorControl.targetSpeed_ ∧
    (setMotorSpeedInternal (indexToMotorId i) speed sys).2.motorControl.lastUpdateTime_
      = sys.motorControl.lastUpdateTime_ ∧
    (setMotorSpeedInternal (indexToMotorId i) speed sys).2.motorControl.driverError_
      = sys.motorControl.driverError_ ∧
    (setMotorSpeedInternal (indexToMotorId i) speed sys).2.motorControl.defaultSpeed_
      = sys.motorControl.defaultSpeed_ ∧
    (∀ j, j ≠ i →
      (setMotorSpeedInternal (indexToMotorId i) speed sys).2.motorControl.currentSpeed_ j
        = sys.motorControl.currentSpeed_ j ∧
      (setMotorSpeedInternal (indexToMotorId i) speed sys).2.motorControl.enabled_ j
        = sys.motorControl.enabled_ j) ∧
    ((-255 ≤ speed ∧ speed ≤ 255) →
      ((setMotorSpeedInternal (indexToMotorId i) speed sys).2.motorControl.currentSpeed_ i
          = sys.motorControl.currentSpeed_ i ∨
        (setMotorSpeedInternal (indexToMotorId i) speed sys).2.motorControl.currentSpeed_ i
          = speed)) := by
  obtain ⟨hu, hv, hidx, -, -⟩ := index_roundtrip i hi
  unfold setMotorSpeedInternal
  simp only [hu, hv, hidx, Bool.not_true, Bool.false_eq_true, if_false]
  have hsp : (-255 ≤ speed ∧ speed ≤ 255) →
      (if (if i16 speed < -255 then -255 else i16 speed) > 255 then 255
        else (if i16 speed < -255 then -255 else i16 speed)) = speed := by
    intro h
    simp only [i16]
    split_ifs <;> omega
  generalize (if (if i16 speed < -255 then -255 else i16 speed) > 255 then 255
    else (if i16 speed < -255 then -255 else i16 speed)) = sp at hsp ⊢
  split_ifs
  · exact ⟨rfl, rfl, rfl, rfl, rfl, fun _ _ => ⟨rfl, rfl⟩, fun _ => Or.inl rfl⟩
  all_goals
    split
    · exact ⟨rfl, rfl, rfl, rfl, rfl, fun _ _ => ⟨rfl, rfl⟩, fun _ => Or.inl rfl⟩
    · rename_i sys1 heq
      obtain ⟨hm, hs⟩ := writeMotorPins_motorControl _ _ _ _ _ _ _ heq
      have key : ∀ st : System, st.motorControl = sys.motorControl →
          st.systemState = sys.systemState →
          (setEnabled i (decide (sp ≠ 0)) (setCurrent i sp st)).systemState
            = sys.systemState ∧
          (setEnabled i (decide (sp ≠ 0)) (setCurrent i sp st)).motorControl.targetSpeed_
            = sys.motorControl.targetSpeed_ ∧
          (setEnabled i (decide (sp ≠ 0)) (setCurrent i sp st)).motorControl.lastUpdateTime_
            = sys.motorControl.lastUpdateTime_ ∧
          (setEnabled i (decide (sp ≠ 0)) (setCurrent i sp st)).motorControl.driverError_
            = sys.motorControl.driverError_ ∧
          (setEnabled i (decide (sp ≠ 0)) (setCurrent i sp st)).motorControl.defaultSpeed_
            = sys.motorControl.defaultSpeed_ ∧
          (∀ j, j ≠ i →
            (setEnabled i (decide (sp ≠ 0)) (setCurrent i sp st)).motorControl.currentSpeed_ j
              = sys.motorControl.currentSpeed_ j ∧
            (setEnabled i (decide (sp ≠ 0)) (setCurrent i sp st)).motorControl.enabled_ j
              = sys.motorControl.enabled_ j) ∧
          ((-255 ≤ speed ∧ speed ≤ 255) →
            ((setEnabled i (decide (sp ≠ 0)) (setCurrent i sp st)).motorControl.currentSpeed_ i
                = sys.motorControl.currentSpeed_ i ∨
              (setEnabled i (decide (sp ≠ 0)) (setCurrent i sp st)).motorControl.currentSpeed_ i
                = speed)) := by
        intro st h1 h2
        refine ⟨h2, ?_, ?_, ?_, ?_, ?_, ?_⟩
        · simp [setEnabled, setCurrent, h1]
        · simp [setEnabled, setCurrent, h1]
        · simp [setEnabled, setCurrent, h1]
        · simp [setEnabled, setCurrent, h1]
        · intro j hj
          simp [setEnabled, setCurrent, setAt, h1, hj]
        · intro hr
          right
          simp [setEnabled, setCurrent, setAt, hsp hr]
      show _ ∧ _
      split_ifs
      · exact key _ ((setSTBY_fields _ _ _).1.trans hm) ((setSTBY_fields _ _ _).2.1.trans hs)
      · exact key _ ((setSTBY_fields _ _ _).1.trans hm) ((setSTBY_fields _ _ _).2.1.trans hs)

theorem ChannelAgrees.rfl_ (i : Nat) (a : System) : ChannelAgrees i a a :=
  ⟨rfl, rfl, rfl, rfl, rfl, rfl⟩

theorem ChannelAgrees.trans_ {i : Nat} {a b c : System} (h1 : ChannelAgrees i a b)
    (h2 : ChannelAgrees i b c) : ChannelAgrees i a c :=
  ⟨h1.1.trans h2.1, h1.2.1.trans h2.2.1, h1.2.2.1.trans h2.2.2.1,
    h1.2.2.2.1.trans h2.2.2.2.1, h1.2.2.2.2.1.trans h2.2.2.2.2.1,
    h1.2.2.2.2.2.trans h2.2.2.2.2.2⟩

theorem setMotorSpeedInternal_other (k : Nat) (hk : k < 5) (i : Nat) (hne : i ≠ k)
    (speed : Int) (sys : System) :
    ChannelAgrees i (setMotorSpeedInternal (indexToMotorId k) speed sys).2 sys := by
  obtain ⟨h1, h2, h3, h4, -, h6, -⟩ := setMotorSpeedInternal_fields k hk speed sys
  exact ⟨(h6 i hne).1, by rw [h2], (h6 i hne).2, by rw [h3], h1, h4⟩

theorem commit_other (k : Nat) (hk : k < 5) (i : Nat) (hne : i ≠ k) (t : Nat) (speed : Int)
    (st sys : System) (h : ChannelAgrees i st sys) :
    ChannelAgrees i
      (setLastUpdate k t (setMotorSpeedInternal (indexToMotorId k) speed st).2) sys := by
  have h1 := setMotorSpeedInternal_other k hk i hne speed st
  refine ChannelAgrees.trans_ ?_ (ChannelAgrees.trans_ h1 h)
  unfold ChannelAgrees
  simp [setLastUpdate, setAt, hne]

/-- The iteration of the ramp loop for index `k` leaves the record of every other
channel, the state machine and the fault flags as they were. -/
theorem updateMotor_other (cs : SystemState) (t : Nat) (sys : System) (k : Nat) (hk : k < 5)
    (i : Nat) (hne : i ≠ k) : ChannelAgrees i (updateMotor cs t sys k) sys := by
  unfold updateMotor
  simp only
  split_ifs
  · exact ChannelAgrees.rfl_ i sys
  · exact ChannelAgrees.rfl_ i sys
  · obtain ⟨h1, h2, -⟩ := setSTBY_fields (getDriverId (indexToMotorId k)) false
      (ledcWrite k 0 (setTarget k 0 (setEnabled k false (setCurrent k 0 sys))))
    unfold ChannelAgrees
    rw [h1, h2]
    simp [ledcWrite, setTarget, setEnabled, setCurrent, setAt, hne]
  all_goals
    apply commit_other k hk i hne
    unfold ChannelAgrees
    simp [setEnabled, setCurrent, setAt, hne]

/-- A run of the ramp loop over indices other than `i` leaves channel `i` alone. -/
theorem foldl_updateMotor_other (cs : SystemState) (t : Nat) (i : Nat) (l : List Nat)
    (hl : ∀ k, k ∈ l → k < 5 ∧ i ≠ k) (sys : System) :
    ChannelAgrees i (l.foldl (updateMotor cs t) sys) sys := by
  induction l generalizing sys with
  | nil => exact ChannelAgrees.rfl_ i sys
  | cons a rest ih =>
    have ha := hl a (List.mem_cons_self a rest)
    have hrest : ∀ k, k ∈ rest → k < 5 ∧ i ≠ k :=
      fun k hk => hl k (List.mem_cons_of_mem a hk)
    exact ChannelAgrees.trans_ (ih hrest _) (updateMotor_other cs t sys a ha.1 i ha.2)

theorem commit_self (i : Nat) (hi : i < 5) (t : Nat) (st : System)
    (hr : -255 ≤ st.motorControl.currentSpeed_ i ∧ st.motorControl.currentSpeed_ i ≤ 255) :
    (setLastUpdate i t (setMotorSpeedInternal (indexToMotorId i)
        (st.motorControl.currentSpeed_ i) st).2).motorControl.currentSpeed_ i
      = st.motorControl.currentSpeed_ i ∧
    (setLastUpdate i t (setMotorSpeedInternal (indexToMotorId i)
        (st.motorControl.currentSpeed_ i) st).2).motorControl.targetSpeed_ i
      = st.motorControl.targetSpeed_ i ∧
    (setLastUpdate i t (setMotorSpeedInternal (indexToMotorId i)
        (st.motorControl.currentSpeed_ i) st).2).motorControl.lastUpdateTime_ i = t ∧
    (setLastUpdate i t (setMotorSpeedInternal (indexToMotorId i)
        (st.motorControl.currentSpeed_ i) st).2).systemState = st.systemState ∧
    (setLastUpdate i t (setMotorSpeedInternal (indexToMotorId i)
        (st.motorControl.currentSpeed_ i) st).2).motorControl.driverError_
      = st.motorControl.driverError_ := by
  obtain ⟨h1, h2, -, h4, -, -, h7⟩ :=
    setMotorSpeedInternal_fields i hi (st.motorControl.currentSpeed_ i) st
  refine ⟨?_, ?_, ?_, h1, h4⟩
  · show (setMotorSpeedInternal _ _ st).2.motorControl.currentSpeed_ i = _
    rcases h7 hr with h | h <;> exact h
  · show (setMotorSpeedInternal _ _ st).2.motorControl.targetSpeed_ i = _
    rw [h2]
  · simp [setLastUpdate, setAt]

/-- The iteration of the ramp loop for its own index, outside ARMED: the channel is
skipped when it is at its target or its ramp interval has not elapsed, and is
zeroed otherwise. -/
theorem updateMotor_self_unarmed (cs : SystemState) (hcs : cs ≠ SystemState.ARMED) (t : Nat)
    (sys : System) (i : Nat) :
    (updateMotor cs t sys i).systemState = sys.systemState ∧
    (updateMotor cs t sys i).motorControl.driverError_ = sys.motorControl.driverError_ ∧
    (updateMotor cs t sys i).motorControl.lastUpdateTime_ i
      = sys.motorControl.lastUpdateTime_ i ∧
    ((sys.motorControl.currentSpeed_ i = sys.motorControl.targetSpeed_ i ∨
        sub32 t (sys.motorControl.lastUpdateTime_ i) < RAMP_INTERVAL_MS) →
      updateMotor cs t sys i = sys) ∧
    (¬ (sys.motorControl.currentSpeed_ i = sys.motorControl.targetSpeed_ i ∨
        sub32 t (sys.motorControl.lastUpdateTime_ i) < RAMP_INTERVAL_MS) →
      (updateMotor cs t sys i).motorControl.currentSpeed_ i = 0 ∧
      (updateMotor cs t sys i).motorControl.targetSpeed_ i = 0 ∧
      (updateMotor cs t sys i).motorControl.enabled_ i = false) := by
  unfold updateMotor
  simp only
  split_ifs with h1 h2
  · exact ⟨rfl, rfl, rfl, fun _ => rfl, fun h => absurd (Or.inl h1) h⟩
  · exact ⟨rfl, rfl, rfl, fun _ => rfl, fun h => absurd (Or.inr h2) h⟩
  · obtain ⟨hm, hs, -⟩ := setSTBY_fields (getDriverId (indexToMotorId i)) false
      (ledcWrite i 0 (setTarget i 0 (setEnabled i false (setCurrent i 0 sys))))
    rw [hm, hs]
    refine ⟨rfl, rfl, rfl, ?_, ?_⟩
    · intro h
      rcases h with h | h
      · exact absurd h h1
      · exact absurd h h2
    · intro _
      simp [ledcWrite, setTarget, setEnabled, setCurrent, setAt]

theorem processed_armed (t : Nat) (sys : System) (i : Nat) (hi : i < 5) (st : System)
    (hs : st.systemState = sys.systemState)
    (he : st.motorControl.driverError_ = sys.motorControl.driverError_)
    (ht : st.motorControl.targetSpeed_ i = sys.motorControl.targetSpeed_ i)
    (h1 : ¬ sys.motorControl.currentSpeed_ i = sys.motorControl.targetSpeed_ i)
    (h2 : ¬ sub32 t (sys.motorControl.lastUpdateTime_ i) < RAMP_INTERVAL_MS)
    (hv : st.motorControl.currentSpeed_ i
      = rampStep (sys.motorControl.currentSpeed_ i) (sys.motorControl.targetSpeed_ i))
    (hr : -255 ≤ st.motorControl.currentSpeed_ i ∧ st.motorControl.currentSpeed_ i ≤ 255) :
    (setLastUpdate i t (setMotorSpeedInternal (indexToMotorId i)
        (st.motorControl.currentSpeed_ i) st).2).systemState = sys.systemState ∧
    (setLastUpdate i t (setMotorSpeedInternal (indexToMotorId i)
        (st.motorControl.currentSpeed_ i) st).2).motorControl.driverError_
      = sys.motorControl.driverError_ ∧
    (setLastUpdate i t (setMotorSpeedInternal (indexToMotorId i)
        (st.motorControl.currentSpeed_ i) st).2).motorControl.targetSpeed_ i
      = sys.motorControl.targetSpeed_ i ∧
    ((sys.motorControl.currentSpeed_ i = sys.motorControl.targetSpeed_ i ∨
        sub32 t (sys.motorControl.lastUpdateTime_ i) < RAMP_INTERVAL_MS) →
      setLastUpdate i t (setMotorSpeedInternal (indexToMotorId i)
        (st.motorControl.currentSpeed_ i) st).2 = sys) ∧
    (¬ (sys.motorControl.currentSpeed_ i = sys.motorControl.targetSpeed_ i ∨
        sub32 t (sys.motorControl.lastUpdateTime_ i) < RAMP_INTERVAL_MS) →
      (setLastUpdate i t (setMotorSpeedInternal (indexToMotorId i)
          (st.motorControl.currentSpeed_ i) st).2).motorControl.currentSpeed_ i
        = rampStep (sys.motorControl.currentSpeed_ i) (sys.motorControl.targetSpeed_ i) ∧
      (setLastUpdate i t (setMotorSpeedInternal (indexToMotorId i)
          (st.motorControl.currentSpeed_ i) st).2).motorControl.lastUpdateTime_ i = t) := by
  obtain ⟨c1, c2, c3, c4, c5⟩ := commit_self i hi t st hr
  exact ⟨c4.trans hs, c5.trans he, c2.trans ht, fun h => (h.elim h1 h2).elim,
    fun _ => ⟨c1.trans hv, c3⟩⟩

theorem rampStep_cases (c t : Int) (hc : -255 ≤ c ∧ c ≤ 255) (ht : -255 ≤ t ∧ t ≤ 255) :
    i16 (t - c) = t - c ∧ i16 (c + 10) = c + 10 ∧ i16 (c + -10) = c - 10 ∧
    (-255 ≤ rampStep c t ∧ rampStep c t ≤ 255) := by
  simp only [i16, rampStep, cabs]
  refine ⟨by omega, by omega, by omega, ?_⟩
  split_ifs <;> omega

/-- The iteration of the ramp loop for its own index in ARMED mode, for a channel
whose speeds are in `[-255, 255]`: skipped when at target or within the ramp
interval, else the current speed becomes `rampStep`, the target stays and the time
of the last step is the current time. -/
theorem updateMotor_self_armed (t : Nat) (sys : System) (i : Nat) (hi : i < 5)
    (hc : -255 ≤ sys.motorControl.currentSpeed_ i ∧ sys.motorControl.currentSpeed_ i ≤ 255)
    (ht : -255 ≤ sys.motorControl.targetSpeed_ i ∧ sys.motorControl.targetSpeed_ i ≤ 255) :
    (updateMotor SystemState.ARMED t sys i).systemState = sys.systemState ∧
    (updateMotor SystemState.ARMED t sys i).motorControl.driverError_
      = sys.motorControl.driverError_ ∧
    (updateMotor SystemState.ARMED t sys i).motorControl.targetSpeed_ i
      = sys.motorControl.targetSpeed_ i ∧
    ((sys.motorControl.currentSpeed_ i = sys.motorControl.targetSpeed_ i ∨
        sub32 t (sys.motorControl.lastUpdateTime_ i) < RAMP_INTERVAL_MS) →
      updateMotor SystemState.ARMED t sys i = sys) ∧
    (¬ (sys.motorControl.currentSpeed_ i = sys.motorControl.targetSpeed_ i ∨
        sub32 t (sys.motorControl.lastUpdateTime_ i) < RAMP_INTERVAL_MS) →
      (updateMotor SystemState.ARMED t sys i).motorControl.currentSpeed_ i
        = rampStep (sys.motorControl.currentSpeed_ i) (sys.motorControl.targetSpeed_ i) ∧
      (updateMotor SystemState.ARMED t sys i).motorControl.lastUpdateTime_ i = t) := by
  unfold updateMotor
  simp only [ne_eq, not_true_eq_false, if_false]
  split_ifs with h1 h2 h3 h4 h5 h6
  · exact ⟨rfl, rfl, rfl, fun _ => rfl, fun h => absurd (Or.inl h1) h⟩
  · exact ⟨rfl, rfl, rfl, fun _ => rfl, fun h => absurd (Or.inr h2) h⟩
  all_goals
    obtain ⟨e1, e2, e3, e4⟩ := rampStep_cases _ _ hc ht
    refine processed_armed t sys i hi _ ?_ ?_ ?_ h1 h2 ?_ ?_
    · rfl
    · rfl
    · rfl
    · simp only [RAMP_STEP_SIZE, Nat.cast_ofNat, e1, e2, e3, setCurrent, setEnabled, setAt,
        if_true, rampStep, cabs] at *
      split_ifs at * <;> omega
    · simp only [RAMP_STEP_SIZE, Nat.cast_ofNat, e1, e2, e3, setCurrent, setEnabled, setAt,
        if_true, cabs] at *
      split_ifs at * <;> omega

/-- For a channel index `i`, the whole ramp loop acts on channel `i` as its iteration
for `i` does, run from a state that agrees with the initial one on channel `i`. -/
theorem loop_channel (cs : SystemState) (t : Nat) (s0 : System) (i : Nat) (hi : i < 5) :
    ∃ sA, ChannelAgrees i sA s0 ∧
      ChannelAgrees i ((List.range NUM_MOTORS).foldl (updateMotor cs t) s0)
        (updateMotor cs t sA i) := by
  have hmem : ∀ (l : List Nat), (∀ k, k ∈ l → k < 5 ∧ i ≠ k) → ∀ s,
      ChannelAgrees i (l.foldl (updateMotor cs t) s) s :=
    fun l hl s => foldl_updateMotor_other cs t i l hl s
  simp only [NUM_MOTORS, range_motors]
  interval_cases i
  · refine ⟨s0, ChannelAgrees.rfl_ _ _, ?_⟩
    exact hmem [1, 2, 3, 4] (by intro k hk; simp at hk; omega) _
  · refine ⟨[0].foldl (updateMotor cs t) s0,
      hmem [0] (by intro k hk; simp at hk; omega) _, ?_⟩
    exact hmem [2, 3, 4] (by intro k hk; simp at hk; omega) _
  · refine ⟨[0, 1].foldl (updateMotor cs t) s0,
      hmem [0, 1] (by intro k hk; simp at hk; omega) _, ?_⟩
    exact hmem [3, 4] (by intro k hk; simp at hk; omega) _
  · refine ⟨[0, 1, 2].foldl (updateMotor cs t) s0,
      hmem [0, 1, 2] (by intro k hk; simp at hk; omega) _, ?_⟩
    exact hmem [4] (by intro k hk; simp at hk; omega) _
  · refine ⟨[0, 1, 2, 3].foldl (updateMotor cs t) s0,
      hmem [0, 1, 2, 3] (by intro k hk; simp at hk; omega) _, ?_⟩
    exact hmem [] (by intro k hk; simp at hk) _

theorem clearTarget_fields (l : List Nat) (sys : System) :
    (l.foldl clearTarget sys).systemState = sys.systemState ∧
    (l.foldl clearTarget sys).hw = sys.hw ∧
    (l.foldl clearTarget sys).motorControl.currentSpeed_ = sys.motorControl.currentSpeed_ ∧
    (l.foldl clearTarget sys).motorControl.enabled_ = sys.motorControl.enabled_ ∧
    (l.foldl clearTarget sys).motorControl.lastUpdateTime_
      = sys.motorControl.lastUpdateTime_ ∧
    (l.foldl clearTarget sys).motorControl.driverError_ = sys.motorControl.driverError_ ∧
    (l.foldl clearTarget sys).motorControl.defaultSpeed_ = sys.motorControl.defaultSpeed_ ∧
    (∀ i, (i ∈ l ∨ sys.motorControl.targetSpeed_ i = 0) →
      (l.foldl clearTarget sys).motorControl.targetSpeed_ i = 0) ∧
    (∀ i, i ∉ l →
      (l.foldl clearTarget sys).motorControl.targetSpeed_ i
        = sys.motorControl.targetSpeed_ i) := by
  induction l generalizing sys with
  | nil =>
    refine ⟨rfl, rfl, rfl, rfl, rfl, rfl, rfl, ?_, fun _ _ => rfl⟩
    intro i h
    rcases h with h | h
    · simp at h
    · exact h
  | cons a rest ih =>
    obtain ⟨h1, h2, h3, h4, h5, h6, h7, h8, h9⟩ := ih (clearTarget sys a)
    have hstep : (clearTarget sys a).systemState = sys.systemState ∧
        (clearTarget sys a).hw = sys.hw ∧
        (clearTarget sys a).motorControl.currentSpeed_ = sys.motorControl.currentSpeed_ ∧
        (clearTarget sys a).motorControl.enabled_ = sys.motorControl.enabled_ ∧
        (clearTarget sys a).motorControl.lastUpdateTime_
          = sys.motorControl.lastUpdateTime_ ∧
        (clearTarget sys a).motorControl.driverError_ = sys.motorControl.driverError_ ∧
        (clearTarget sys a).motorControl.defaultSpeed_ = sys.motorControl.defaultSpeed_ ∧
        (clearTarget sys a).motorControl.targetSpeed_ a = 0 ∧
        (∀ i, i ≠ a → (clearTarget sys a).motorControl.targetSpeed_ i
          = sys.motorControl.targetSpeed_ i) := by
      unfold clearTarget
      split_ifs with h
      · refine ⟨rfl, rfl, rfl, rfl, rfl, rfl, rfl, ?_, ?_⟩
        · simp [setTarget, setAt]
        · intro i hi
          simp [setTarget, setAt, hi]
      · exact ⟨rfl, rfl, rfl, rfl, rfl, rfl, rfl, not_not.mp h, fun _ _ => rfl⟩
    obtain ⟨g1, g2, g3, g4, g5, g6, g7, g8, g9⟩ := hstep
    simp only [List.foldl_cons]
    refine ⟨h1.trans g1, h2.trans g2, h3.trans g3, h4.trans g4, h5.trans g5, h6.trans g6,
      h7.trans g7, ?_, ?_⟩
    · intro i hi
      apply h8
      by_cases hia : i = a
      · right
        rw [hia]
        exact g8
      · rcases hi with hi | hi
        · left
          simpa [hia] using hi
        · right
          rw [g9 i hia]
          exact hi
    · intro i hi
      have hia : i ≠ a := fun h => hi (by rw [h]; exact List.mem_cons_self _ _)
      have hir : i ∉ rest := fun h => hi (List.mem_cons_of_mem _ h)
      rw [h9 i hir, g9 i hia]

/-- What `update()` does to one channel in ARMED mode, for speeds in `[-255, 255]`. -/
theorem update_channel_armed (clock : Nat) (sys : System) (i : Nat) (hi : i < 5)
    (hm : sys.systemState.currentState_ = SystemState.ARMED)
    (hc : -255 ≤ sys.motorControl.currentSpeed_ i ∧ sys.motorControl.currentSpeed_ i ≤ 255)
    (ht : -255 ≤ sys.motorControl.targetSpeed_ i ∧ sys.motorControl.targetSpeed_ i ≤ 255) :
    (MotorControl.update clock sys).systemState = sys.systemState ∧
    (MotorControl.update clock sys).motorControl.targetSpeed_ i
      = sys.motorControl.targetSpeed_ i ∧
    ((sys.motorControl.currentSpeed_ i = sys.motorControl.targetSpeed_ i ∨
        sub32 (millis clock) (sys.motorControl.lastUpdateTime_ i) < RAMP_INTERVAL_MS) →
      (MotorControl.update clock sys).motorControl.currentSpeed_ i
        = sys.motorControl.currentSpeed_ i ∧
      (MotorControl.update clock sys).motorControl.enabled_ i
        = sys.motorControl.enabled_ i ∧
      (MotorControl.update clock sys).motorControl.lastUpdateTime_ i
        = sys.motorControl.lastUpdateTime_ i) ∧
    (¬ (sys.motorControl.currentSpeed_ i = sys.motorControl.targetSpeed_ i ∨
        sub32 (millis clock) (sys.motorControl.lastUpdateTime_ i) < RAMP_INTERVAL_MS) →
      (MotorControl.update clock sys).motorControl.currentSpeed_ i
        = rampStep (sys.motorControl.currentSpeed_ i) (sys.motorControl.targetSpeed_ i) ∧
      (MotorControl.update clock sys).motorControl.lastUpdateTime_ i = millis clock) := by
  have hu : MotorControl.update clock sys
      = (List.range NUM_MOTORS).foldl (updateMotor SystemState.ARMED (millis clock)) sys := by
    simp [MotorControl.update, getCurrentState, SystemStateManager.getState, hm]
  obtain ⟨sA, hA, hB⟩ := loop_channel SystemState.ARMED (millis clock) sys i hi
  rw [← hu] at hB
  obtain ⟨a1, a2, a3, a4, a5, a6⟩ := hA
  obtain ⟨b1, b2, b3, b4, b5, b6⟩ := hB
  obtain ⟨u1, u2, u3, u4, u5⟩ := updateMotor_self_armed (millis clock) sA i hi
    (by rw [a1]; exact hc) (by rw [a2]; exact ht)
  rw [a1, a2, a4] at u4 u5
  refine ⟨b5.trans (u1.trans a5), b2.trans (u3.trans a2), ?_, ?_⟩
  · intro h
    have hs := u4 h
    rw [hs] at b1 b3 b4
    exact ⟨b1.trans a1, b3.trans a3, b4.trans a4⟩
  · intro h
    obtain ⟨v1, v2⟩ := u5 h
    exact ⟨b1.trans v1, b4.trans v2⟩

/-- What `update()` does to one channel outside ARMED mode: the target is zeroed; the
current speed is zeroed too unless it is already 0 or the ramp interval of the
channel has not elapsed. -/
theorem update_channel_unarmed (clock : Nat) (sys : System) (i : Nat) (hi : i < 5)
    (hm : sys.systemState.currentState_ ≠ SystemState.ARMED) :
    (MotorControl.update clock sys).systemState = sys.systemState ∧
    (MotorControl.update clock sys).motorControl.targetSpeed_ i = 0 ∧
    (MotorControl.update clock sys).motorControl.lastUpdateTime_ i
      = sys.motorControl.lastUpdateTime_ i ∧
    ((sys.motorControl.currentSpeed_ i = 0 ∨
        sub32 (millis clock) (sys.motorControl.lastUpdateTime_ i) < RAMP_INTERVAL_MS) →
      (MotorControl.update clock sys).motorControl.currentSpeed_ i
        = sys.motorControl.currentSpeed_ i ∧
      (MotorControl.update clock sys).motorControl.enabled_ i
        = sys.motorControl.enabled_ i) ∧
    (¬ (sys.motorControl.currentSpeed_ i = 0 ∨
        sub32 (millis clock) (sys.motorControl.lastUpdateTime_ i) < RAMP_INTERVAL_MS) →
      (MotorControl.update clock sys).motorControl.currentSpeed_ i = 0 ∧
      (MotorControl.update clock sys).motorControl.enabled_ i = false) := by
  have hu : MotorControl.update clock sys
      = (List.range NUM_MOTORS).foldl
          (updateMotor sys.systemState.currentState_ (millis clock))
          ((List.range NUM_MOTORS).foldl clearTarget sys) := by
    simp [MotorControl.update, getCurrentState, SystemStateManager.getState, hm]
  obtain ⟨c1, -, c3, c4, c5, c6, -, c8, -⟩ :=
    clearTarget_fields (List.range NUM_MOTORS) sys
  have c8i := c8 i (Or.inl (by simp [NUM_MOTORS, hi]))
  obtain ⟨sA, hA, hB⟩ := loop_channel sys.systemState.currentState_ (millis clock)
    ((List.range NUM_MOTORS).foldl clearTarget sys) i hi
  rw [← hu] at hB
  obtain ⟨a1, a2, a3, a4, a5, a6⟩ := hA
  obtain ⟨b1, b2, b3, b4, b5, b6⟩ := hB
  rw [c3] at a1
  rw [c8i] at a2
  rw [c4] at a3
  rw [c5] at a4
  rw [c1] at a5
  obtain ⟨u1, u2, u3, u4, u5⟩ :=
    updateMotor_self_unarmed sys.systemState.currentState_ hm (millis clock) sA i
  rw [a1, a2, a4] at u4 u5
  refine ⟨b5.trans (u1.trans a5), ?_, b4.trans (u3.trans a4), ?_, ?_⟩
  · by_cases h : sys.motorControl.currentSpeed_ i = 0 ∨
        sub32 (millis clock) (sys.motorControl.lastUpdateTime_ i) < RAMP_INTERVAL_MS
    · rw [u4 h] at b2
      exact b2.trans a2
    · exact b2.trans (u5 h).2.1
  · intro h
    have hs := u4 h
    rw [hs] at b1 b3
    exact ⟨b1.trans a1, b3.trans a3⟩
  · intro h
    obtain ⟨v1, v2, v3⟩ := u5 h
    exact ⟨b1.trans v1, b3.trans v3⟩

/-! ### Claims about the ramp -/

/-- C24, as stated, fails in both kinds of mode.  In IDLE with channel 1 at speed 30
and its ramp interval elapsed, one `update()` sets the current speed to 0, a change
of 30.  In ARMED with channel 1 at speed 15 and target 0, one `update()` sets the
current speed to 0, a change of 15. -/
theorem C24_update_jumps :
    (sampleDisarmedAt30.systemState.currentState_ = SystemState.IDLE ∧
      sampleDisarmedAt30.motorControl.currentSpeed_ 0 = 30 ∧
      (MotorControl.update 230 sampleDisarmedAt30).motorControl.currentSpeed_ 0 = 0) ∧
    (sampleStoppingAt15.systemState.currentState_ = SystemState.ARMED ∧
      sampleStoppingAt15.motorControl.currentSpeed_ 0 = 15 ∧
      (MotorControl.update 170 sampleStoppingAt15).motorControl.currentSpeed_ 0 = 0) := by
  decide

/-- C24, amended: for every channel whose current and target speed are in
`[-255, 255]` (they are in every reachable state), in every mode, a single `update()`
either changes the current speed by at most 10 or sets it to 0; in ARMED mode the
change is at most 19. -/
theorem C24_ramp_rate_amended (clock : Nat) (sys : System) (i : Nat) (hi : i < NUM_MOTORS)
    (hc : -255 ≤ sys.motorControl.currentSpeed_ i ∧ sys.motorControl.currentSpeed_ i ≤ 255)
    (ht : -255 ≤ sys.motorControl.targetSpeed_ i ∧ sys.motorControl.targetSpeed_ i ≤ 255) :
    (cabs ((MotorControl.update clock sys).motorControl.currentSpeed_ i
        - sys.motorControl.currentSpeed_ i) ≤ 10 ∨
      (MotorControl.update clock sys).motorControl.currentSpeed_ i = 0) ∧
    (sys.systemState.currentState_ = SystemState.ARMED →
      cabs ((MotorControl.update clock sys).motorControl.currentSpeed_ i
        - sys.motorControl.currentSpeed_ i) ≤ 19) := by
  by_cases hm : sys.systemState.currentState_ = SystemState.ARMED
  · obtain ⟨-, -, u3, u4⟩ := update_channel_armed clock sys i hi hm hc ht
    by_cases hs : sys.motorControl.currentSpeed_ i = sys.motorControl.targetSpeed_ i ∨
        sub32 (millis clock) (sys.motorControl.lastUpdateTime_ i) < RAMP_INTERVAL_MS
    · rw [(u3 hs).1]
      simp [cabs]
    · rw [(u4 hs).1]
      simp only [rampStep, cabs]
      constructor
      · split_ifs <;> omega
      · intro _
        split_ifs <;> omega
  · obtain ⟨-, -, -, u4, u5⟩ := update_channel_unarmed clock sys i hi hm
    refine ⟨?_, fun h => absurd h hm⟩
    by_cases hs : sys.motorControl.currentSpeed_ i = 0 ∨
        sub32 (millis clock) (sys.motorControl.lastUpdateTime_ i) < RAMP_INTERVAL_MS
    · left
      rw [(u4 hs).1]
      simp [cabs]
    · right
      exact (u5 hs).1

/-- C24 amended (instance): channel 1 of the running sample state goes from 10 to 20
at the tick at 120 ms. -/
theorem C24_ramp_rate_amended_witness :
    ((cabs ((MotorControl.update 120 sampleRunning).motorControl.currentSpeed_ 0
          - sampleRunning.motorControl.currentSpeed_ 0) ≤ 10 ∨
        (MotorControl.update 120 sampleRunning).motorControl.currentSpeed_ 0 = 0) ∧
      (sampleRunning.systemState.currentState_ = SystemState.ARMED →
        cabs ((MotorControl.update 120 sampleRunning).motorControl.currentSpeed_ 0
          - sampleRunning.motorControl.currentSpeed_ 0) ≤ 19)) ∧
    (MotorControl.update 120 sampleRunning).motorControl.currentSpeed_ 0 = 20 :=
  ⟨C24_ramp_rate_amended 120 sampleRunning 0 (by decide) (by decide) (by decide),
    by decide⟩

/-- C25: no overshoot.  For every channel whose current and target speed are in
`[-255, 255]` (they are in every reachable state) and every `update()`, in every
mode, the new current speed lies between the old current speed and the target as it
stands after the update, both ends included. -/
theorem C25_no_overshoot (clock : Nat) (sys : System) (i : Nat) (hi : i < NUM_MOTORS)
    (hc : -255 ≤ sys.motorControl.currentSpeed_ i ∧ sys.motorControl.currentSpeed_ i ≤ 255)
    (ht : -255 ≤ sys.motorControl.targetSpeed_ i ∧ sys.motorControl.targetSpeed_ i ≤ 255) :
    min (sys.motorControl.currentSpeed_ i)
        ((MotorControl.update clock sys).motorControl.targetSpeed_ i)
      ≤ (MotorControl.update clock sys).motorControl.currentSpeed_ i ∧
    (MotorControl.update clock sys).motorControl.currentSpeed_ i
      ≤ max (sys.motorControl.currentSpeed_ i)
        ((MotorControl.update clock sys).motorControl.targetSpeed_ i) := by
  by_cases hm : sys.systemState.currentState_ = SystemState.ARMED
  · obtain ⟨-, u2, u3, u4⟩ := update_channel_armed clock sys i hi hm hc ht
    rw [u2]
    by_cases hs : sys.motorControl.currentSpeed_ i = sys.motorControl.targetSpeed_ i ∨
        sub32 (millis clock) (sys.motorControl.lastUpdateTime_ i) < RAMP_INTERVAL_MS
    · rw [(u3 hs).1]
      omega
    · rw [(u4 hs).1]
      simp only [rampStep, cabs]
      split_ifs <;> omega
  · obtain ⟨-, u2, -, u4, u5⟩ := update_channel_unarmed clock sys i hi hm
    rw [u2]
    by_cases hs : sys.motorControl.currentSpeed_ i = 0 ∨
        sub32 (millis clock) (sys.motorControl.lastUpdateTime_ i) < RAMP_INTERVAL_MS
    · rw [(u4 hs).1]
      omega
    · rw [(u5 hs).1]
      omega

/-- C25 (instance): channel 1 of the running sample state, current 10 and target 100:
after the tick at 120 ms the current speed 20 lies in `[10, 100]`. -/
theorem C25_no_overshoot_witness :
    (min (sampleRunning.motorControl.currentSpeed_ 0)
          ((MotorControl.update 120 sampleRunning).motorControl.targetSpeed_ 0)
        ≤ (MotorControl.update 120 sampleRunning).motorControl.currentSpeed_ 0 ∧
      (MotorControl.update 120 sampleRunning).motorControl.currentSpeed_ 0
        ≤ max (sampleRunning.motorControl.currentSpeed_ 0)
          ((MotorControl.update 120 sampleRunning).motorControl.targetSpeed_ 0)) ∧
    (MotorControl.update 120 sampleRunning).motorControl.targetSpeed_ 0 = 100 :=
  ⟨C25_no_overshoot 120 sampleRunning 0 (by decide) (by decide) (by decide), by decide⟩

/-- C26: the code at a state where the claim fails.  The mode is IDLE, channel 1 has
current speed = target speed = 0 and the standby line of driver group 0 is HIGH;
`update()` of the motor controller leaves that line HIGH. -/
theorem C26_update_keeps_standby :
    sampleStoppedThenDisarmed.systemState.currentState_ = SystemState.IDLE ∧
    sampleStoppedThenDisarmed.motorControl.currentSpeed_ 0 = 0 ∧
    sampleStoppedThenDisarmed.motorControl.targetSpeed_ 0 = 0 ∧
    (MotorControl.update 200 sampleStoppedThenDisarmed).standbyAsserted 0 = true ∧
    (MotorControl.update 5000 (MotorControl.update 200 sampleStoppedThenDisarmed)
      ).standbyAsserted 0 = true := by
  decide

theorem isEnabled_of_not_armed (motorId : Nat) (sys : System)
    (h : sys.systemState.currentState_ ≠ SystemState.ARMED) : isEnabled motorId sys = false := by
  simp [isEnabled, getCurrentState, SystemStateManager.getState, h]

theorem disarm_from_armed (clock : Nat) (sys : System)
    (hA : sys.systemState.currentState_ = SystemState.ARMED) :
    (step clock Op.disarm sys).systemState.currentState_ = SystemState.IDLE ∧
    (step clock Op.disarm sys).motorControl = sys.motorControl := by
  refine ⟨?_, rfl⟩
  show (SystemStateManager.disarm clock sys.systemState).2.currentState_ = SystemState.IDLE
  rcases hs : sys.systemState with ⟨cur, last, tmo⟩
  rw [hs] at hA
  simp only at hA
  subst hA
  simp [SystemStateManager.disarm, SystemStateManager.transitionTo,
    SystemStateManager.isValidTransition, SystemStateManager.resetTimeout]

/-- Updates of the motor controller in IDLE keep the mode and keep channel `i` at
target 0; a current speed that is 0 stays 0. -/
theorem updates_in_idle (i : Nat) (hi : i < 5) (later : List Nat) (st : System)
    (hm : st.systemState.currentState_ = SystemState.IDLE)
    (ht : st.motorControl.targetSpeed_ i = 0) :
    (later.foldl (fun s k => MotorControl.update k s) st).systemState.currentState_
      = SystemState.IDLE ∧
    (later.foldl (fun s k => MotorControl.update k s) st).motorControl.targetSpeed_ i = 0 ∧
    (st.motorControl.currentSpeed_ i = 0 →
      (later.foldl (fun s k => MotorControl.update k s) st).motorControl.currentSpeed_ i
        = 0) := by
  induction later generalizing st with
  | nil => exact ⟨hm, ht, fun h => h⟩
  | cons c cs ih =>
    have hne : st.systemState.currentState_ ≠ SystemState.ARMED := by
      rw [hm]
      decide
    obtain ⟨u1, u2, -, u4, -⟩ := update_channel_unarmed c st i hi hne
    have hm1 : (MotorControl.update c st).systemState.currentState_ = SystemState.IDLE := by
      rw [u1]
      exact hm
    obtain ⟨r1, r2, r3⟩ := ih (MotorControl.update c st) hm1 u2
    refine ⟨r1, r2, ?_⟩
    intro h0
    apply r3
    rw [(u4 (Or.inl h0)).1]
    exact h0

/-- C27: the disarm scenario.  From any ARMED state (whatever the current speed of
channel 1, 50 for instance), `disarm()` makes the mode IDLE and `isEnabled(1)` false.
After the first motor `update()` and after every later one, at whatever times, the
mode is IDLE, the target of channel 1 is 0 and `isEnabled(1)` is false.  If the ramp
interval of channel 1 has elapsed at the first `update()`, the current speed of
channel 1 is 0 after it and after every later `update()`. -/
theorem C27_disarm_scenario (clockD clock : Nat) (later : List Nat) (sys : System)
    (hA : sys.systemState.currentState_ = SystemState.ARMED) :
    ((step clockD Op.disarm sys).systemState.currentState_ = SystemState.IDLE ∧
      isEnabled 1 (step clockD Op.disarm sys) = false) ∧
    (((clock :: later).foldl (fun s k => MotorControl.update k s)
        (step clockD Op.disarm sys)).systemState.currentState_ = SystemState.IDLE ∧
      ((clock :: later).foldl (fun s k => MotorControl.update k s)
        (step clockD Op.disarm sys)).motorControl.targetSpeed_ 0 = 0 ∧
      isEnabled 1 ((clock :: later).foldl (fun s k => MotorControl.update k s)
        (step clockD Op.disarm sys)) = false) ∧
    (sub32 (millis clock) (sys.motorControl.lastUpdateTime_ 0) ≥ RAMP_INTERVAL_MS →
      ((clock :: later).foldl (fun s k => MotorControl.update k s)
        (step clockD Op.disarm sys)).motorControl.currentSpeed_ 0 = 0) := by
  obtain ⟨d1, d2⟩ := disarm_from_armed clockD sys hA
  have hne : (step clockD Op.disarm sys).systemState.currentState_ ≠ SystemState.ARMED := by
    rw [d1]
    decide
  obtain ⟨u1, u2, -, u4, u5⟩ :=
    update_channel_unarmed clock (step clockD Op.disarm sys) 0 (by decide) hne
  have hm1 : (MotorControl.update clock (step clockD Op.disarm sys)
      ).systemState.currentState_ = SystemState.IDLE := by
    rw [u1]
    exact d1
  obtain ⟨r1, r2, r3⟩ := updates_in_idle 0 (by decide) later
    (MotorControl.update clock (step clockD Op.disarm sys)) hm1 u2
  simp only [List.foldl_cons]
  refine ⟨⟨d1, (isEnabled_of_not_armed 1 _ hne)⟩, ⟨r1, r2, isEnabled_of_not_armed 1 _ ?_⟩, ?_⟩
  · rw [r1]
    decide
  · intro hel
    apply r3
    by_cases h0 : (step clockD Op.disarm sys).motorControl.currentSpeed_ 0 = 0
    · rw [(u4 (Or.inl h0)).1]
      exact h0
    · apply (u5 _).1
      rw [d2]
      rw [d2] at h0
      intro h
      rcases h with h | h
      · exact h0 h
      · omega

/-- C27 (instance): the IDLE sample state left by a disarm at speed 30 comes from the
ARMED state before the disarm; after updates at 230, 240 and 300 ms channel 1 has
target 0 and current speed 0. -/
theorem C27_disarm_scenario_witness :
    ([230, 240, 300].foldl (fun s k => MotorControl.update k s)
      (step 180 Op.disarm sampleArmedAt30)).motorControl.currentSpeed_ 0 = 0 ∧
    sampleArmedAt30.motorControl.currentSpeed_ 0 = 30 :=
  ⟨(C27_disarm_scenario 180 230 [240, 300] sampleArmedAt30 (by decide)).2.2 (by decide),
    by decide⟩

/-- C30, as stated, fails: in ARMED mode, channel 1 with current speed 15, target 0 and
its ramp interval elapsed has `|target - current| = 15 > 10` and target below
current, yet `update()` sets the current speed to 0, not to `15 - 10 = 5`. -/
theorem C30_step_lands_on_zero :
    sampleStoppingAt15.systemState.currentState_ = SystemState.ARMED ∧
    sampleStoppingAt15.motorControl.currentSpeed_ 0 = 15 ∧
    sampleStoppingAt15.motorControl.targetSpeed_ 0 = 0 ∧
    sub32 (millis 170) (sampleStoppingAt15.motorControl.lastUpdateTime_ 0)
      ≥ RAMP_INTERVAL_MS ∧
    (MotorControl.update 170 sampleStoppingAt15).motorControl.currentSpeed_ 0 = 0 ∧
    (MotorControl.update 170 sampleStoppingAt15).motorControl.currentSpeed_ 0
      ≠ sampleStoppingAt15.motorControl.currentSpeed_ 0 - 10 := by
  decide

/-- C30, amended: the ramp step in ARMED mode.  For every channel with current and
target speed in `[-255, 255]`, current ≠ target, whose ramp interval has elapsed,
`update()` sets the new current speed to the target when `|target - current| ≤ 10`;
otherwise to 0 when the target is 0 and `|current| < 20` (the step would land closer
than 10 to zero); otherwise to current + 10 if target > current and to current - 10
if target < current. -/
theorem C30_ramp_step_amended (clock : Nat) (sys : System) (i : Nat) (hi : i < NUM_MOTORS)
    (hm : sys.systemState.currentState_ = SystemState.ARMED)
    (hc : -255 ≤ sys.motorControl.currentSpeed_ i ∧ sys.motorControl.currentSpeed_ i ≤ 255)
    (ht : -255 ≤ sys.motorControl.targetSpeed_ i ∧ sys.motorControl.targetSpeed_ i ≤ 255)
    (hne : sys.motorControl.currentSpeed_ i ≠ sys.motorControl.targetSpeed_ i)
    (hel : sub32 (millis clock) (sys.motorControl.lastUpdateTime_ i) ≥ RAMP_INTERVAL_MS) :
    (MotorControl.update clock sys).motorControl.currentSpeed_ i =
      if cabs (sys.motorControl.targetSpeed_ i - sys.motorControl.currentSpeed_ i) ≤ 10 then
        sys.motorControl.targetSpeed_ i
      else if sys.motorControl.targetSpeed_ i = 0 ∧
          cabs (sys.motorControl.currentSpeed_ i) < 20 then 0
      else if sys.motorControl.targetSpeed_ i > sys.motorControl.currentSpeed_ i then
        sys.motorControl.currentSpeed_ i + 10
      else sys.motorControl.currentSpeed_ i - 10 := by
  obtain ⟨-, -, -, u4⟩ := update_channel_armed clock sys i hi hm hc ht
  have hs : ¬ (sys.motorControl.currentSpeed_ i = sys.motorControl.targetSpeed_ i ∨
      sub32 (millis clock) (sys.motorControl.lastUpdateTime_ i) < RAMP_INTERVAL_MS) := by
    intro h
    rcases h with h | h
    · exact hne h
    · omega
  rw [(u4 hs).1]
  simp only [rampStep, cabs]
  split_ifs <;> omega

/-- C30 amended (instance): channel 1 of the running sample state (current 10, target
100) steps to 20 at 120 ms. -/
theorem C30_ramp_step_amended_witness :
    (MotorControl.update 120 sampleRunning).motorControl.currentSpeed_ 0 =
      if cabs (sampleRunning.motorControl.targetSpeed_ 0
          - sampleRunning.motorControl.currentSpeed_ 0) ≤ 10 then
        sampleRunning.motorControl.targetSpeed_ 0
      else if sampleRunning.motorControl.targetSpeed_ 0 = 0 ∧
          cabs (sampleRunning.motorControl.currentSpeed_ 0) < 20 then 0
      else if sampleRunning.motorControl.targetSpeed_ 0
          > sampleRunning.motorControl.currentSpeed_ 0 then
        sampleRunning.motorControl.currentSpeed_ 0 + 10
      else sampleRunning.motorControl.currentSpeed_ 0 - 10 :=
  C30_ramp_step_amended 120 sampleRunning 0 (by decide) (by decide) (by decide) (by decide)
    (by decide) (by decide)

end Ramp

/-! ## Theorems: loss of permission, mapping, state machine -/

section Final

open MotorControl

/-- C31: loss of permission zeroes the targets.  After any `update()` of the motor
controller made while the mode is not ARMED, the target speed of each of the five
channels is 0, whatever the time of the call and the time of the last ramp step. -/
theorem C31_targets_zeroed (clock : Nat) (sys : System) (i : Nat)
    (hm : sys.systemState.currentState_ ≠ SystemState.ARMED) (hi : i < NUM_MOTORS) :
    (MotorControl.update clock sys).motorControl.targetSpeed_ i = 0 :=
  (update_channel_unarmed clock sys i hi hm).2.1

/-- C31 (instance): 5 ms after the disarm (ramp interval not elapsed) the target of
channel 1, which was 100, is 0. -/
theorem C31_targets_zeroed_witness :
    (MotorControl.update 85 sampleDisarmed).motorControl.targetSpeed_ 0 = 0 ∧
    sampleDisarmed.motorControl.targetSpeed_ 0 = 100 :=
  ⟨C31_targets_zeroed 85 sampleDisarmed 0 (by decide) (by decide), by decide⟩

/-- C32, as stated, fails: in IDLE, channel 1 at speed 30 (more than one step from 0)
with its ramp interval elapsed is set to 0 by a single `update()`, not moved to 20. -/
theorem C32_no_rampdown_unarmed :
    sampleDisarmedAt30.systemState.currentState_ = SystemState.IDLE ∧
    sampleDisarmedAt30.motorControl.currentSpeed_ 0 = 30 ∧
    sub32 (millis 230) (sampleDisarmedAt30.motorControl.lastUpdateTime_ 0)
      ≥ RAMP_INTERVAL_MS ∧
    (MotorControl.update 230 sampleDisarmedAt30).motorControl.currentSpeed_ 0 = 0 ∧
    (MotorControl.update 230 sampleDisarmedAt30).motorControl.currentSpeed_ 0
      ≠ sampleDisarmedAt30.motorControl.currentSpeed_ 0 - 10 := by
  decide

/-- C32, amended: in a non-ARMED mode `update()` zeroes the current speed, at once and
whatever its magnitude, of every channel whose current speed is not 0 and whose ramp
interval has elapsed, and disables the channel; a channel whose ramp interval has
not elapsed keeps its current speed in that call. -/
theorem C32_unarmed_stop_amended (clock : Nat) (sys : System) (i : Nat)
    (hm : sys.systemState.currentState_ ≠ SystemState.ARMED) (hi : i < NUM_MOTORS) :
    (sub32 (millis clock) (sys.motorControl.lastUpdateTime_ i) ≥ RAMP_INTERVAL_MS →
      (MotorControl.update clock sys).motorControl.currentSpeed_ i = 0) ∧
    (sys.motorControl.currentSpeed_ i ≠ 0 →
      sub32 (millis clock) (sys.motorControl.lastUpdateTime_ i) ≥ RAMP_INTERVAL_MS →
      (MotorControl.update clock sys).motorControl.enabled_ i = false) ∧
    (sub32 (millis clock) (sys.motorControl.lastUpdateTime_ i) < RAMP_INTERVAL_MS →
      (MotorControl.update clock sys).motorControl.currentSpeed_ i
        = sys.motorControl.currentSpeed_ i) := by
  obtain ⟨-, -, -, u4, u5⟩ := update_channel_unarmed clock sys i hi hm
  refine ⟨?_, ?_, ?_⟩
  · intro hel
    by_cases h0 : sys.motorControl.currentSpeed_ i = 0
    · rw [(u4 (Or.inl h0)).1]
      exact h0
    · apply (u5 _).1
      intro h
      rcases h with h | h
      · exact h0 h
      · omega
  · intro h0 hel
    apply (u5 _).2
    intro h
    rcases h with h | h
    · exact h0 h
    · omega
  · intro hel
    exact (u4 (Or.inr hel)).1

/-- C32 amended (instance): channel 1 at speed 30 in IDLE is at 0 after one `update()`
at 230 ms. -/
theorem C32_unarmed_stop_amended_witness :
    (MotorControl.update 230 sampleDisarmedAt30).motorControl.currentSpeed_ 0 = 0 :=
  (C32_unarmed_stop_amended 230 sampleDisarmedAt30 0 (by decide) (by decide)).1 (by decide)

/-- C35: the channel-to-driver mapping.  For every id in 1..5, `getDriverId(id)` is
`(id - 1) / 2`, below 3, and `getMotorIndexInDriver(id)` is `(id - 1) % 2`, so 0 (A)
or 1 (B); two different ids never share group and output; each group backs at most
two channels; output B of group 2 is not used; the table is M1→(0,A), M2→(0,B),
M3→(1,A), M4→(1,B), M5→(2,A). -/
theorem C35_channel_mapping :
    (∀ id, id ∈ [1, 2, 3, 4, 5] →
      getDriverId id = (id - 1) / 2 ∧ getDriverId id < NUM_DRIVERS ∧
      getMotorIndexInDriver id = (id - 1) % 2 ∧ getMotorIndexInDriver id < 2 ∧
      ¬ (getDriverId id = 2 ∧ getMotorIndexInDriver id = 1)) ∧
    (∀ a, a ∈ [1, 2, 3, 4, 5] → ∀ b, b ∈ [1, 2, 3, 4, 5] →
      getDriverId a = getDriverId b →
      getMotorIndexInDriver a = getMotorIndexInDriver b → a = b) ∧
    (∀ g, g ∈ [0, 1, 2] → ([1, 2, 3, 4, 5].filter (fun id => getDriverId id = g)).length ≤ 2) ∧
    [1, 2, 3, 4, 5].map (fun id => (getDriverId id, getMotorIndexInDriver id))
      = [(0, 0), (0, 1), (1, 0), (1, 1), (2, 0)] := by
  decide

/-- C35 (instance): id 5 maps to group 2, output A. -/
theorem C35_channel_mapping_witness :
    getDriverId 5 = (5 - 1) / 2 ∧ getDriverId 5 < NUM_DRIVERS ∧
    getMotorIndexInDriver 5 = (5 - 1) % 2 ∧ getMotorIndexInDriver 5 < 2 ∧
    ¬ (getDriverId 5 = 2 ∧ getMotorIndexInDriver 5 = 1) :=
  C35_channel_mapping.1 5 (by decide)

/-- C36: ARMED is entered only from IDLE.  For every operation of the state machine
(`transitionTo` with any target, `arm`, `disarm`, `enterSafe`, `update`,
`resetTimeout`, `setTimeout`): if the mode after the call is ARMED and the mode
before was not, the mode before was IDLE.  `update()` leaves the mode as it was or
makes it IDLE. -/
theorem C36_armed_only_from_idle (clock timeoutMs : Nat) (newState : SystemState)
    (s : SystemStateManager) :
    (∀ after : SystemStateManager,
      after ∈ [(SystemStateManager.transitionTo clock newState s).2,
        (SystemStateManager.arm clock s).2, (SystemStateManager.disarm clock s).2,
        (SystemStateManager.enterSafe clock s).2, SystemStateManager.update clock s,
        SystemStateManager.resetTimeout clock s, SystemStateManager.setTimeout timeoutMs s] →
      after.currentState_ = SystemState.ARMED →
      s.currentState_ ≠ SystemState.ARMED →
      s.currentState_ = SystemState.IDLE) ∧
    ((SystemStateManager.update clock s).currentState_ = s.currentState_ ∨
      (SystemStateManager.update clock s).currentState_ = SystemState.IDLE) := by
  rcases s with ⟨cur, last, tmo⟩
  constructor
  · intro after hmem
    simp only [List.mem_cons, List.mem_singleton, List.not_mem_nil, or_false] at hmem
    rcases hmem with h | h | h | h | h | h | h <;> subst h <;>
      cases cur <;> cases newState <;>
      simp [SystemStateManager.transitionTo, SystemStateManager.isValidTransition,
        SystemStateManager.arm, SystemStateManager.disarm, SystemStateManager.enterSafe,
        SystemStateManager.update, SystemStateManager.resetTimeout,
        SystemStateManager.setTimeout] <;>
      split_ifs <;> simp
  · cases cur <;>
      simp [SystemStateManager.transitionTo, SystemStateManager.isValidTransition,
        SystemStateManager.enterSafe, SystemStateManager.update,
        SystemStateManager.resetTimeout] <;>
      split_ifs <;> simp

/-- C36 (instance): BOOT and `transitionTo(ARMED)`: the mode after the call is not ARMED. -/
theorem C36_armed_only_from_idle_witness :
    (SystemStateManager.transitionTo 5 SystemState.ARMED SystemStateManager.new
      ).2.currentState_ ≠ SystemState.ARMED :=
  fun h => absurd
    ((C36_armed_only_from_idle 5 0 SystemState.ARMED SystemStateManager.new).1 _
      (List.mem_cons_self _ _) h (by decide)) (by decide)

/-- C39: clock wrap-around.  Let the last command be stamped at time `t0` and
`update()` run `d` milliseconds later, `d < 2^32`, wherever the 32-bit counter
wraps in between.  The elapsed time that `update()` computes is `d`; in BOOT or
ARMED the mode becomes IDLE if and only if `d ≥ timeoutMs_`, and otherwise the object
is unchanged; with `timeoutMs_ = 0` the mode always becomes IDLE. -/
theorem C39_clock_wraparound (t0 d : Nat) (s : SystemStateManager) (hd : d < 4294967296)
    (hlast : s.lastCommandTime_ = millis t0)
    (hmode : s.currentState_ = SystemState.BOOT ∨ s.currentState_ = SystemState.ARMED) :
    sub32 (millis (t0 + d)) s.lastCommandTime_ = d ∧
    ((SystemStateManager.update (t0 + d) s).currentState_ = SystemState.IDLE
      ↔ d ≥ s.timeoutMs_) ∧
    (d < s.timeoutMs_ → SystemStateManager.update (t0 + d) s = s) ∧
    (s.timeoutMs_ = 0 →
      (SystemStateManager.update (t0 + d) s).currentState_ = SystemState.IDLE) := by
  have hel : sub32 (millis (t0 + d)) s.lastCommandTime_ = d := by
    rw [hlast]
    simp only [sub32, millis, u32]
    omega
  rcases s with ⟨cur, last, tmo⟩
  simp only at hel hmode hlast
  have key : (SystemStateManager.update (t0 + d)
        { currentState_ := cur, lastCommandTime_ := last, timeoutMs_ := tmo }).currentState_
        = SystemState.IDLE ↔ d ≥ tmo := by
    rcases hmode with h | h <;> subst h <;>
      simp [SystemStateManager.update, SystemStateManager.enterSafe,
        SystemStateManager.transitionTo, SystemStateManager.isValidTransition,
        SystemStateManager.resetTimeout, hel] <;>
      split_ifs <;> simp_all
  refine ⟨hel, key, ?_, ?_⟩
  · intro hlt
    simp only at hlt
    have hnot : ¬ tmo ≤ d := by omega
    rcases hmode with h | h <;> subst h <;>
      simp [SystemStateManager.update, hel, hnot]
  · intro h0
    simp only at h0
    exact key.mpr (by omega)

/-- C39 (instance): last command 100 ms before the counter wraps, `update()` 5100 ms
later (the counter reads 5000), timeout 5000: the mode becomes IDLE. -/
theorem C39_clock_wraparound_witness :
    (sub32 (millis (4294967196 + 5100)) 4294967196 = 5100 ∧
      millis (4294967196 + 5100) = 5000) ∧
    (SystemStateManager.update (4294967196 + 5100)
      { currentState_ := SystemState.ARMED, lastCommandTime_ := 4294967196,
        timeoutMs_ := 5000 }).currentState_ = SystemState.IDLE :=
  ⟨⟨(C39_clock_wraparound 4294967196 5100
      { currentState_ := SystemState.ARMED, lastCommandTime_ := 4294967196,
        timeoutMs_ := 5000 } (by decide) (by decide) (Or.inr rfl)).1, by decide⟩,
    (C39_clock_wraparound 4294967196 5100
      { currentState_ := SystemState.ARMED, lastCommandTime_ := 4294967196,
        timeoutMs_ := 5000 } (by decide) (by decide) (Or.inr rfl)).2.1.mpr (by decide)⟩

/-! ### The fault flags -/

theorem setSTBYAll_fields (e : Bool) (sys : System) :
    (setSTBYAll e sys).motorControl = sys.motorControl ∧
    (setSTBYAll e sys).systemState = sys.systemState := by
  unfold setSTBYAll
  refine foldl_preserves (P := fun s => s.motorControl = sys.motorControl ∧
    s.systemState = sys.systemState) _ ?_ _ sys ⟨rfl, rfl⟩
  intro s i hs
  obtain ⟨h1, h2, -⟩ := setSTBY_fields i e s
  exact ⟨h1.trans hs.1, h2.trans hs.2⟩

theorem setMotorSpeedInternal_driverError (motorId : Nat) (speed : Int) (sys : System) :
    (setMotorSpeedInternal motorId speed sys).2.motorControl.driverError_
      = sys.motorControl.driverError_ := by
  unfold setMotorSpeedInternal
  simp only
  split_ifs
  · rfl
  · rfl
  all_goals
    split
    · rfl
    · rename_i sys1 heq
      obtain ⟨hm, -⟩ := writeMotorPins_motorControl _ _ _ _ _ _ _ heq
      show (if getCurrentState sys1 = SystemState.ARMED then setSTBY _ true sys1
        else setSTBY _ false sys1).motorControl.driverError_ = _
      split_ifs
      · rw [(setSTBY_fields _ _ _).1, hm]
      · rw [(setSTBY_fields _ _ _).1, hm]

theorem updateMotor_driverError (cs : SystemState) (t : Nat) (sys : System) (i : Nat) :
    (updateMotor cs t sys i).motorControl.driverError_ = sys.motorControl.driverError_ := by
  unfold updateMotor
  simp only
  split_ifs
  · rfl
  · rfl
  · rw [(setSTBY_fields _ _ _).1]
    rfl
  all_goals
    show (setMotorSpeedInternal _ _ _).2.motorControl.driverError_ = _
    rw [setMotorSpeedInternal_driverError]
    rfl

theorem step_driverError (clock : Nat) (op : Op) (sys : System) :
    (step clock op sys).motorControl.driverError_ = sys.motorControl.driverError_ := by
  have hfold : ∀ (f : System → Nat → System) (l : List Nat) (s : System),
      (∀ s i, (f s i).motorControl.driverError_ = s.motorControl.driverError_) →
      (l.foldl f s).motorControl.driverError_ = s.motorControl.driverError_ := by
    intro f l
    induction l with
    | nil => intro s _; rfl
    | cons a t ih => intro s hf; rw [List.foldl_cons, ih _ hf, hf]
  cases op with
  | transitionTo newState => rfl
  | arm => rfl
  | disarm => rfl
  | enterSafe => rfl
  | stateUpdate => rfl
  | resetTimeout => rfl
  | setTimeout timeoutMs => rfl
  | init =>
    show (setSTBYAll false sys).motorControl.driverError_ = _
    rw [(setSTBYAll_fields false sys).1]
  | setDefaultSpeed speed =>
    show (setDefaultSpeed speed sys).2.motorControl.driverError_ = _
    unfold setDefaultSpeed
    simp only
    split_ifs <;> rfl
  | forward motorId percent =>
    show (forward clock motorId percent sys).2.motorControl.driverError_ = _
    unfold forward
    simp only
    split_ifs <;> rfl
  | forwardDefault motorId =>
    show (forward clock (u8 motorId) 100 sys).2.motorControl.driverError_ = _
    unfold forward
    simp only
    split_ifs <;> rfl
  | reverse motorId percent =>
    show (reverse clock motorId percent sys).2.motorControl.driverError_ = _
    unfold reverse
    simp only
    split_ifs <;> rfl
  | reverseDefault motorId =>
    show (reverse clock (u8 motorId) 100 sys).2.motorControl.driverError_ = _
    unfold reverse
    simp only
    split_ifs <;> rfl
  | setSpeed motorId speed =>
    show (setSpeed clock motorId speed sys).2.motorControl.driverError_ = _
    unfold setSpeed
    simp only
    split_ifs <;> rfl
  | setSpeedAll speed =>
    show (setSpeedAll clock speed sys).2.motorControl.driverError_ = _
    unfold setSpeedAll
    simp only
    split_ifs
    · rfl
    all_goals
      show (List.foldl _ sys _).motorControl.driverError_ = _
      apply hfold
      intro s i
      rfl
  | stop motorId =>
    show (stop clock motorId sys).2.motorControl.driverError_ = _
    unfold stop
    simp only
    split_ifs <;> rfl
  | stopAll =>
    show (stopAll clock sys).2.motorControl.driverError_ = _
    unfold stopAll
    simp only
    split_ifs
    · rfl
    · show (List.foldl _ sys _).motorControl.driverError_ = _
      apply hfold
      intro s i
      rfl
  | emergencyStop =>
    show (emergencyStop sys).motorControl.driverError_ = _
    unfold emergencyStop
    simp only
    rw [(setSTBYAll_fields false _).1]
    apply hfold
    intro s i
    unfold emergencyStopMotor
    simp only
    split_ifs <;> rfl
  | motorUpdate =>
    show (MotorControl.update clock sys).motorControl.driverError_ = _
    unfold MotorControl.update
    simp only
    rw [hfold _ _ _ (fun s i => updateMotor_driverError _ _ s i)]
    split_ifs
    · exact (clearTarget_fields _ sys).2.2.2.2.2.1
    · rfl

/-- C40: the driver fault flags are never raised.  Every flag is false after
construction; no public operation (of the motor controller or of the state machine)
changes a flag; so in every state reached from construction every flag is false, and
the branch of the output commit taken for a faulted group is never taken. -/
theorem C40_fault_flags_never_raised (hw : Hardware) (calls : List (Nat × Op)) (clock : Nat)
    (op : Op) (sys : System) (d : Nat) :
    (System.constructed hw).motorControl.driverError_ d = false ∧
    (step clock op sys).motorControl.driverError_ = sys.motorControl.driverError_ ∧
    (run calls (System.constructed hw)).motorControl.driverError_ d = false := by
  refine ⟨rfl, step_driverError clock op sys, ?_⟩
  have hrun : ∀ (l : List (Nat × Op)) (s : System),
      (run l s).motorControl.driverError_ = s.motorControl.driverError_ := by
    intro l
    induction l with
    | nil => intro s; rfl
    | cons c cs ih =>
      intro s
      show (run cs (step c.1 c.2 s)).motorControl.driverError_ = _
      rw [ih, step_driverError]
  rw [hrun]
  rfl

/-! ### Convergence of the ramp -/

/-- The enabled flag that `setMotorSpeedInternal` leaves on its own channel is the old
one (nothing committed) or tells whether the committed speed is nonzero. -/
theorem setMotorSpeedInternal_enabled (i : Nat) (hi : i < 5) (speed : Int) (sys : System)
    (hr : -255 ≤ speed ∧ speed ≤ 255) :
    (setMotorSpeedInternal (indexToMotorId i) speed sys).2.motorControl.enabled_ i
        = sys.motorControl.enabled_ i ∨
    (setMotorSpeedInternal (indexToMotorId i) speed sys).2.motorControl.enabled_ i
        = decide (speed ≠ 0) := by
  obtain ⟨hu, hv, hidx, -, -⟩ := index_roundtrip i hi
  have hsp : (if (if i16 speed < -255 then -255 else i16 speed) > 255 then 255
        else (if i16 speed < -255 then -255 else i16 speed)) = speed := by
    simp only [i16]
    split_ifs <;> omega
  unfold setMotorSpeedInternal
  simp only [hu, hv, hidx, Bool.not_true, Bool.false_eq_true, if_false, hsp]
  split_ifs
  · exact Or.inl rfl
  all_goals
    split
    · exact Or.inl rfl
    · right
      simp [setEnabled, setAt]

/-- In ARMED mode a channel that is processed with target 0 and a current speed
closer than 20 to zero ends the iteration disabled. -/
theorem updateMotor_nearzero_disabled (t : Nat) (sys : System) (i : Nat) (hi : i < 5)
    (hc : -255 ≤ sys.motorControl.currentSpeed_ i ∧ sys.motorControl.currentSpeed_ i ≤ 255)
    (ht : sys.motorControl.targetSpeed_ i = 0)
    (hskip : ¬ (sys.motorControl.currentSpeed_ i = sys.motorControl.targetSpeed_ i ∨
        sub32 t (sys.motorControl.lastUpdateTime_ i) < RAMP_INTERVAL_MS))
    (hnear : cabs (sys.motorControl.currentSpeed_ i) < 20) :
    (updateMotor SystemState.ARMED t sys i).motorControl.enabled_ i = false := by
  have key : ∀ st : System, st.motorControl.currentSpeed_ i = 0 →
      st.motorControl.enabled_ i = false →
      (setLastUpdate i t (setMotorSpeedInternal (indexToMotorId i)
        (st.motorControl.currentSpeed_ i) st).2).motorControl.enabled_ i = false := by
    intro st h0 he
    show (setMotorSpeedInternal _ _ st).2.motorControl.enabled_ i = false
    rcases setMotorSpeedInternal_enabled i hi (st.motorControl.currentSpeed_ i) st
      (by rw [h0]; omega) with h | h
    · rw [h, he]
    · rw [h, h0]
      decide
  have e1 : i16 (0 - sys.motorControl.currentSpeed_ i) = 0 - sys.motorControl.currentSpeed_ i := by
    simp only [i16]
    omega
  have e2 : i16 (sys.motorControl.currentSpeed_ i + 10) = sys.motorControl.currentSpeed_ i + 10 := by
    simp only [i16]
    omega
  have e3 : i16 (sys.motorControl.currentSpeed_ i + -10) = sys.motorControl.currentSpeed_ i - 10 := by
    simp only [i16]
    omega
  unfold updateMotor
  simp only [ne_eq, not_true_eq_false, if_false]
  split_ifs with h1 h2 h3 h4 h5 h6
  · exact absurd (Or.inl h1) hskip
  · exact absurd (Or.inr h2) hskip
  all_goals first
    | (refine key _ ?_ ?_
       · simp [setEnabled, setCurrent, setAt]
       · simp [setEnabled, setCurrent, setAt])
    | (exfalso
       simp only [RAMP_STEP_SIZE, Nat.cast_ofNat, ht, e1, e2, e3, setCurrent, setEnabled, setAt,
         if_true, cabs, not_and, not_lt, true_and] at *
       split_ifs at * <;> omega)

/-- In ARMED mode `update()` leaves disabled every channel that it processes with
target 0 and a current speed closer than 20 to zero. -/
theorem update_nearzero_disabled (clock : Nat) (sys : System) (i : Nat) (hi : i < 5)
    (hm : sys.systemState.currentState_ = SystemState.ARMED)
    (hc : -255 ≤ sys.motorControl.currentSpeed_ i ∧ sys.motorControl.currentSpeed_ i ≤ 255)
    (ht : sys.motorControl.targetSpeed_ i = 0)
    (hskip : ¬ (sys.motorControl.currentSpeed_ i = sys.motorControl.targetSpeed_ i ∨
        sub32 (millis clock) (sys.motorControl.lastUpdateTime_ i) < RAMP_INTERVAL_MS))
    (hnear : cabs (sys.motorControl.currentSpeed_ i) < 20) :
    (MotorControl.update clock sys).motorControl.enabled_ i = false := by
  have hu : MotorControl.update clock sys
      = (List.range NUM_MOTORS).foldl (updateMotor SystemState.ARMED (millis clock)) sys := by
    simp [MotorControl.update, getCurrentState, SystemStateManager.getState, hm]
  obtain ⟨sA, hA, hB⟩ := loop_channel SystemState.ARMED (millis clock) sys i hi
  rw [← hu] at hB
  obtain ⟨a1, a2, a3, a4, a5, a6⟩ := hA
  obtain ⟨b1, b2, b3, b4, b5, b6⟩ := hB
  rw [b3]
  exact updateMotor_nearzero_disabled (millis clock) sA i hi (by rw [a1]; exact hc)
    (by rw [a2]; exact ht) (by rw [a1, a2, a4]; exact hskip) (by rw [a1]; exact hnear)

/-- C37 (exact per-tick bound in ARMED mode): for a channel whose speeds are in
`[-255, 255]`, one `update()` changes the current speed by at most 19, and by more
than 10 only when the target is 0 and `10 < |current| < 20`; in that case the
current speed becomes 0 and the channel is disabled. -/
theorem C37_per_tick_bound (clock : Nat) (sys : System) (i : Nat) (hi : i < 5)
    (hm : sys.systemState.currentState_ = SystemState.ARMED)
    (hc : -255 ≤ sys.motorControl.currentSpeed_ i ∧ sys.motorControl.currentSpeed_ i ≤ 255)
    (ht : -255 ≤ sys.motorControl.targetSpeed_ i ∧ sys.motorControl.targetSpeed_ i ≤ 255) :
    cabs ((MotorControl.update clock sys).motorControl.currentSpeed_ i
        - sys.motorControl.currentSpeed_ i) ≤ 2 * RAMP_STEP_SIZE - 1 ∧
    (cabs ((MotorControl.update clock sys).motorControl.currentSpeed_ i
        - sys.motorControl.currentSpeed_ i) > RAMP_STEP_SIZE →
      sys.motorControl.targetSpeed_ i = 0 ∧
      10 < cabs (sys.motorControl.currentSpeed_ i) ∧
      cabs (sys.motorControl.currentSpeed_ i) < 20 ∧
      (MotorControl.update clock sys).motorControl.currentSpeed_ i = 0 ∧
      (MotorControl.update clock sys).motorControl.enabled_ i = false) := by
  obtain ⟨-, -, hs, hp⟩ := update_channel_armed clock sys i hi hm hc ht
  by_cases hk : sys.motorControl.currentSpeed_ i = sys.motorControl.targetSpeed_ i ∨
      sub32 (millis clock) (sys.motorControl.lastUpdateTime_ i) < RAMP_INTERVAL_MS
  · obtain ⟨h1, -, -⟩ := hs hk
    rw [h1]
    simp [cabs, RAMP_STEP_SIZE]
  · obtain ⟨h1, -⟩ := hp hk
    have hb : cabs (rampStep (sys.motorControl.currentSpeed_ i) (sys.motorControl.targetSpeed_ i)
          - sys.motorControl.currentSpeed_ i) ≤ 19 ∧
        (cabs (rampStep (sys.motorControl.currentSpeed_ i) (sys.motorControl.targetSpeed_ i)
          - sys.motorControl.currentSpeed_ i) > 10 →
          sys.motorControl.targetSpeed_ i = 0 ∧ 10 < cabs (sys.motorControl.currentSpeed_ i) ∧
          cabs (sys.motorControl.currentSpeed_ i) < 20 ∧
          rampStep (sys.motorControl.currentSpeed_ i) (sys.motorControl.targetSpeed_ i) = 0) := by
      simp only [rampStep, cabs]
      split_ifs <;> omega
    rw [h1]
    refine ⟨by simpa [RAMP_STEP_SIZE] using hb.1, fun hgt => ?_⟩
    obtain ⟨g1, g2, g3, g4⟩ := hb.2 (by simpa [RAMP_STEP_SIZE] using hgt)
    exact ⟨g1, g2, g3, g4, update_nearzero_disabled clock sys i hi hm hc g1 hk g3⟩

/-- C37 (instance): channel 1 of the stopping sample state (ARMED, current 15, target
0) is processed at 170 ms: the speed changes by 15, to 0, and the channel is disabled. -/
theorem C37_per_tick_bound_witness :
    cabs ((MotorControl.update 170 sampleStoppingAt15).motorControl.currentSpeed_ 0
        - sampleStoppingAt15.motorControl.currentSpeed_ 0) ≤ 2 * RAMP_STEP_SIZE - 1 ∧
    (cabs ((MotorControl.update 170 sampleStoppingAt15).motorControl.currentSpeed_ 0
        - sampleStoppingAt15.motorControl.currentSpeed_ 0) > RAMP_STEP_SIZE →
      sampleStoppingAt15.motorControl.targetSpeed_ 0 = 0 ∧
      10 < cabs (sampleStoppingAt15.motorControl.currentSpeed_ 0) ∧
      cabs (sampleStoppingAt15.motorControl.currentSpeed_ 0) < 20 ∧
      (MotorControl.update 170 sampleStoppingAt15).motorControl.currentSpeed_ 0 = 0 ∧
      (MotorControl.update 170 sampleStoppingAt15).motorControl.enabled_ 0 = false) :=
  C37_per_tick_bound 170 sampleStoppingAt15 0 (by decide) (by decide) (by decide) (by decide)

/-- A channel that is at its target in ARMED mode stays there under any number of
further `update()` calls. -/
theorem updates_at_target (later : List Nat) (i : Nat) (hi : i < 5) : ∀ (sys : System),
    sys.systemState.currentState_ = SystemState.ARMED →
    (-255 ≤ sys.motorControl.targetSpeed_ i ∧ sys.motorControl.targetSpeed_ i ≤ 255) →
    sys.motorControl.currentSpeed_ i = sys.motorControl.targetSpeed_ i →
    (updates later sys).motorControl.currentSpeed_ i = sys.motorControl.targetSpeed_ i := by
  induction later with
  | nil =>
    intro sys _ _ h
    exact h
  | cons c cs ih =>
    intro sys hm ht h
    obtain ⟨u1, u2, u3, -⟩ := update_channel_armed c sys i hi hm (by rw [h]; exact ht) ht
    obtain ⟨v1, -, -⟩ := u3 (Or.inl h)
    have := ih (MotorControl.update c sys) (by rw [u1]; exact hm) (by rw [u2]; exact ht)
      (by rw [v1, u2]; exact h)
    rw [u2] at this
    exact this

/-- In ARMED mode, `n` updates that each find the ramp interval of the channel elapsed
bring the current speed to the target when `10 * n ≥ |target - current|`; mode and
target are those of the start. -/
theorem updates_converge (i : Nat) (hi : i < 5) (clocks : List Nat) : ∀ (sys : System),
    sys.systemState.currentState_ = SystemState.ARMED →
    (-255 ≤ sys.motorControl.currentSpeed_ i ∧ sys.motorControl.currentSpeed_ i ≤ 255) →
    (-255 ≤ sys.motorControl.targetSpeed_ i ∧ sys.motorControl.targetSpeed_ i ≤ 255) →
    intervalsElapsed i clocks sys = true →
    cabs (sys.motorControl.targetSpeed_ i - sys.motorControl.currentSpeed_ i)
      ≤ 10 * (clocks.length : Int) →
    (updates clocks sys).motorControl.currentSpeed_ i = sys.motorControl.targetSpeed_ i ∧
    (updates clocks sys).motorControl.targetSpeed_ i = sys.motorControl.targetSpeed_ i ∧
    (updates clocks sys).systemState.currentState_ = SystemState.ARMED := by
  induction clocks with
  | nil =>
    intro sys hm hc ht _ hn
    refine ⟨?_, rfl, hm⟩
    show sys.motorControl.currentSpeed_ i = sys.motorControl.targetSpeed_ i
    simp only [cabs, List.length_nil, Nat.cast_zero, mul_zero] at hn
    split_ifs at hn <;> omega
  | cons c cs ih =>
    intro sys hm hc ht hel hn
    obtain ⟨u1, u2, u3, u4⟩ := update_channel_armed c sys i hi hm hc ht
    simp only [intervalsElapsed, Bool.and_eq_true, decide_eq_true_eq] at hel
    obtain ⟨hel1, hel2⟩ := hel
    have hr := (rampStep_cases _ _ hc ht).2.2.2
    have hcur : (-255 ≤ (MotorControl.update c sys).motorControl.currentSpeed_ i ∧
          (MotorControl.update c sys).motorControl.currentSpeed_ i ≤ 255) ∧
        cabs (sys.motorControl.targetSpeed_ i
            - (MotorControl.update c sys).motorControl.currentSpeed_ i)
          ≤ 10 * (cs.length : Int) := by
      by_cases he : sys.motorControl.currentSpeed_ i = sys.motorControl.targetSpeed_ i
      · obtain ⟨v1, -, -⟩ := u3 (Or.inl he)
        rw [v1, he]
        refine ⟨ht, ?_⟩
        simp only [cabs, sub_self]
        split_ifs <;> omega
      · have hk : ¬ (sys.motorControl.currentSpeed_ i = sys.motorControl.targetSpeed_ i ∨
            sub32 (millis c) (sys.motorControl.lastUpdateTime_ i) < RAMP_INTERVAL_MS) := by
          intro h
          rcases h with h | h
          · exact he h
          · omega
        obtain ⟨v1, -⟩ := u4 hk
        rw [v1]
        refine ⟨hr, ?_⟩
        simp only [List.length_cons, Nat.cast_add, Nat.cast_one] at hn
        simp only [rampStep, cabs] at hn ⊢
        split_ifs at hn ⊢ <;> omega
    obtain ⟨w1, w2, w3⟩ := ih (MotorControl.update c sys) (by rw [u1]; exact hm) hcur.1
      (by rw [u2]; exact ht) hel2 (by rw [u2]; exact hcur.2)
    rw [u2] at w1 w2
    exact ⟨w1, w2, w3⟩

/-- C38 (convergence): in ARMED mode, for a channel with current speed and target `t`
in `[-255, 255]`, after `n` calls of `update()` that each find the ramp interval of
the channel elapsed, with `10 * n ≥ |t - current|`, the current speed is `t` (the
target is still `t`); any further calls of `update()` leave it at `t`; and
`|t - current| ≤ 510`, so 51 such calls always suffice. -/
theorem C38_convergence (clocks later : List Nat) (sys : System) (i : Nat) (hi : i < NUM_MOTORS)
    (hm : sys.systemState.currentState_ = SystemState.ARMED)
    (hc : -255 ≤ sys.motorControl.currentSpeed_ i ∧ sys.motorControl.currentSpeed_ i ≤ 255)
    (ht : -255 ≤ sys.motorControl.targetSpeed_ i ∧ sys.motorControl.targetSpeed_ i ≤ 255)
    (hel : intervalsElapsed i clocks sys = true)
    (hn : cabs (sys.motorControl.targetSpeed_ i - sys.motorControl.currentSpeed_ i)
      ≤ RAMP_STEP_SIZE * (clocks.length : Int)) :
    (updates clocks sys).motorControl.currentSpeed_ i = sys.motorControl.targetSpeed_ i ∧
    (updates clocks sys).motorControl.targetSpeed_ i = sys.motorControl.targetSpeed_ i ∧
    (updates later (updates clocks sys)).motorControl.currentSpeed_ i
      = sys.motorControl.targetSpeed_ i ∧
    cabs (sys.motorControl.targetSpeed_ i - sys.motorControl.currentSpeed_ i)
      ≤ RAMP_STEP_SIZE * 51 := by
  obtain ⟨w1, w2, w3⟩ := updates_converge i hi clocks sys hm hc ht hel
    (by simpa [RAMP_STEP_SIZE] using hn)
  refine ⟨w1, w2, ?_, ?_⟩
  · have := updates_at_target later i hi (updates clocks sys) w3 (by rw [w2]; exact ht)
      (by rw [w1, w2])
    rw [w2] at this
    exact this
  · simp only [cabs, RAMP_STEP_SIZE]
    split_ifs <;> omega

/-- C38 (instance): channel 1 of the sample state at speed 30 with target 100 reaches
100 after the seven updates at 220, 270, ..., 520 ms and stays there at 570 and 580 ms. -/
theorem C38_convergence_witness :
    (updates [220, 270, 320, 370, 420, 470, 520] sampleArmedAt30).motorControl.currentSpeed_ 0
      = sampleArmedAt30.motorControl.targetSpeed_ 0 ∧
    (updates [220, 270, 320, 370, 420, 470, 520] sampleArmedAt30).motorControl.targetSpeed_ 0
      = sampleArmedAt30.motorControl.targetSpeed_ 0 ∧
    (updates [570, 580] (updates [220, 270, 320, 370, 420, 470, 520]
      sampleArmedAt30)).motorControl.currentSpeed_ 0
      = sampleArmedAt30.motorControl.targetSpeed_ 0 ∧
    cabs (sampleArmedAt30.motorControl.targetSpeed_ 0
        - sampleArmedAt30.motorControl.currentSpeed_ 0) ≤ RAMP_STEP_SIZE * 51 :=
  C38_convergence [220, 270, 320, 370, 420, 470, 520] [570, 580] sampleArmedAt30 0 (by decide)
    (by decide) (by decide) (by decide) (by decide) (by decide)

/-! ### The physical outputs of a channel -/

theorem writeMotorPins_spec (k : Nat) (hk : k < 5) (f r : Bool) (v : Nat) (sys : System) :
    writeMotorPins (k / 2) (k % 2) f r v sys
      = some (ledcWrite k v (digitalWrite (directionPins k).2 r
          (digitalWrite (directionPins k).1 f sys))) := by
  interval_cases k <;> rfl

theorem valid_id_index (motorId : Nat) (h : isValidMotorId (u8 motorId) = true) :
    ∃ k, k < 5 ∧ u8 motorId = k + 1 := by
  simp only [isValidMotorId, NUM_MOTORS, Bool.and_eq_true, decide_eq_true_eq] at h
  exact ⟨u8 motorId - 1, by omega, by omega⟩

/-- A call of `setMotorSpeedInternal` for a valid id `k + 1` of a group that is not
faulted returns true after these writes: the two direction pins, the duty, the
standby pin of the group, the current speed and the enabled flag, with the speed
clamped to `[-255, 255]`. -/
theorem setMotorSpeedInternal_commit (motorId : Nat) (speed : Int) (sys : System) (k : Nat)
    (hk : k < 5) (hid : u8 motorId = k + 1)
    (herr : sys.motorControl.driverError_ (k / 2) = false) :
    ∃ sp e, (-255 ≤ sp ∧ sp ≤ 255) ∧ ((-255 ≤ speed ∧ speed ≤ 255) → sp = speed) ∧
      setMotorSpeedInternal motorId speed sys
        = (true, setEnabled k (decide (sp ≠ 0)) (setCurrent k sp
            (digitalWrite (STBY_PINS (k / 2)) e (ledcWrite k (cabs sp).toNat
              (digitalWrite (directionPins k).2 (decide (sp < 0))
                (digitalWrite (directionPins k).1 (decide (sp > 0)) sys)))))) := by
  obtain ⟨-, hv1, hidx, hd, hmi⟩ := index_roundtrip k hk
  have hsp := clamp_range (i16 speed)
  have hsp2 : (-255 ≤ speed ∧ speed ≤ 255) →
      (if (if i16 speed < -255 then -255 else i16 speed) > 255 then 255
        else (if i16 speed < -255 then -255 else i16 speed)) = speed := by
    intro h
    simp only [i16]
    split_ifs <;> omega
  have hd3 : ¬ (k / 2 ≥ NUM_DRIVERS) := by
    simp only [NUM_DRIVERS]
    omega
  refine ⟨_, decide (getCurrentState sys = SystemState.ARMED), hsp, hsp2, ?_⟩
  unfold setMotorSpeedInternal
  simp only [hid, hv1, hidx, hd, hmi, herr, Bool.not_true, Bool.false_eq_true, if_false,
    writeMotorPins_spec k hk]
  generalize (if (if i16 speed < -255 then -255 else i16 speed) > 255 then 255
    else (if i16 speed < -255 then -255 else i16 speed)) = sp at hsp ⊢
  have hpw : u8 (if sp < 0 then -sp else sp).toNat = (cabs sp).toNat := by
    simp only [u8, cabs]
    split_ifs <;> omega
  rw [hpw]
  have hst : ∀ (st : System) (b : Bool), setSTBY (k / 2) b st
      = digitalWrite (STBY_PINS (k / 2)) b st := by
    intro st b
    unfold setSTBY
    rw [if_neg hd3]
  simp only [hst]
  have hg : ∀ (a b : Nat) (x y : Bool) (c d : Nat), getCurrentState (ledcWrite c d
      (digitalWrite a x (digitalWrite b y sys))) = getCurrentState sys := fun _ _ _ _ _ _ => rfl
  rw [hg]
  by_cases hA : getCurrentState sys = SystemState.ARMED
  · simp only [hA, if_true, decide_True]
  · simp only [hA, if_false, decide_False]

/-- The whole effect of `setMotorSpeedInternal`: nothing (result false), or the writes
of a commit for some valid id `k + 1`. -/
theorem setMotorSpeedInternal_effect (motorId : Nat) (speed : Int) (sys : System) :
    setMotorSpeedInternal motorId speed sys = (false, sys) ∨
    ∃ k sp e, k < 5 ∧ u8 motorId = k + 1 ∧
      setMotorSpeedInternal motorId speed sys
        = (true, setEnabled k (decide (sp ≠ 0)) (setCurrent k sp
            (digitalWrite (STBY_PINS (k / 2)) e (ledcWrite k (cabs sp).toNat
              (digitalWrite (directionPins k).2 (decide (sp < 0))
                (digitalWrite (directionPins k).1 (decide (sp > 0)) sys)))))) := by
  by_cases hv : isValidMotorId (u8 motorId) = true
  · obtain ⟨k, hk, hid⟩ := valid_id_index motorId hv
    obtain ⟨-, -, hidx, hd, hmi⟩ := index_roundtrip k hk
    by_cases herr : sys.motorControl.driverError_ (k / 2) = true
    · left
      unfold setMotorSpeedInternal
      simp only [hid, hidx, hd, hmi, herr, if_true, ite_self]
    · right
      obtain ⟨sp, e, -, -, h⟩ := setMotorSpeedInternal_commit motorId speed sys k hk hid
        (by simpa using herr)
      exact ⟨k, sp, e, hk, hid, h⟩
  · left
    unfold setMotorSpeedInternal
    simp only [hv, Bool.not_false, if_true]

theorem directionPins_distinct (i : Nat) (hi : i < 5) :
    (directionPins i).1 ≠ (directionPins i).2 ∧
    (∀ d, (directionPins i).1 ≠ STBY_PINS d ∧ (directionPins i).2 ≠ STBY_PINS d) ∧
    (∀ k, k < 5 → i ≠ k →
      (directionPins i).1 ≠ (directionPins k).1 ∧ (directionPins i).1 ≠ (directionPins k).2 ∧
      (directionPins i).2 ≠ (directionPins k).1 ∧ (directionPins i).2 ≠ (directionPins k).2) := by
  refine ⟨?_, ?_, ?_⟩
  · interval_cases i <;> decide
  · intro d
    unfold STBY_PINS
    interval_cases i <;> split <;> decide
  · intro k hk hne
    interval_cases i <;> interval_cases k <;> first | exact absurd rfl hne | decide

theorem outputAgrees_refl (i : Nat) (a : System) : OutputAgrees i a a := ⟨rfl, rfl, rfl⟩

theorem outputAgrees_trans {i : Nat} {a b c : System} (h1 : OutputAgrees i a b)
    (h2 : OutputAgrees i b c) : OutputAgrees i a c :=
  ⟨h1.1.trans h2.1, h1.2.1.trans h2.2.1, h1.2.2.trans h2.2.2⟩

theorem setSTBY_output (d : Nat) (e : Bool) (sys : System) (i : Nat) (hi : i < 5) :
    OutputAgrees i (setSTBY d e sys) sys := by
  obtain ⟨-, hs, -⟩ := directionPins_distinct i hi
  unfold setSTBY
  split_ifs
  · exact outputAgrees_refl i sys
  · unfold OutputAgrees
    simp [digitalWrite, setAt, (hs d).1, (hs d).2]

/-- The writes of a commit for index `k` leave the outputs of every other channel. -/
theorem commitWrites_output (k : Nat) (hk : k < 5) (i : Nat) (hi : i < 5) (hne : i ≠ k)
    (b1 b2 e en : Bool) (d : Nat) (sp : Int) (sys : System) :
    OutputAgrees i (setEnabled k en (setCurrent k sp
      (digitalWrite (STBY_PINS (k / 2)) e (ledcWrite k d
        (digitalWrite (directionPins k).2 b2
          (digitalWrite (directionPins k).1 b1 sys)))))) sys := by
  obtain ⟨-, hs, ho⟩ := directionPins_distinct i hi
  obtain ⟨o1, o2, o3, o4⟩ := ho k hk hne
  unfold OutputAgrees
  simp [setEnabled, setCurrent, digitalWrite, ledcWrite, setAt, hne, (hs (k / 2)).1,
    (hs (k / 2)).2, o1, o2, o3, o4]

theorem setMotorSpeedInternal_output (k : Nat) (hk : k < 5) (i : Nat) (hi : i < 5)
    (hne : i ≠ k) (speed : Int) (sys : System) :
    OutputAgrees i (setMotorSpeedInternal (indexToMotorId k) speed sys).2 sys := by
  rcases setMotorSpeedInternal_effect (indexToMotorId k) speed sys with h | ⟨k1, sp, e, hk1, hid, h⟩
  · rw [h]
    exact outputAgrees_refl i sys
  · have : k1 = k := by
      have := (index_roundtrip k hk).1
      omega
    subst this
    rw [h]
    exact commitWrites_output k1 hk i hi hne _ _ _ _ _ _ sys

theorem commit_other_output (k : Nat) (hk : k < 5) (i : Nat) (hi : i < 5) (hne : i ≠ k)
    (t : Nat) (speed : Int) (st sys : System) (h : OutputAgrees i st sys) :
    OutputAgrees i
      (setLastUpdate k t (setMotorSpeedInternal (indexToMotorId k) speed st).2) sys :=
  outputAgrees_trans (setMotorSpeedInternal_output k hk i hi hne speed st) h

/-- The iteration of the ramp loop for index `k` leaves the outputs (duty and both
direction pins) of every other channel as they were. -/
theorem updateMotor_other_output (cs : SystemState) (t : Nat) (sys : System) (k : Nat)
    (hk : k < 5) (i : Nat) (hi : i < 5) (hne : i ≠ k) :
    OutputAgrees i (updateMotor cs t sys k) sys := by
  unfold updateMotor
  simp only
  split_ifs
  · exact outputAgrees_refl i sys
  · exact outputAgrees_refl i sys
  · refine outputAgrees_trans (setSTBY_output _ _ _ i hi) ?_
    unfold OutputAgrees
    simp [ledcWrite, setTarget, setEnabled, setCurrent, setAt, hne]
  all_goals
    apply commit_other_output k hk i hi hne
    exact ⟨rfl, rfl, rfl⟩

theorem foldl_updateMotor_other_output (cs : SystemState) (t : Nat) (i : Nat) (hi : i < 5)
    (l : List Nat) (hl : ∀ k, k ∈ l → k < 5 ∧ i ≠ k) (sys : System) :
    OutputAgrees i (l.foldl (updateMotor cs t) sys) sys := by
  induction l generalizing sys with
  | nil => exact outputAgrees_refl i sys
  | cons a rest ih =>
    have ha := hl a (List.mem_cons_self a rest)
    have hrest : ∀ k, k ∈ rest → k < 5 ∧ i ≠ k :=
      fun k hk => hl k (List.mem_cons_of_mem a hk)
    exact outputAgrees_trans (ih hrest _) (updateMotor_other_output cs t sys a ha.1 i hi ha.2)

/-- For a channel index `i`, the whole ramp loop acts on the record and on the outputs
of channel `i` as its iteration for `i` does, run from a state that agrees with the
initial one on both. -/
theorem loop_output (cs : SystemState) (t : Nat) (s0 : System) (i : Nat) (hi : i < 5) :
    ∃ sA, (ChannelAgrees i sA s0 ∧ OutputAgrees i sA s0) ∧
      (ChannelAgrees i ((List.range NUM_MOTORS).foldl (updateMotor cs t) s0)
        (updateMotor cs t sA i) ∧
      OutputAgrees i ((List.range NUM_MOTORS).foldl (updateMotor cs t) s0)
        (updateMotor cs t sA i)) := by
  have hmem : ∀ (l : List Nat), (∀ k, k ∈ l → k < 5 ∧ i ≠ k) → ∀ s,
      ChannelAgrees i (l.foldl (updateMotor cs t) s) s ∧
      OutputAgrees i (l.foldl (updateMotor cs t) s) s :=
    fun l hl s => ⟨foldl_updateMotor_other cs t i l hl s,
      foldl_updateMotor_other_output cs t i hi l hl s⟩
  simp only [NUM_MOTORS, range_motors]
  interval_cases i
  · refine ⟨s0, ⟨ChannelAgrees.rfl_ _ _, outputAgrees_refl _ _⟩, ?_⟩
    exact hmem [1, 2, 3, 4] (by intro k hk; simp at hk; omega) _
  · refine ⟨[0].foldl (updateMotor cs t) s0,
      hmem [0] (by intro k hk; simp at hk; omega) _, ?_⟩
    exact hmem [2, 3, 4] (by intro k hk; simp at hk; omega) _
  · refine ⟨[0, 1].foldl (updateMotor cs t) s0,
      hmem [0, 1] (by intro k hk; simp at hk; omega) _, ?_⟩
    exact hmem [3, 4] (by intro k hk; simp at hk; omega) _
  · refine ⟨[0, 1, 2].foldl (updateMotor cs t) s0,
      hmem [0, 1, 2] (by intro k hk; simp at hk; omega) _, ?_⟩
    exact hmem [4] (by intro k hk; simp at hk; omega) _
  · refine ⟨[0, 1, 2, 3].foldl (updateMotor cs t) s0,
      hmem [0, 1, 2, 3] (by intro k hk; simp at hk; omega) _, ?_⟩
    exact hmem [] (by intro k hk; simp at hk) _

/-- The iteration of the ramp loop for a channel whose ramp interval has not elapsed
changes nothing, in every mode. -/
theorem updateMotor_throttled (cs : SystemState) (t : Nat) (sys : System) (i : Nat)
    (h : sub32 t (sys.motorControl.lastUpdateTime_ i) < RAMP_INTERVAL_MS) :
    updateMotor cs t sys i = sys := by
  unfold updateMotor
  simp only
  split_ifs
  · rfl
  · rfl

/-- One `update()` call made before the ramp interval of channel `i` has elapsed
leaves the current speed, the enabled flag, the time of the last ramp step and the
outputs of that channel as they were, in every mode. -/
theorem update_throttled (clock : Nat) (sys : System) (i : Nat) (hi : i < 5)
    (h : sub32 (millis clock) (sys.motorControl.lastUpdateTime_ i) < RAMP_INTERVAL_MS) :
    (MotorControl.update clock sys).motorControl.currentSpeed_ i
      = sys.motorControl.currentSpeed_ i ∧
    (MotorControl.update clock sys).motorControl.enabled_ i = sys.motorControl.enabled_ i ∧
    (MotorControl.update clock sys).motorControl.lastUpdateTime_ i
      = sys.motorControl.lastUpdateTime_ i ∧
    OutputAgrees i (MotorControl.update clock sys) sys := by
  have hs1 : ∀ s1 : System, s1 = (if getCurrentState sys ≠ SystemState.ARMED
        then (List.range NUM_MOTORS).foldl clearTarget sys else sys) →
      s1.hw = sys.hw ∧ s1.motorControl.currentSpeed_ = sys.motorControl.currentSpeed_ ∧
      s1.motorControl.enabled_ = sys.motorControl.enabled_ ∧
      s1.motorControl.lastUpdateTime_ = sys.motorControl.lastUpdateTime_ := by
    intro s1 h1
    subst h1
    split_ifs
    · obtain ⟨-, c2, c3, c4, c5, -⟩ := clearTarget_fields (List.range NUM_MOTORS) sys
      exact ⟨c2, c3, c4, c5⟩
    · exact ⟨rfl, rfl, rfl, rfl⟩
  have hu : MotorControl.update clock sys
      = (List.range NUM_MOTORS).foldl (updateMotor (getCurrentState sys) (millis clock))
        (if getCurrentState sys ≠ SystemState.ARMED
          then (List.range NUM_MOTORS).foldl clearTarget sys else sys) := rfl
  rw [hu]
  obtain ⟨g1, g2, g3, g4⟩ := hs1 _ rfl
  generalize (if getCurrentState sys ≠ SystemState.ARMED
    then (List.range NUM_MOTORS).foldl clearTarget sys else sys) = s1 at g1 g2 g3 g4 ⊢
  obtain ⟨sA, ⟨hA, hAo⟩, hB, hBo⟩ := loop_output (getCurrentState sys) (millis clock) s1 i hi
  obtain ⟨a1, -, a3, a4, -, -⟩ := hA
  have hk : updateMotor (getCurrentState sys) (millis clock) sA i = sA :=
    updateMotor_throttled _ _ _ _ (by rw [a4, g4]; exact h)
  rw [hk] at hB hBo
  obtain ⟨b1, -, b3, b4, -, -⟩ := hB
  refine ⟨?_, ?_, ?_, ?_⟩
  · rw [b1, a1, g2]
  · rw [b3, a3, g3]
  · rw [b4, a4, g4]
  · refine outputAgrees_trans hBo (outputAgrees_trans hAo ?_)
    unfold OutputAgrees
    rw [g1]
    exact ⟨rfl, rfl, rfl⟩

/-- C33 (self-throttling): for every channel index `i`, in every operating mode, any
number of `update()` calls that are all made before the ramp interval (50 ms) of the
channel has elapsed since its last ramp step leave the channel's current speed,
enabled flag, time of the last ramp step and outputs (PWM duty and both direction
pins) as they were.  (It holds whether or not current and target differ.) -/
theorem C33_self_throttling (clocks : List Nat) (sys : System) (i : Nat) (hi : i < NUM_MOTORS)
    (hel : ∀ c ∈ clocks,
      sub32 (millis c) (sys.motorControl.lastUpdateTime_ i) < RAMP_INTERVAL_MS) :
    (updates clocks sys).motorControl.currentSpeed_ i = sys.motorControl.currentSpeed_ i ∧
    (updates clocks sys).motorControl.enabled_ i = sys.motorControl.enabled_ i ∧
    (updates clocks sys).motorControl.lastUpdateTime_ i
      = sys.motorControl.lastUpdateTime_ i ∧
    OutputAgrees i (updates clocks sys) sys := by
  induction clocks generalizing sys with
  | nil => exact ⟨rfl, rfl, rfl, outputAgrees_refl i sys⟩
  | cons c cs ih =>
    obtain ⟨u1, u2, u3, u4⟩ := update_throttled c sys i hi (hel c (List.mem_cons_self c cs))
    obtain ⟨v1, v2, v3, v4⟩ := ih (MotorControl.update c sys) (by
      intro d hd
      rw [u3]
      exact hel d (List.mem_cons_of_mem c hd))
    exact ⟨v1.trans u1, v2.trans u2, v3.trans u3, outputAgrees_trans v4 u4⟩

/-- C33 (instance): the sample state disarmed at speed 30 (mode IDLE, last ramp step
of channel 1 at 170 ms) keeps speed, flag, time and outputs of channel 1 through the
updates at 190, 200 and 219 ms. -/
theorem C33_self_throttling_witness :
    (updates [190, 200, 219] sampleDisarmedAt30).motorControl.currentSpeed_ 0
      = sampleDisarmedAt30.motorControl.currentSpeed_ 0 ∧
    (updates [190, 200, 219] sampleDisarmedAt30).motorControl.enabled_ 0
      = sampleDisarmedAt30.motorControl.enabled_ 0 ∧
    (updates [190, 200, 219] sampleDisarmedAt30).motorControl.lastUpdateTime_ 0
      = sampleDisarmedAt30.motorControl.lastUpdateTime_ 0 ∧
    OutputAgrees 0 (updates [190, 200, 219] sampleDisarmedAt30) sampleDisarmedAt30 :=
  C33_self_throttling [190, 200, 219] sampleDisarmedAt30 0 (by decide) (by decide)

/-- The commit that ends a processed ARMED iteration for channel `i` of a group that is
not faulted: the duty is the magnitude of the committed speed, the first direction pin
tells whether it is positive and the second whether it is negative. -/
theorem commit_outputs (i : Nat) (hi : i < 5) (t : Nat) (st : System)
    (hr : -255 ≤ st.motorControl.currentSpeed_ i ∧ st.motorControl.currentSpeed_ i ≤ 255)
    (herr : st.motorControl.driverError_ (i / 2) = false) :
    (setLastUpdate i t (setMotorSpeedInternal (indexToMotorId i)
        (st.motorControl.currentSpeed_ i) st).2).hw.duty i
      = (cabs ((setLastUpdate i t (setMotorSpeedInternal (indexToMotorId i)
        (st.motorControl.currentSpeed_ i) st).2).motorControl.currentSpeed_ i)).toNat ∧
    (setLastUpdate i t (setMotorSpeedInternal (indexToMotorId i)
        (st.motorControl.currentSpeed_ i) st).2).hw.pin (directionPins i).1
      = decide ((setLastUpdate i t (setMotorSpeedInternal (indexToMotorId i)
        (st.motorControl.currentSpeed_ i) st).2).motorControl.currentSpeed_ i > 0) ∧
    (setLastUpdate i t (setMotorSpeedInternal (indexToMotorId i)
        (st.motorControl.currentSpeed_ i) st).2).hw.pin (directionPins i).2
      = decide ((setLastUpdate i t (setMotorSpeedInternal (indexToMotorId i)
        (st.motorControl.currentSpeed_ i) st).2).motorControl.currentSpeed_ i < 0) := by
  obtain ⟨c1, -⟩ := commit_self i hi t st hr
  rw [c1]
  obtain ⟨sp, e, -, hsp2, h⟩ := setMotorSpeedInternal_commit (indexToMotorId i)
    (st.motorControl.currentSpeed_ i) st i hi (index_roundtrip i hi).1 herr
  have hsp := hsp2 hr
  subst hsp
  obtain ⟨h12, hs, -⟩ := directionPins_distinct i hi
  rw [h]
  simp [setLastUpdate, setEnabled, setCurrent, digitalWrite, ledcWrite, setAt, h12,
    (hs (i / 2)).1, (hs (i / 2)).2]

/-- The outputs of channel `i` after its iteration of the ramp loop in ARMED mode, when
the channel is processed and its group is not faulted. -/
theorem updateMotor_outputs_armed (t : Nat) (sys : System) (i : Nat) (hi : i < 5)
    (hc : -255 ≤ sys.motorControl.currentSpeed_ i ∧ sys.motorControl.currentSpeed_ i ≤ 255)
    (ht : -255 ≤ sys.motorControl.targetSpeed_ i ∧ sys.motorControl.targetSpeed_ i ≤ 255)
    (hskip : ¬ (sys.motorControl.currentSpeed_ i = sys.motorControl.targetSpeed_ i ∨
        sub32 t (sys.motorControl.lastUpdateTime_ i) < RAMP_INTERVAL_MS))
    (herr : sys.motorControl.driverError_ (i / 2) = false) :
    (updateMotor SystemState.ARMED t sys i).hw.duty i
      = (cabs ((updateMotor SystemState.ARMED t sys i).motorControl.currentSpeed_ i)).toNat ∧
    (updateMotor SystemState.ARMED t sys i).hw.pin (directionPins i).1
      = decide ((updateMotor SystemState.ARMED t sys i).motorControl.currentSpeed_ i > 0) ∧
    (updateMotor SystemState.ARMED t sys i).hw.pin (directionPins i).2
      = decide ((updateMotor SystemState.ARMED t sys i).motorControl.currentSpeed_ i < 0) := by
  unfold updateMotor
  simp only [ne_eq, not_true_eq_false, if_false]
  split_ifs with h1 h2 h3 h4 h5 h6
  · exact absurd (Or.inl h1) hskip
  · exact absurd (Or.inr h2) hskip
  all_goals
    obtain ⟨e1, e2, e3, e4⟩ := rampStep_cases _ _ hc ht
    refine commit_outputs i hi t _ ?_ herr
    simp only [RAMP_STEP_SIZE, Nat.cast_ofNat, e1, e2, e3, setCurrent, setEnabled, setAt,
      if_true, cabs] at *
    split_ifs at * <;> omega

/-! ### The two direction pins of a channel are never both HIGH -/

theorem exclusive_of_output (a b : System) (h : ∀ i, i < 5 → OutputAgrees i a b)
    (hb : DirectionsExclusive b) : DirectionsExclusive a := by
  intro i hi
  obtain ⟨-, h2, h3⟩ := h i hi
  rw [h2, h3]
  exact hb i hi

theorem exclusive_of_hw (a b : System) (h : a.hw = b.hw) (hb : DirectionsExclusive b) :
    DirectionsExclusive a := by
  intro i hi
  rw [h]
  exact hb i hi

theorem digitalWrite_low_exclusive (p : Nat) (sys : System) (h : DirectionsExclusive sys) :
    DirectionsExclusive (digitalWrite p false sys) := by
  intro i hi
  have := h i hi
  simp only [digitalWrite, setAt]
  split_ifs <;> simp_all

theorem setSTBY_exclusive (d : Nat) (e : Bool) (sys : System) (h : DirectionsExclusive sys) :
    DirectionsExclusive (setSTBY d e sys) :=
  exclusive_of_output _ _ (fun i hi => setSTBY_output d e sys i hi) h

theorem setSTBYAll_exclusive (e : Bool) (sys : System) (h : DirectionsExclusive sys) :
    DirectionsExclusive (setSTBYAll e sys) :=
  foldl_preserves _ (fun s i hs => setSTBY_exclusive i e s hs) _ sys h

theorem setMotorSpeedInternal_exclusive (motorId : Nat) (speed : Int) (sys : System)
    (h : DirectionsExclusive sys) :
    DirectionsExclusive (setMotorSpeedInternal motorId speed sys).2 := by
  rcases setMotorSpeedInternal_effect motorId speed sys with h1 | ⟨k, sp, e, hk, -, h1⟩
  · rw [h1]
    exact h
  · rw [h1]
    intro i hi
    by_cases hik : i = k
    · subst hik
      obtain ⟨h12, hs, -⟩ := directionPins_distinct i hi
      simp only [setEnabled, setCurrent, digitalWrite, ledcWrite, setAt, h12, (hs (i / 2)).1,
        (hs (i / 2)).2, if_false, if_true, decide_eq_true_eq]
      omega
    · obtain ⟨-, h2, h3⟩ := commitWrites_output k hk i hi hik (decide (sp > 0))
        (decide (sp < 0)) e (decide (sp ≠ 0)) (cabs sp).toNat sp sys
      rw [h2, h3]
      exact h i hi

theorem updateMotor_exclusive (cs : SystemState) (t : Nat) (sys : System) (k : Nat)
    (h : DirectionsExclusive sys) : DirectionsExclusive (updateMotor cs t sys k) := by
  unfold updateMotor
  simp only
  split_ifs
  · exact h
  · exact h
  · exact setSTBY_exclusive _ _ _ h
  all_goals
    exact exclusive_of_hw _ _ rfl (setMotorSpeedInternal_exclusive _ _ _ h)

theorem update_exclusive (clock : Nat) (sys : System) (h : DirectionsExclusive sys) :
    DirectionsExclusive (MotorControl.update clock sys) := by
  unfold MotorControl.update
  simp only
  apply foldl_preserves _ (fun s i hs => updateMotor_exclusive _ _ s i hs)
  split_ifs
  · exact exclusive_of_hw _ _ (clearTarget_fields _ sys).2.1 h
  · exact h

theorem emergencyStopMotor_exclusive (sys : System) (i : Nat) (h : DirectionsExclusive sys) :
    DirectionsExclusive (emergencyStopMotor sys i) := by
  unfold emergencyStopMotor
  simp only
  split_ifs <;>
    exact digitalWrite_low_exclusive _ _ (digitalWrite_low_exclusive _ _ h)

theorem emergencyStop_exclusive (sys : System) (h : DirectionsExclusive sys) :
    DirectionsExclusive (emergencyStop sys) := by
  unfold emergencyStop
  apply setSTBYAll_exclusive
  exact foldl_preserves _ (fun s i hs => emergencyStopMotor_exclusive s i hs) _ _ h

theorem init_exclusive (sys : System) : DirectionsExclusive (init sys).2 := by
  intro i hi
  simp only [NUM_MOTORS] at hi
  interval_cases i <;>
    simp [init, digitalWrite, ledcWrite, setAt, directionPins, PIN_AIN1_1, PIN_AIN2_1,
      PIN_BIN1_1, PIN_BIN2_1, PIN_AIN1_2, PIN_AIN2_2, PIN_BIN1_2, PIN_BIN2_2, PIN_AIN1_3,
      PIN_AIN2_3, PIN_BIN1_3, PIN_BIN2_3]

/-- The motion commands and `setDefaultSpeed` write no pin and no duty. -/
theorem command_hw (sys : System) :
    (∀ speed, (setDefaultSpeed speed sys).2.hw = sys.hw) ∧
    (∀ clock motorId percent, (forward clock motorId percent sys).2.hw = sys.hw) ∧
    (∀ clock motorId percent, (reverse clock motorId percent sys).2.hw = sys.hw) ∧
    (∀ clock motorId speed, (setSpeed clock motorId speed sys).2.hw = sys.hw) ∧
    (∀ clock speed, (setSpeedAll clock speed sys).2.hw = sys.hw) ∧
    (∀ clock motorId, (stop clock motorId sys).2.hw = sys.hw) ∧
    (∀ clock, (stopAll clock sys).2.hw = sys.hw) := by
  have hfold : ∀ (f : System → Nat → System) (l : List Nat) (s : System),
      (∀ s i, (f s i).hw = s.hw) → (l.foldl f s).hw = s.hw := by
    intro f l
    induction l with
    | nil => intro s _; rfl
    | cons a t ih => intro s hf; rw [List.foldl_cons, ih _ hf, hf]
  refine ⟨?_, ?_, ?_, ?_, ?_, ?_, ?_⟩
  · intro speed
    unfold setDefaultSpeed
    simp only
    split_ifs <;> rfl
  · intro clock motorId percent
    unfold forward
    simp only
    split_ifs <;> rfl
  · intro clock motorId percent
    unfold reverse
    simp only
    split_ifs <;> rfl
  · intro clock motorId speed
    unfold setSpeed
    simp only
    split_ifs <;> rfl
  · intro clock speed
    unfold setSpeedAll
    simp only
    split_ifs
    · rfl
    all_goals
      show (List.foldl _ sys _).hw = sys.hw
      rw [hfold]
      intro s i
      rfl
  · intro clock motorId
    unfold stop
    simp only
    split_ifs <;> rfl
  · intro clock
    unfold stopAll
    simp only
    split_ifs
    · rfl
    · show (List.foldl _ sys _).hw = sys.hw
      rw [hfold]
      intro s i
      rfl

theorem step_exclusive (clock : Nat) (op : Op) (sys : System) (h : DirectionsExclusive sys) :
    DirectionsExclusive (step clock op sys) := by
  have hc := command_hw sys
  cases op with
  | transitionTo newState => exact h
  | arm => exact h
  | disarm => exact h
  | enterSafe => exact h
  | stateUpdate => exact h
  | resetTimeout => exact h
  | setTimeout timeoutMs => exact h
  | init => exact init_exclusive sys
  | setDefaultSpeed speed => exact exclusive_of_hw _ _ (hc.1 speed) h
  | forward motorId percent => exact exclusive_of_hw _ _ (hc.2.1 clock motorId percent) h
  | forwardDefault motorId => exact exclusive_of_hw _ _ (hc.2.1 clock _ _) h
  | reverse motorId percent => exact exclusive_of_hw _ _ (hc.2.2.1 clock motorId percent) h
  | reverseDefault motorId => exact exclusive_of_hw _ _ (hc.2.2.1 clock _ _) h
  | setSpeed motorId speed => exact exclusive_of_hw _ _ (hc.2.2.2.1 clock motorId speed) h
  | setSpeedAll speed => exact exclusive_of_hw _ _ (hc.2.2.2.2.1 clock speed) h
  | stop motorId => exact exclusive_of_hw _ _ (hc.2.2.2.2.2.1 clock motorId) h
  | stopAll => exact exclusive_of_hw _ _ (hc.2.2.2.2.2.2 clock) h
  | emergencyStop => exact emergencyStop_exclusive sys h
  | motorUpdate => exact update_exclusive clock sys h

theorem run_exclusive (calls : List (Nat × Op)) (sys : System) (h : DirectionsExclusive sys) :
    DirectionsExclusive (run calls sys) := by
  induction calls generalizing sys with
  | nil => exact h
  | cons c cs ih => exact ih _ (step_exclusive c.1 c.2 sys h)

/-- C34 (output commit): in ARMED mode, when `update()` processes channel `i` (speeds in
`[-255, 255]`, current ≠ target, ramp interval elapsed) of a group that is not
faulted, it commits the new current speed `s` of the channel: the duty of the
channel's PWM channel is `|s|`, which is at most 255; its first direction pin is HIGH
exactly when `s > 0` and its second exactly when `s < 0`, so (HIGH, LOW), (LOW, HIGH)
or (LOW, LOW); the two are not both HIGH; and the time of the channel's last ramp step
is the current time.  Moreover, in every state that a sequence of public calls reaches
from start-up, no channel `j` has both of its direction pins HIGH. -/
theorem C34_output_commit (clock : Nat) (sys : System) (i : Nat) (hi : i < NUM_MOTORS)
    (hm : sys.systemState.currentState_ = SystemState.ARMED)
    (hc : -255 ≤ sys.motorControl.currentSpeed_ i ∧ sys.motorControl.currentSpeed_ i ≤ 255)
    (ht : -255 ≤ sys.motorControl.targetSpeed_ i ∧ sys.motorControl.targetSpeed_ i ≤ 255)
    (herr : sys.motorControl.driverError_ (getDriverId (indexToMotorId i)) = false)
    (hne : sys.motorControl.currentSpeed_ i ≠ sys.motorControl.targetSpeed_ i)
    (hel : sub32 (millis clock) (sys.motorControl.lastUpdateTime_ i) ≥ RAMP_INTERVAL_MS)
    (hw : Hardware) (calls : List (Nat × Op)) (j : Nat) (hj : j < NUM_MOTORS) :
    (MotorControl.update clock sys).hw.duty i
      = (cabs ((MotorControl.update clock sys).motorControl.currentSpeed_ i)).toNat ∧
    (MotorControl.update clock sys).hw.duty i ≤ 255 ∧
    (MotorControl.update clock sys).hw.pin (directionPins i).1
      = decide ((MotorControl.update clock sys).motorControl.currentSpeed_ i > 0) ∧
    (MotorControl.update clock sys).hw.pin (directionPins i).2
      = decide ((MotorControl.update clock sys).motorControl.currentSpeed_ i < 0) ∧
    ¬ ((MotorControl.update clock sys).hw.pin (directionPins i).1 = true ∧
      (MotorControl.update clock sys).hw.pin (directionPins i).2 = true) ∧
    (MotorControl.update clock sys).motorControl.lastUpdateTime_ i = millis clock ∧
    ¬ ((run calls (System.started hw)).hw.pin (directionPins j).1 = true ∧
      (run calls (System.started hw)).hw.pin (directionPins j).2 = true) := by
  have hi5 : i < 5 := hi
  have hd : getDriverId (indexToMotorId i) = i / 2 := by
    interval_cases i <;> rfl
  rw [hd] at herr
  have hk : ¬ (sys.motorControl.currentSpeed_ i = sys.motorControl.targetSpeed_ i ∨
      sub32 (millis clock) (sys.motorControl.lastUpdateTime_ i) < RAMP_INTERVAL_MS) := by
    intro h
    rcases h with h | h
    · exact hne h
    · omega
  obtain ⟨-, -, -, u4⟩ := update_channel_armed clock sys i hi5 hm hc ht
  obtain ⟨v1, v2⟩ := u4 hk
  have hr := (rampStep_cases _ _ hc ht).2.2.2
  have hu : MotorControl.update clock sys
      = (List.range NUM_MOTORS).foldl (updateMotor SystemState.ARMED (millis clock)) sys := by
    simp [MotorControl.update, getCurrentState, SystemStateManager.getState, hm]
  obtain ⟨sA, ⟨hA, -⟩, hB, hBo⟩ := loop_output SystemState.ARMED (millis clock) sys i hi5
  rw [← hu] at hB hBo
  obtain ⟨a1, a2, -, a4, -, a6⟩ := hA
  obtain ⟨b1, -⟩ := hB
  obtain ⟨o1, o2, o3⟩ := hBo
  obtain ⟨w1, w2, w3⟩ := updateMotor_outputs_armed (millis clock) sA i hi5
    (by rw [a1]; exact hc) (by rw [a2]; exact ht) (by rw [a1, a2, a4]; exact hk)
    (by rw [a6]; exact herr)
  rw [← b1] at w1 w2 w3
  rw [← o1] at w1
  rw [← o2] at w2
  rw [← o3] at w3
  refine ⟨w1, ?_, w2, w3, ?_, v2,
    run_exclusive calls (System.started hw) (init_exclusive (System.constructed hw)) j hj⟩
  · rw [w1, v1]
    simp only [cabs]
    split_ifs <;> omega
  · rw [w2, w3]
    simp only [decide_eq_true_eq]
    omega

/-- C34 (instance): channel 1 of the running sample state (current 10, target 100) is
processed at 120 ms: duty 20, direction pins (HIGH, LOW), last ramp step at 120 ms; and
channel 2, driven in reverse after start-up, does not have both direction pins HIGH. -/
theorem C34_output_commit_witness :
    (MotorControl.update 120 sampleRunning).hw.duty 0
      = (cabs ((MotorControl.update 120 sampleRunning).motorControl.currentSpeed_ 0)).toNat ∧
    (MotorControl.update 120 sampleRunning).hw.duty 0 ≤ 255 ∧
    (MotorControl.update 120 sampleRunning).hw.pin (directionPins 0).1
      = decide ((MotorControl.update 120 sampleRunning).motorControl.currentSpeed_ 0 > 0) ∧
    (MotorControl.update 120 sampleRunning).hw.pin (directionPins 0).2
      = decide ((MotorControl.update 120 sampleRunning).motorControl.currentSpeed_ 0 < 0) ∧
    ¬ ((MotorControl.update 120 sampleRunning).hw.pin (directionPins 0).1 = true ∧
      (MotorControl.update 120 sampleRunning).hw.pin (directionPins 0).2 = true) ∧
    (MotorControl.update 120 sampleRunning).motorControl.lastUpdateTime_ 0 = millis 120 ∧
    ¬ ((run [(0, Op.transitionTo SystemState.IDLE), (10, Op.arm), (20, Op.setSpeed 2 (-100)),
          (70, Op.motorUpdate)] (System.started Hardware.allLow)).hw.pin
        (directionPins 1).1 = true ∧
      (run [(0, Op.transitionTo SystemState.IDLE), (10, Op.arm), (20, Op.setSpeed 2 (-100)),
          (70, Op.motorUpdate)] (System.started Hardware.allLow)).hw.pin
        (directionPins 1).2 = true) :=
  C34_output_commit 120 sampleRunning 0 (by decide) (by decide) (by decide) (by decide)
    (by decide) (by decide) (by decide) Hardware.allLow
    [(0, Op.transitionTo SystemState.IDLE), (10, Op.arm), (20, Op.setSpeed 2 (-100)),
      (70, Op.motorUpdate)] 1 (by decide)

end Final

end MotionBrain
